import Mathlib

/-!
# The Circula signup test suites

A shallow embedding of `testDataHelper.js` (Cypress variant) and of
`testDataHelper.js` / `testDataHelper.ts` (Playwright variants), and of the
page objects `BasePage`, `SignupStep1Page` and `SignupStep3Page`:

* JavaScript strings are sequences of UTF-16 code units;
* the two regular expressions of the helpers are values of a small regular
  expression syntax, run by a backtracking matcher with continuations;
* `faker` is an oracle threaded through the code as explicit state;
* the unbounded `while` loop of `generateSecurePassword` takes a fuel argument
  that bounds the number of iterations the model follows;
* the browser (Playwright) and the test runner (Cypress) are oracles that
  decide how every call ends; a run records the calls made with their
  outcomes;
* the signup wizard itself, whose code is not in the repository, is modelled
  from the specification in the namespace `SignupFlow`.
-/

namespace Circula

/-! ## JavaScript strings -/

/-- A UTF-16 code unit. -/
abbrev CodeUnit := Nat

/-- A JavaScript string: its sequence of UTF-16 code units, so that `length`
is the JavaScript `length`. -/
abbrev JSString := List CodeUnit

/-- The code units of a string literal of the source (all of them are ASCII). -/
def lit (s : String) : JSString := s.toList.map Char.toNat

/-- ECMAScript `LineTerminator`: LF, CR, LS, PS. -/
def isLineTerminator (c : CodeUnit) : Bool :=
  c == 0x0A || c == 0x0D || c == 0x2028 || c == 0x2029

/-- The class `[A-Za-z]`. -/
def isAsciiLetter (c : CodeUnit) : Bool :=
  (65 ≤ c && c ≤ 90) || (97 ≤ c && c ≤ 122)

/-- The class `\d` (without the `u`/`v` flags it is `[0-9]`). -/
def isDigit (c : CodeUnit) : Bool :=
  48 ≤ c && c ≤ 57

/-! ## Regular expressions -/

/-- One-character atoms of the patterns used by the helpers. -/
inductive CharClass where
  /-- the atom `.` (no `s` flag): any code unit except a line terminator -/
  | dot
  /-- the class `[A-Za-z]` -/
  | asciiLetter
  /-- the class `\d` -/
  | digit
  /-- a literal character -/
  | char (c : CodeUnit)
  deriving DecidableEq, Repr

/-- Membership of a code unit in a class. -/
def CharClass.mem : CharClass → CodeUnit → Bool
  | .dot, c => !isLineTerminator c
  | .asciiLetter, c => isAsciiLetter c
  | .digit, c => isDigit c
  | .char d, c => c == d

/-- The fragment of ECMAScript pattern syntax used by the helpers. -/
inductive Regex where
  /-- the empty pattern -/
  | empty
  /-- the assertion `^` (no `m` flag): start of input -/
  | bol
  /-- the assertion `$` (no `m` flag): end of input -/
  | eol
  /-- one character of a class -/
  | cls (c : CharClass)
  /-- greedy `c*` -/
  | star (c : CharClass)
  /-- greedy `c{n,}` -/
  | atLeast (n : Nat) (c : CharClass)
  /-- concatenation -/
  | seq (a b : Regex)
  /-- positive lookahead `(?=a)` -/
  | look (a : Regex)
  deriving Repr

/-- Greedy `c*` followed by the continuation `k`: take as many characters as
possible, then give characters back one at a time until `k` succeeds. -/
def starK {α : Type} (c : CharClass) :
    Nat → JSString → (Nat → JSString → Option α) → Option α
  | p, [], k => k p []
  | p, x :: xs, k =>
    if c.mem x then
      match starK c (p + 1) xs k with
      | some r => some r
      | none => k p (x :: xs)
    else k p (x :: xs)

/-- Greedy `c{n,}` followed by the continuation `k`. -/
def atLeastK {α : Type} (c : CharClass) :
    Nat → Nat → JSString → (Nat → JSString → Option α) → Option α
  | 0, p, s, k => starK c p s k
  | _ + 1, _, [], _ => none
  | n + 1, p, x :: xs, k => if c.mem x then atLeastK c n (p + 1) xs k else none

/-- The backtracking matcher: `r.matchK p s k` matches `r` at index `p`, where
`s` is the input from index `p` on, and hands the end index and the rest of
the input to the continuation `k`. -/
def Regex.matchK {α : Type} :
    Regex → Nat → JSString → (Nat → JSString → Option α) → Option α
  | .empty, p, s, k => k p s
  | .bol, p, s, k => if p = 0 then k p s else none
  | .eol, p, s, k => if s = [] then k p s else none
  | .cls _, _, [], _ => none
  | .cls c, p, x :: xs, k => if c.mem x then k (p + 1) xs else none
  | .star c, p, s, k => starK c p s k
  | .atLeast n c, p, s, k => atLeastK c n p s k
  | .seq a b, p, s, k => a.matchK p s (fun p1 s1 => b.matchK p1 s1 k)
  | .look a, p, s, k =>
    match a.matchK p s (fun _ _ => some ()) with
    | some _ => k p s
    | none => none

/-- The match attempt of `RegExp.prototype.exec` at start index `i` and, when it fails,
at the following indices (no `g` or `y` flag: the search starts at index 0).
The result is the start index of the leftmost match and the input after it. -/
def Regex.execFrom (r : Regex) : Nat → JSString → Option (Nat × JSString)
  | i, [] =>
    match r.matchK i [] (fun _ rest => some rest) with
    | some rest => some (i, rest)
    | none => none
  | i, x :: xs =>
    match r.matchK i (x :: xs) (fun _ rest => some rest) with
    | some rest => some (i, rest)
    | none => r.execFrom (i + 1) xs

/-- The method `RegExp.prototype.test`. -/
def Regex.test (r : Regex) (s : JSString) : Bool :=
  (r.execFrom 0 s).isSome

/-- The pattern `/^(?=.*[A-Za-z])(?=.*\d).{8,}$/`. -/
def passwordRegex : Regex :=
  .seq .bol
    (.seq (.look (.seq (.star .dot) (.cls .asciiLetter)))
      (.seq (.look (.seq (.star .dot) (.cls .digit)))
        (.seq (.atLeast 8 .dot) .eol)))

/-- The search of `String.prototype.replace` with a pattern without the `g`
flag and a replacement without `$`: the leftmost match, looked for from index
`i` on, is replaced by `repl`; without a match the input is unchanged. -/
def Regex.replaceFrom (r : Regex) (repl : JSString) : Nat → JSString → JSString
  | i, [] =>
    match r.matchK i [] (fun _ rest => some rest) with
    | some rest => repl ++ rest
    | none => []
  | i, x :: xs =>
    match r.matchK i (x :: xs) (fun _ rest => some rest) with
    | some rest => repl ++ rest
    | none => x :: r.replaceFrom repl (i + 1) xs

/-- The call `s.replace(r, repl)`. -/
def Regex.replace (r : Regex) (s repl : JSString) : JSString :=
  r.replaceFrom repl 0 s

/-- The pattern `/@.*$/`. -/
def emailDomainRegex : Regex :=
  .seq (.cls (.char 64)) (.seq (.star .dot) .eol)

/-! ## The random source -/

/-- The methods of `faker` called by the helpers. The generator state of the
library is the explicit state `σ`: every call takes the current state and
returns its result with the next state. Nothing is assumed about the strings
returned. -/
structure Faker (σ : Type) where
  /-- the method `faker.internet.password({ length: n, memorable: false })` -/
  internetPassword : Nat → σ → JSString × σ
  /-- the method `faker.string.numeric(n)` -/
  stringNumeric : Nat → σ → JSString × σ
  /-- the method `faker.internet.email()` -/
  internetEmail : σ → JSString × σ
  /-- the method `faker.internet.username()` -/
  internetUsername : σ → JSString × σ
  /-- the method `faker.name.firstName()` -/
  nameFirstName : σ → JSString × σ
  /-- the method `faker.name.lastName()` -/
  nameLastName : σ → JSString × σ
  /-- the method `faker.person.firstName()` -/
  personFirstName : σ → JSString × σ
  /-- the method `faker.person.lastName()` -/
  personLastName : σ → JSString × σ
  /-- the method `faker.company.name()` -/
  companyName : σ → JSString × σ

/-! ## `generateSecurePassword` -/

/-- The right-hand side of the assignment in the loop body:
`faker.internet.password({ length: 8, memorable: false }) + faker.string.numeric(1) + "A!"`,
evaluated left to right. -/
def candidate {σ : Type} (f : Faker σ) (g : σ) : JSString × σ :=
  let r1 := f.internetPassword 8 g
  let r2 := f.stringNumeric 1 r1.2
  (r1.1 ++ r2.1 ++ lit "A!", r2.2)

/-- The loop `while (!/^(?=.*[A-Za-z])(?=.*\d).{8,}$/.test(password)) { password = ... }`
followed by `return password`. The first argument is the fuel: the number of
runs of the body the model may still follow; `none` means that the loop has
not exited within the fuel. -/
def generateSecurePasswordLoop {σ : Type} (f : Faker σ) :
    Nat → JSString → σ → Option (JSString × σ)
  | 0, password, g =>
    if passwordRegex.test password then some (password, g) else none
  | fuel + 1, password, g =>
    if passwordRegex.test password then some (password, g)
    else generateSecurePasswordLoop f fuel (candidate f g).1 (candidate f g).2

/-- The function `generateSecurePassword`: `let password = ''`, then the loop. -/
def generateSecurePassword {σ : Type} (f : Faker σ) (fuel : Nat) (g : σ) :
    Option (JSString × σ) :=
  generateSecurePasswordLoop f fuel (lit "") g

/-! ## Fixture values and `getTestData` -/

/-- The values a property of the parsed fixture can have. `undefined` is the
value of an absent property, `object` stands for any array or object.
Numbers are integers here: a fraction behaves like a non-zero integer in the
two operations the helpers apply (`===` with a string and `||`). -/
inductive JSValue where
  | undefined
  | null
  | bool (b : Bool)
  | number (n : Int)
  | string (s : JSString)
  | object
  deriving DecidableEq, Repr

/-- The comparison `v === "..."` with a string literal. -/
def JSValue.strictEqString (v : JSValue) (s : JSString) : Bool :=
  match v with
  | .string t => decide (t = s)
  | _ => false

/-- ECMAScript `ToBoolean`. -/
def JSValue.toBoolean : JSValue → Bool
  | .undefined => false
  | .null => false
  | .bool b => b
  | .number n => decide (n ≠ 0)
  | .string s => decide (s ≠ [])
  | .object => true

/-- The expression `a || b`. -/
def JSValue.or (a b : JSValue) : JSValue :=
  if a.toBoolean then a else b

/-- The keys of `circulaTestData.json` read by the helpers. -/
structure Fixture where
  email : JSValue
  password : JSValue
  firstName : JSValue
  lastName : JSValue
  phoneNumber : JSValue
  companyName : JSValue
  country : JSValue
  hearAboutUs : JSValue
  deriving DecidableEq, Repr

/-- The object returned by `getTestData`. -/
structure Profile where
  email : JSValue
  password : JSValue
  firstName : JSValue
  lastName : JSValue
  phoneNumber : JSValue
  companyName : JSValue
  country : JSValue
  hearAboutUs : JSValue
  deriving DecidableEq, Repr

/-- The template literal
`+49 ${faker.string.numeric(3)} ${faker.string.numeric(3)} ${faker.string.numeric(4)}`. -/
def phoneNumberTemplate {σ : Type} (f : Faker σ) (g : σ) : JSString × σ :=
  let a := f.stringNumeric 3 g
  let b := f.stringNumeric 3 a.2
  let c := f.stringNumeric 4 b.2
  (lit "+49 " ++ a.1 ++ lit " " ++ b.1 ++ lit " " ++ c.1, c.2)

namespace Cypress

/-- The expression `faker.internet.email().replace(/@.*$/, '@check.de')`. -/
def dynamicEmail {σ : Type} (f : Faker σ) (g : σ) : JSString × σ :=
  let r := f.internetEmail g
  (emailDomainRegex.replace r.1 (lit "@check.de"), r.2)

/-- The conditional `v === "DYNAMIC" ? gen() : v` of one field. -/
def dynamicOr {σ : Type} (v : JSValue) (gen : σ → JSString × σ) (g : σ) : JSValue × σ :=
  if v.strictEqString (lit "DYNAMIC") then (.string (gen g).1, (gen g).2) else (v, g)

/-- The conditional of the field `password`, whose generator is a loop. -/
def dynamicPassword {σ : Type} (f : Faker σ) (fuel : Nat) (v : JSValue) (g : σ) :
    Option (JSValue × σ) :=
  if v.strictEqString (lit "DYNAMIC") then
    match generateSecurePassword f fuel g with
    | some r => some (.string r.1, r.2)
    | none => none
  else some (v, g)

/-- The Cypress `getTestData`; `testData` is the fixture loaded by `require`.
The properties of the object literal are evaluated in source order. `none`
means that the loop of `generateSecurePassword` has not exited within `fuel`
runs of its body. -/
def getTestData {σ : Type} (f : Faker σ) (fuel : Nat) (testData : Fixture) (g : σ) :
    Option (Profile × σ) :=
  let email := dynamicOr testData.email (dynamicEmail f) g
  match dynamicPassword f fuel testData.password email.2 with
  | none => none
  | some password =>
    let firstName := dynamicOr testData.firstName f.nameFirstName password.2
    let lastName := dynamicOr testData.lastName f.nameLastName firstName.2
    let phoneNumber := dynamicOr testData.phoneNumber (phoneNumberTemplate f) lastName.2
    let companyName := dynamicOr testData.companyName f.companyName phoneNumber.2
    some ({ email := email.1
            password := password.1
            firstName := firstName.1
            lastName := lastName.1
            phoneNumber := phoneNumber.1
            companyName := companyName.1
            country := testData.country.or (.string (lit "Germany"))
            hearAboutUs := testData.hearAboutUs.or (.string (lit "Google")) },
          companyName.2)

end Cypress

namespace Playwright

/-- The exceptions `getTestData` can raise: the one of `fs.readFileSync`, the
`SyntaxError` of `JSON.parse`, and the `TypeError` of a property access on
`null`. -/
inductive JSError where
  | fileSystem
  | syntaxError
  | typeError
  deriving DecidableEq, Repr

/-- The Playwright `getTestData` (the JavaScript and the TypeScript variant
have the same body). `readFileSync` is the outcome of
`fs.readFileSync(testDataPath, 'utf-8')` and `jsonParse` is `JSON.parse`; a
parsed value is `none` for the JSON text `null` and otherwise the record of
its properties (all `undefined` for a number, a string, a boolean or an
array). `toLowerCase` is `String.prototype.toLowerCase`. The outer `none`
means that the loop of `generateSecurePassword` has not exited within `fuel`
runs of its body. -/
def getTestData {σ : Type} (f : Faker σ) (toLowerCase : JSString → JSString) (fuel : Nat)
    (readFileSync : Except JSError JSString)
    (jsonParse : JSString → Except JSError (Option Fixture)) (g : σ) :
    Option (Except JSError (Profile × σ)) :=
  match readFileSync with
  | .error e => some (.error e)
  | .ok rawData =>
    match jsonParse rawData with
    | .error e => some (.error e)
    | .ok testData =>
      let username := f.internetUsername g
      match generateSecurePassword f fuel username.2 with
      | none => none
      | some password =>
        let firstName := f.personFirstName password.2
        let lastName := f.personLastName firstName.2
        let phoneNumber := phoneNumberTemplate f lastName.2
        let companyName := f.companyName phoneNumber.2
        match testData with
        | none => some (.error .typeError)
        | some t =>
          some (.ok ({ email := .string (toLowerCase username.1 ++ lit "@check.de")
                       password := .string password.1
                       firstName := .string firstName.1
                       lastName := .string lastName.1
                       phoneNumber := .string phoneNumber.1
                       companyName := .string companyName.1
                       country := t.country
                       hearAboutUs := t.hearAboutUs },
                     companyName.2))

end Playwright

/-- A value is populated when it is neither `undefined` (absent) nor `null`. -/
def JSValue.populated (v : JSValue) : Bool :=
  v != .undefined && v != .null

/-! ## Sample random sources -/

/-- A source with a counter as state: the password draw is `n` copies of `x`,
the numeric draw is `n` copies of `7`, the other draws are fixed strings. -/
def sampleFaker : Faker Nat where
  internetPassword n g := (List.replicate n 120, g + 1)
  stringNumeric n g := (List.replicate n 55, g + 1)
  internetEmail g := (lit "Jane.Doe@example.org", g + 1)
  internetUsername g := (lit "Jane_Doe", g + 1)
  nameFirstName g := (lit "Jane", g + 1)
  nameLastName g := (lit "Doe", g + 1)
  personFirstName g := (lit "Jane", g + 1)
  personLastName g := (lit "Doe", g + 1)
  companyName g := (lit "Acme", g + 1)

/-- A source like `sampleFaker` whose password draw ends in a line feed. -/
def stuckFaker : Faker Nat where
  internetPassword _ g := (lit "abcdefg\n", g + 1)
  stringNumeric n g := (List.replicate n 55, g + 1)
  internetEmail g := (lit "Jane.Doe@example.org", g + 1)
  internetUsername g := (lit "Jane_Doe", g + 1)
  nameFirstName g := (lit "Jane", g + 1)
  nameLastName g := (lit "Doe", g + 1)
  personFirstName g := (lit "Jane", g + 1)
  personLastName g := (lit "Doe", g + 1)
  companyName g := (lit "Acme", g + 1)

/-- ASCII lower-casing, the value of `toLowerCase` on ASCII strings. -/
def asciiToLowerCase (s : JSString) : JSString :=
  s.map fun c => if 65 ≤ c ∧ c ≤ 90 then c + 32 else c

/-- A fixture with concrete values in every field. -/
def staticFixture : Fixture where
  email := .string (lit "a@check.de")
  password := .string (lit "Passw0rdA!")
  firstName := .string (lit "Jane")
  lastName := .string (lit "Doe")
  phoneNumber := .string (lit "+49 123 456 7890")
  companyName := .string (lit "Acme")
  country := .string (lit "Austria")
  hearAboutUs := .string (lit "LinkedIn")

/-- A fixture with the sentinel in the six generated fields and without the
keys `country` and `hearAboutUs`. -/
def dynamicFixture : Fixture where
  email := .string (lit "DYNAMIC")
  password := .string (lit "DYNAMIC")
  firstName := .string (lit "DYNAMIC")
  lastName := .string (lit "DYNAMIC")
  phoneNumber := .string (lit "DYNAMIC")
  companyName := .string (lit "DYNAMIC")
  country := .undefined
  hearAboutUs := .undefined

/-- A fixture without any of the keys: the JSON text `{}`. -/
def emptyFixture : Fixture where
  email := .undefined
  password := .undefined
  firstName := .undefined
  lastName := .undefined
  phoneNumber := .undefined
  companyName := .undefined
  country := .undefined
  hearAboutUs := .undefined

/-- The profile the Cypress `getTestData` builds from `dynamicFixture` with
`sampleFaker`. -/
def sampleProfile : Profile where
  email := .string (lit "Jane.Doe@check.de")
  password := .string (lit "xxxxxxxx7A!")
  firstName := .string (lit "Jane")
  lastName := .string (lit "Doe")
  phoneNumber := .string (lit "+49 777 777 7777")
  companyName := .string (lit "Acme")
  country := .string (lit "Germany")
  hearAboutUs := .string (lit "Google")

/-- The sentinel rule for one field: `out` is a generated string when the
fixture value `v` is the string `DYNAMIC`, and `v` itself otherwise;
`generated` tells which strings the generator of the field can return. -/
def SentinelRule (v out : JSValue) (generated : JSString → Prop) : Prop :=
  (v = .string (lit "DYNAMIC") → ∃ s, generated s ∧ out = .string s) ∧
    (v ≠ .string (lit "DYNAMIC") → out = v)

/-- The profile the Playwright `getTestData` builds with `sampleFaker` and
ASCII lower-casing from a fixture `t`. -/
def playwrightSampleProfile (t : Fixture) : Profile where
  email := .string (lit "jane_doe@check.de")
  password := .string (lit "xxxxxxxx7A!")
  firstName := .string (lit "Jane")
  lastName := .string (lit "Doe")
  phoneNumber := .string (lit "+49 777 777 7777")
  companyName := .string (lit "Acme")
  country := t.country
  hearAboutUs := t.hearAboutUs

/-- A text for the fixture file in the sample runs; what it parses to is
given by the `jsonParse` argument of each run. -/
def sampleRawData : JSString := lit "circulaTestData"

/-- A source like `sampleFaker` whose email draw has no `@`. -/
def noAtFaker : Faker Nat where
  internetPassword n g := (List.replicate n 120, g + 1)
  stringNumeric n g := (List.replicate n 55, g + 1)
  internetEmail g := (lit "jane.doe", g + 1)
  internetUsername g := (lit "Jane_Doe", g + 1)
  nameFirstName g := (lit "Jane", g + 1)
  nameLastName g := (lit "Doe", g + 1)
  personFirstName g := (lit "Jane", g + 1)
  personLastName g := (lit "Doe", g + 1)
  companyName g := (lit "Acme", g + 1)

/-- The phone format `+49 XXX XXX XXXX`: the country code and a space, then
10 digits in the grouping 3-3-4 separated by spaces; 16 code units in all,
the spaces exactly at the indices 3, 7 and 11. -/
def PhoneFormat (s : JSString) : Prop :=
  (∃ a b c : JSString, a.length = 3 ∧ b.length = 3 ∧ c.length = 4 ∧
    (∀ d ∈ a ++ b ++ c, isDigit d = true) ∧
    s = lit "+49 " ++ a ++ lit " " ++ b ++ lit " " ++ c) ∧
  s.length = 16 ∧
  ∀ i, i < 16 → (s[i]? = some 32 ↔ i = 3 ∨ i = 7 ∨ i = 11)

/-! ## Page objects of the Playwright suites -/

/-- How a call ends: it returns a value, or it raises an error with a message. -/
inductive Outcome (α : Type) where
  | returned (v : α)
  | raised (message : JSString)
  deriving DecidableEq, Repr

namespace Playwright

/-- A locator. Building one (`page.locator`, `first`, `locator`) touches no page. -/
inductive Locator where
  /-- the locator `page.locator(selector)` -/
  | page (selector : JSString)
  /-- the locator `l.first()` -/
  | first (l : Locator)
  /-- the locator `l.locator(selector)` -/
  | locator (l : Locator) (selector : JSString)
  deriving DecidableEq, Repr

/-- The calls on the page that the page objects await, and `console.log`. -/
inductive Action where
  /-- the call `page.goto(url)` -/
  | goto (url : JSString)
  /-- the call `l.click()`, or `l.click({ force: true, trial: false })` when `force` -/
  | click (l : Locator) (force : Bool)
  /-- the call `l.fill(value)` -/
  | fill (l : Locator) (value : JSString)
  /-- the call `l.check({ force })` -/
  | check (l : Locator) (force : Bool)
  /-- the call `l.inputValue()` -/
  | inputValue (l : Locator)
  /-- the call `l.isEnabled()` -/
  | isEnabled (l : Locator)
  /-- the call `l.isVisible()` -/
  | isVisible (l : Locator)
  /-- the call `l.waitFor({ state: 'visible', timeout })` -/
  | waitForVisible (l : Locator) (timeout : Option Nat)
  /-- the call `l.scrollIntoViewIfNeeded()` -/
  | scrollIntoViewIfNeeded (l : Locator)
  /-- the call `l.hover()` -/
  | hover (l : Locator)
  /-- the call `page.waitForTimeout(ms)` -/
  | waitForTimeout (ms : Nat)
  /-- the call `l.elementHandle()` -/
  | elementHandle (l : Locator)
  /-- the call `page.evaluate((el) => { if (el instanceof HTMLElement) el.click(); }, handle)` -/
  | evaluateClick (handle : JSValue)
  /-- the call `console.log(message)` -/
  | consoleLog (message : JSString)
  deriving DecidableEq, Repr

/-- One call of a run with the way it ended. -/
abbrev Event := Action × Outcome JSValue

/-- The browser: it decides how every call ends, from its own state `σ`.
Nothing is assumed about it. -/
structure Browser (σ : Type) where
  /-- the outcome of a call in a state, and the next state -/
  perform : Action → σ → Outcome JSValue × σ

/-- A run in progress: the state of the browser and the calls made so far. -/
structure Session (σ : Type) where
  state : σ
  trace : List Event

/-- An `async` function body: from a session to its outcome and the session
it leaves. Every `await` is a sequence point; nothing else runs in between. -/
abbrev Step (σ α : Type) := Session σ → Outcome α × Session σ

/-- One awaited call on the page. -/
def call {σ : Type} (b : Browser σ) (a : Action) : Step σ JSValue := fun s =>
  match b.perform a s.state with
  | (r, st) => (r, { state := st, trace := s.trace ++ [(a, r)] })

/-- The call `console.log(message)`: it is recorded and never raises. -/
def consoleLog {σ : Type} (message : JSString) : Step σ JSValue := fun s =>
  (.returned .undefined,
    { s with trace := s.trace ++ [(.consoleLog message, .returned .undefined)] })

/-- Sequencing: `k` runs on the value of `m`; an error raised by `m` propagates. -/
def Step.andThen {σ α β : Type} (m : Step σ α) (k : α → Step σ β) : Step σ β := fun s =>
  match m s with
  | (.returned v, s1) => k v s1
  | (.raised e, s1) => (.raised e, s1)

/-- The method `BasePage.clickElement`. -/
def clickElement {σ : Type} (b : Browser σ) (element : Locator) : Step σ JSValue :=
  (call b (.click element false)).andThen fun _ s => (.returned .undefined, s)

/-- The method `BasePage.isElementVisible`. -/
def isElementVisible {σ : Type} (b : Browser σ) (element : Locator) : Step σ JSValue :=
  call b (.isVisible element)

/-- The method `BasePage.isElementClickable`:
`return await element.isEnabled() && await element.isVisible()`. -/
def isElementClickable {σ : Type} (b : Browser σ) (element : Locator) : Step σ JSValue :=
  (call b (.isEnabled element)).andThen fun enabled =>
    if enabled.toBoolean then call b (.isVisible element)
    else fun s => (.returned enabled, s)

/-- The message of the `console.log` in the `catch` block of
`selectDynamicDropDown`; its first character is U+1F504, two code units. -/
def retryMessage (dropDownText : JSString) (i : Nat) : JSString :=
  [0xD83D, 0xDD04] ++ lit " Retry clicking " ++ dropDownText ++ lit " (attempt " ++
    lit (toString (i + 1)) ++ lit ")"

/-- The message of the error thrown at the end of `selectDynamicDropDown`; its
first character is U+274C. -/
def failureMessage (dropDownText : JSString) : JSString :=
  [0x274C] ++ lit " Failed to click on " ++ dropDownText

/-- The `try` block of the retry loop of `selectDynamicDropDown`. -/
def attemptClick {σ : Type} (b : Browser σ) (optionLocator : Locator) : Step σ JSValue :=
  (call b (.hover optionLocator)).andThen fun _ =>
  (call b (.waitForTimeout 200)).andThen fun _ =>
  call b (.click optionLocator true)

/-- The `catch` block of the retry loop of `selectDynamicDropDown`. -/
def fallbackClick {σ : Type} (b : Browser σ) (optionLocator : Locator)
    (dropDownText : JSString) (i : Nat) : Step σ JSValue :=
  (consoleLog (retryMessage dropDownText i)).andThen fun _ =>
  (call b (.elementHandle optionLocator)).andThen fun handle =>
  (call b (.evaluateClick handle)).andThen fun _ =>
  call b (.waitForTimeout 200)

/-- The loop `for (let i = 0; i < 3; i++) { try ... catch ... }` of
`selectDynamicDropDown` followed by the final `throw`; the first argument is
the number `3 - i` of iterations left. -/
def selectDynamicDropDownLoop {σ : Type} (b : Browser σ) (optionLocator : Locator)
    (dropDownText : JSString) : Nat → Step σ JSValue
  | 0 => fun s => (.raised (failureMessage dropDownText), s)
  | n + 1 => fun s =>
    match attemptClick b optionLocator s with
    | (.returned _, s1) => (.returned .undefined, s1)
    | (.raised _, s1) =>
      ((fallbackClick b optionLocator dropDownText (3 - (n + 1))).andThen fun _ =>
        selectDynamicDropDownLoop b optionLocator dropDownText n) s1

/-- The locator `optionLocator` of `selectDynamicDropDown`. -/
def optionLocator (dropdownValuesLocator : Locator) (dropDownText : JSString) : Locator :=
  .locator dropdownValuesLocator (lit "text=" ++ dropDownText)

/-- The method `BasePage.selectDynamicDropDown`. -/
def selectDynamicDropDown {σ : Type} (b : Browser σ)
    (dropdownLocator dropdownValuesLocator : Locator) (dropDownText : JSString) :
    Step σ JSValue :=
  (call b (.click dropdownLocator false)).andThen fun _ =>
  (call b (.waitForVisible (.first dropdownValuesLocator) (some 5000))).andThen fun _ =>
  (call b (.waitForVisible (optionLocator dropdownValuesLocator dropDownText)
    (some 5000))).andThen fun _ =>
  (call b (.scrollIntoViewIfNeeded
    (optionLocator dropdownValuesLocator dropDownText))).andThen fun _ =>
  selectDynamicDropDownLoop b (optionLocator dropdownValuesLocator dropDownText) dropDownText 3

/-- The locator `acceptAllButton` of `acceptCookiesIfPresent`. -/
def acceptAllButton : Locator :=
  .page (lit "[data-testid=\"uc-accept-all-button\"]")

/-- The method `BasePage.acceptCookiesIfPresent`: the `try` block with its
`catch` block. -/
def acceptCookiesIfPresent {σ : Type} (b : Browser σ) : Step σ JSValue := fun s =>
  match ((call b (.waitForVisible acceptAllButton (some 5000))).andThen fun _ =>
      call b (.click acceptAllButton false)) s with
  | (.returned _, s1) => (.returned .undefined, s1)
  | (.raised _, s1) => consoleLog (lit "Accept button not found within timeout.") s1

/-- The locator `createAccountButton` of `SignupStep3Page`. -/
def createAccountButton : Locator :=
  .page (lit "button:has-text('Create an account')")

/-- The locator `countryDropdown` of `SignupStep3Page`. -/
def countryDropdown : Locator :=
  .page (lit "input[name=\"country\"]")

/-- The locator `countryDropdownValues` of `SignupStep3Page`. -/
def countryDropdownValues : Locator :=
  .page (lit "div[data-testid=\"autocomplete-menu-portal\"]>ul>li>div")

/-- The method `SignupStep3Page.clickCreateAccount`. -/
def clickCreateAccount {σ : Type} (b : Browser σ) : Step σ JSValue :=
  clickElement b createAccountButton

/-- The method `SignupStep3Page.isSubmitButtonEnabled`. -/
def isSubmitButtonEnabled {σ : Type} (b : Browser σ) : Step σ JSValue :=
  isElementClickable b createAccountButton

/-- The method `SignupStep3Page.selectCountry`. -/
def selectCountry {σ : Type} (b : Browser σ) (countryText : JSString) : Step σ JSValue :=
  selectDynamicDropDown b countryDropdown countryDropdownValues countryText

/-- The number of forced clicks on `l` among the calls `evs`. -/
def forcedClicks (l : Locator) (evs : List Event) : Nat :=
  (evs.map Prod.fst).count (.click l true)

/-- A browser in which every forced click raises a timeout and the third
`elementHandle` call raises because the page is gone; every other call
returns. Its state counts the `elementHandle` calls. -/
def closingBrowser : Browser Nat where
  perform a g :=
    match a with
    | .click _ true => (.raised (lit "locator.click: Timeout 30000ms exceeded."), g)
    | .elementHandle _ =>
      if g < 2 then (.returned .object, g + 1)
      else (.raised (lit "locator.elementHandle: Target page, context or browser has been closed"),
        g + 1)
    | _ => (.returned .undefined, g)

/-- A browser in which every call returns: `true` for the two queries,
`undefined` otherwise. -/
def steadyBrowser : Browser Unit where
  perform a g :=
    match a with
    | .isEnabled _ => (.returned (.bool true), g)
    | .isVisible _ => (.returned (.bool true), g)
    | _ => (.returned .undefined, g)

/-- A browser showing the first signup step: the page has no
`Create an account` button, so a click on it raises a timeout, and the
queries on it answer `false`; every other call returns. -/
def step1Browser : Browser Unit where
  perform a g :=
    match a with
    | .click l _ =>
      if l = createAccountButton then
        (.raised (lit "locator.click: Timeout 30000ms exceeded."), g)
      else (.returned .undefined, g)
    | .isEnabled _ => (.returned (.bool false), g)
    | .isVisible _ => (.returned (.bool false), g)
    | _ => (.returned .undefined, g)

/-- The four opening calls of `selectDynamicDropDown`: they open the dropdown,
wait for the options and for the option wanted, and scroll to it. -/
def openDropDown {σ : Type} (b : Browser σ) (dropdownLocator dropdownValuesLocator : Locator)
    (dropDownText : JSString) : Step σ JSValue :=
  (call b (.click dropdownLocator false)).andThen fun _ =>
  (call b (.waitForVisible (.first dropdownValuesLocator) (some 5000))).andThen fun _ =>
  (call b (.waitForVisible (optionLocator dropdownValuesLocator dropDownText)
    (some 5000))).andThen fun _ =>
  call b (.scrollIntoViewIfNeeded (optionLocator dropdownValuesLocator dropDownText))

/-- Whether a call returned. -/
def isReturned (o : Outcome JSValue) : Bool :=
  match o with
  | .returned _ => true
  | .raised _ => false

/-- The number of runs of the `try` block among the calls `evs`: each run
starts with the hover on the option `l`. -/
def attempts (l : Locator) (evs : List Event) : Nat :=
  (evs.map Prod.fst).count (.hover l)

/-- The number of forced clicks on `l` that returned among the calls `evs`. -/
def successes (l : Locator) (evs : List Event) : Nat :=
  evs.countP fun ev => decide (ev.1 = .click l true) && isReturned ev.2

/-- The number of raw clicks of the `catch` block that returned among the
calls `evs`. -/
def rawClicks (evs : List Event) : Nat :=
  evs.countP fun ev =>
    (match ev.1 with
      | .evaluateClick _ => true
      | _ => false) && isReturned ev.2

/-- A browser in which the first two forced clicks raise a timeout; every other
call returns. Its state counts the forced clicks. -/
def flakyBrowser : Browser Nat where
  perform a g :=
    match a with
    | .click _ true =>
      if g < 2 then (.raised (lit "locator.click: Timeout 30000ms exceeded."), g + 1)
      else (.returned .undefined, g + 1)
    | .elementHandle _ => (.returned .object, g)
    | _ => (.returned .undefined, g)

/-- What the retry loop of `selectDynamicDropDown` and its callers guarantee, for
a body `m` allowed `n` forced clicks on the option `opt`: the calls added to
the trace hold at most `n` forced clicks; `m` returns only right after a
forced click that returned; and `m` raises either the explicit failure or the
error of its last call, which is neither a hover nor a forced click. -/
def ClickSpec {σ : Type} (opt : Locator) (text : JSString) (n : Nat) (m : Step σ JSValue) :
    Prop :=
  ∀ s, ∃ evs, (m s).2.trace = s.trace ++ evs ∧
    forcedClicks opt evs ≤ n ∧
    (∀ v, (m s).1 = .returned v → ∃ w, evs.getLast? = some (.click opt true, .returned w)) ∧
    (∀ e, (m s).1 = .raised e →
      e = failureMessage text ∨
      ∃ a, evs.getLast? = some (a, .raised e) ∧ a ≠ .hover opt ∧ a ≠ .click opt true)

end Playwright

/-! ## Page objects of the Cypress suite -/

namespace Cypress

/-- The Cypress commands that the page objects enqueue. A command of a chain
acts on the subject that the command before it yields. -/
inductive Command where
  /-- the command `cy.visit(url)` -/
  | visit (url : JSString)
  /-- the command `cy.get(selector)` -/
  | get (selector : JSString)
  /-- the command `cy.contains(content)`, or `.contains(content)` in a chain -/
  | contains (content : JSString)
  /-- the command `cy.xpath(selector)` -/
  | xpath (selector : JSString)
  /-- the command `.shadow()` -/
  | shadow
  /-- the command `.find(selector)` -/
  | find (selector : JSString)
  /-- the assertion `.should(chainer)` or `.and(chainer)` -/
  | should (chainer : JSString)
  /-- the command `.click()`, or `.click({ force: true })` when `force` -/
  | click (force : Bool)
  /-- the command `.clear()` -/
  | clear
  /-- the command `.type(text)` -/
  | type (text : JSString)
  /-- the command `.check({ force })` -/
  | check (force : Bool)
  /-- the command `.invoke(name)` -/
  | invoke (name : JSString)
  /-- the command `.scrollIntoView()` -/
  | scrollIntoView
  /-- the command `cy.wait(ms)` -/
  | wait (ms : Nat)
  /-- the command `cy.log(message)` -/
  | log (message : JSString)
  deriving DecidableEq, Repr

/-- The test runner with the page: it decides how every command ends, from
its own state `σ`. A command that finds no element or whose assertion does
not hold within its timeout ends by raising. -/
structure Runner (σ : Type) where
  /-- the outcome of a command in a state, and the next state -/
  perform : Command → σ → Outcome JSValue × σ

/-- A test in progress: the state of the runner and the commands run so far. -/
structure Session (σ : Type) where
  state : σ
  trace : List (Command × Outcome JSValue)

/-- The run of the enqueued commands, in order. A command that raises fails
the test: no later command runs. -/
def run {σ : Type} (r : Runner σ) : List Command → Session σ → Outcome Unit × Session σ
  | [], s => (.returned (), s)
  | c :: cs, s =>
    match r.perform c s.state with
    | (.returned v, st) => run r cs { state := st, trace := s.trace ++ [(c, .returned v)] }
    | (.raised e, st) => (.raised e, { state := st, trace := s.trace ++ [(c, .raised e)] })

/-- The method `BasePage.selectElement(selector, method = 'get')`; the result
is the command it issues. An `undefined` argument takes the default value. -/
def selectElement (selector : JSString) (method : JSValue) : Command :=
  if (if method = .undefined then JSValue.string (lit "get") else method).strictEqString
      (lit "contains") then .contains selector
  else if (if method = .undefined then JSValue.string (lit "get") else method).strictEqString
      (lit "xpath") then .xpath selector
  else .get selector

/-- The method `BasePage.acceptCookiesIfPresent`: the commands of its chain;
the callback of `.then` enqueues the `cy.log`. -/
def acceptCookiesIfPresent : List Command :=
  [.get (lit "div#usercentrics-root"), .shadow,
    .find (lit "[data-testid=\"uc-accept-all-button\"]"), .should (lit "be.visible"),
    .click true, .log ([0xE2, 0x153, 0x2026] ++ lit " Accepted cookies")]

/-- The method `SignupStep1Page.enterEmail`. -/
def enterEmail (emailText : JSString) : List Command :=
  [selectElement (lit "input[name='email']") (.string (lit "get")), .clear, .type emailText]

/-- The method `SignupStep1Page.enterPassword`. -/
def enterPassword (passwordText : JSString) : List Command :=
  [selectElement (lit "input[name='password']") (.string (lit "get")), .clear,
    .type passwordText]

/-- The method `SignupStep1Page.selectTermsCheckbox`. -/
def selectTermsCheckbox : List Command :=
  [.wait 2000,
    selectElement (lit "//input[@type=\"checkbox\" and @name=\"acceptTos\"]")
      (.string (lit "xpath")),
    .click true]

/-- The method `SignupStep1Page.clickTryForFree`. -/
def clickTryForFree : List Command :=
  [selectElement (lit "Try for free") (.string (lit "contains")), .click false]

/-- The method `SignupStep1Page.fillSignupForm`. -/
def fillSignupForm (emailText passwordText : JSString) : List Command :=
  acceptCookiesIfPresent ++ enterEmail emailText ++ enterPassword passwordText ++
    selectTermsCheckbox ++ clickTryForFree

/-- The method `SignupStep3Page.clickCreateAccount`. -/
def clickCreateAccount : List Command :=
  [selectElement (lit "Create an account") (.string (lit "contains")), .click false]

/-- A runner on a page without the cookie banner: `cy.get` of the banner root
finds nothing and raises after its timeout; every other command returns. -/
def noBannerRunner : Runner Unit where
  perform c g :=
    if c = .get (lit "div#usercentrics-root") then
      (.raised (lit "Timed out retrying after 4000ms: Expected to find element: div#usercentrics-root, but never found it."),
        g)
    else (.returned .undefined, g)

/-- A runner in which every command returns. -/
def steadyRunner : Runner Unit where
  perform _ g := (.returned .undefined, g)

end Cypress

/-! ## The signup wizard -/

namespace SignupFlow

/-- Modelled from the spec: the states of the signup wizard, the application
that the suites drive through the browser; its code is not in the
repository. -/
inductive SignupFlowState where
  | Login
  | Step1
  | Step2
  | Step3
  | Completed
  deriving DecidableEq, Repr

/-- Modelled from the spec: the values entered in the wizard; a selection
field is `none` while nothing is selected. -/
structure Fields where
  email : JSString
  password : JSString
  termsAccepted : Bool
  firstName : JSString
  lastName : JSString
  phoneNumber : JSString
  companyName : JSString
  country : Option JSString
  hearAboutUs : Option JSString
  deriving DecidableEq, Repr

/-- Modelled from the spec: the validation errors of the per-step contract. -/
inductive ValidationError where
  | emailRequired
  | passwordMinLength
  | acceptanceRequired
  | firstNameRequired
  | lastNameRequired
  | companyNameRequired
  | hearAboutUsRequired
  deriving DecidableEq, Repr

/-- Modelled from the spec: what the spec leaves to the application: which
addresses and phone numbers are valid, and the two allow-lists. -/
structure Rules where
  validEmail : JSString → Bool
  validPhone : JSString → Bool
  countries : List JSString
  channels : List JSString

/-- Modelled from the spec: the wizard with its state, the values entered and
the validation errors that are visible. -/
structure Flow where
  state : SignupFlowState
  fields : Fields
  errors : List ValidationError
  deriving DecidableEq, Repr

/-- Modelled from the spec: the password strength invariant (length at least
8, a letter, a digit). -/
def passwordStrong (p : JSString) : Bool :=
  decide (8 ≤ p.length) && p.any isAsciiLetter && p.any isDigit

/-- Modelled from the spec: every required field of the step is present and
valid (column `Required fields` of the per-step contract). -/
def requiredValid (rules : Rules) : SignupFlowState → Fields → Bool
  | .Step1, f =>
    decide (f.email ≠ []) && rules.validEmail f.email && passwordStrong f.password &&
      f.termsAccepted
  | .Step2, f =>
    decide (f.firstName ≠ []) && decide (f.lastName ≠ []) && decide (f.phoneNumber ≠ []) &&
      rules.validPhone f.phoneNumber
  | .Step3, f =>
    decide (f.companyName ≠ []) &&
      (match f.country with
        | some c => decide (c ∈ rules.countries)
        | none => false) &&
      (match f.hearAboutUs with
        | some c => decide (c ∈ rules.channels)
        | none => false)
  | _, _ => true

/-- Modelled from the spec: the validation errors triggered on a step (column
`Validation-error triggers` of the per-step contract); each is independent
of the others. -/
def triggered : SignupFlowState → Fields → List ValidationError
  | .Step1, f =>
    (if f.email = [] then [.emailRequired] else []) ++
    (if passwordStrong f.password then [] else [.passwordMinLength]) ++
    (if f.termsAccepted then [] else [.acceptanceRequired])
  | .Step2, f =>
    (if f.firstName = [] then [.firstNameRequired] else []) ++
    (if f.lastName = [] then [.lastNameRequired] else [])
  | .Step3, f =>
    (if f.companyName = [] then [.companyNameRequired] else []) ++
    (if f.hearAboutUs = none then [.hearAboutUsRequired] else [])
  | _, _ => []

/-- Modelled from the spec: the state after a successful advance. -/
def successor : SignupFlowState → SignupFlowState
  | .Login => .Step1
  | .Step1 => .Step2
  | .Step2 => .Step3
  | _ => .Completed

/-- Modelled from the spec: the outcome of an action: the wizard after it, or
the `InvalidTransitionError` of an action that is not legal in the state. -/
inductive Result where
  | ok (flow : Flow)
  | invalidTransitionError
  deriving DecidableEq, Repr

/-- Modelled from the spec: the advance action (`next`, and submit on Step3).
It moves on only if every required field of the step is present and valid;
otherwise the state stays and the triggered errors become visible. -/
def next (rules : Rules) (flow : Flow) : Result :=
  match flow.state with
  | .Login => .invalidTransitionError
  | .Completed => .invalidTransitionError
  | st =>
    if requiredValid rules st flow.fields then
      .ok { state := successor st, fields := flow.fields, errors := [] }
    else .ok { state := st, fields := flow.fields, errors := triggered st flow.fields }

/-- Modelled from the spec: the back action, legal from Step2 and Step3
whatever the values; it moves to the preceding step and keeps the values. -/
def back (flow : Flow) : Result :=
  match flow.state with
  | .Step2 => .ok { state := .Step1, fields := flow.fields, errors := [] }
  | .Step3 => .ok { state := .Step2, fields := flow.fields, errors := [] }
  | _ => .invalidTransitionError

/-- Rules for the sample runs: an address is valid when it has an `@`, a phone
number when it is not empty. -/
def sampleRules : Rules where
  validEmail e := e.contains 64
  validPhone p := decide (p ≠ [])
  countries := [lit "Germany", lit "Austria"]
  channels := [lit "Google", lit "LinkedIn"]

/-- No value entered yet. -/
def emptyFields : Fields where
  email := []
  password := []
  termsAccepted := false
  firstName := []
  lastName := []
  phoneNumber := []
  companyName := []
  country := none
  hearAboutUs := none

/-- The values of the first step of the end-to-end scenario of the spec. -/
def step1Fields : Fields :=
  { emptyFields with
    email := lit "a@check.de", password := lit "Passw0rdA!", termsAccepted := true }

end SignupFlow

/-- The profile the Cypress `getTestData` builds from `dynamicFixture` with
`noAtFaker`. -/
def noAtProfile : Profile :=
  { sampleProfile with email := .string (lit "jane.doe") }

/-- The profile the Cypress `getTestData` returns for a fixture without the
sentinel in the six generated fields: these fields as they are, and the two
others with their fallback. -/
def staticProfile (testData : Fixture) : Profile where
  email := testData.email
  password := testData.password
  firstName := testData.firstName
  lastName := testData.lastName
  phoneNumber := testData.phoneNumber
  companyName := testData.companyName
  country := testData.country.or (.string (lit "Germany"))
  hearAboutUs := testData.hearAboutUs.or (.string (lit "Google"))

/-- A fixture with the sentinel in country and in hearAboutUs. -/
def sentinelCountryFixture : Fixture :=
  { staticFixture with
    country := .string (lit "DYNAMIC"), hearAboutUs := .string (lit "DYNAMIC") }

/-! ## The signup pages, the helpers and the end-to-end scenario -/

namespace Playwright

/-- The method `BasePage.navigateTo`. -/
def navigateTo {σ : Type} (b : Browser σ) (url : JSString) : Step σ JSValue :=
  (call b (.goto url)).andThen fun _ s => (.returned .undefined, s)

/-- The method `BasePage.fillFormField`. -/
def fillFormField {σ : Type} (b : Browser σ) (element : Locator) (value : JSString) :
    Step σ JSValue :=
  (call b (.fill element value)).andThen fun _ s => (.returned .undefined, s)

/-- The method `BasePage.selectCheckBox(element, isforce = false)`. -/
def selectCheckBox {σ : Type} (b : Browser σ) (element : Locator) (isforce : Bool) :
    Step σ JSValue :=
  (call b (.check element isforce)).andThen fun _ s => (.returned .undefined, s)

/-- The method `BasePage.getSelectedDropdownValue`. -/
def getSelectedDropdownValue {σ : Type} (b : Browser σ) (dropdownLocator : Locator) :
    Step σ JSValue :=
  call b (.inputValue dropdownLocator)

/-- The locator `startFreeTrialButton` of `LoginPage`. -/
def startFreeTrialButton : Locator :=
  .page (lit "text=Start a free trial")

/-- The method `LoginPage.clickStartFreeTrial`. -/
def clickStartFreeTrial {σ : Type} (b : Browser σ) : Step σ JSValue :=
  (acceptCookiesIfPresent b).andThen fun _ => clickElement b startFreeTrialButton

/-- The locator `emailField` of `SignupStep1Page`. -/
def emailField : Locator :=
  .page (lit "input[name='email']")

/-- The locator `passwordField` of `SignupStep1Page`. -/
def passwordField : Locator :=
  .page (lit "input[name='password']")

/-- The locator `termsCheckbox` of `SignupStep1Page`. -/
def termsCheckbox : Locator :=
  .page (lit "(//input[@type=\"checkbox\"][@name=\"acceptTos\"]/following-sibling::div)[1]")

/-- The locator `tryForFreeButton` of `SignupStep1Page`. -/
def tryForFreeButton : Locator :=
  .page (lit "button:has-text('Try for free')")

/-- The method `SignupStep1Page.enterEmail`. -/
def enterEmail {σ : Type} (b : Browser σ) (emailText : JSString) : Step σ JSValue :=
  (fillFormField b emailField emailText).andThen fun _ s => (.returned .undefined, s)

/-- The method `SignupStep1Page.enterPassword`. -/
def enterPassword {σ : Type} (b : Browser σ) (passwordText : JSString) : Step σ JSValue :=
  (fillFormField b passwordField passwordText).andThen fun _ s => (.returned .undefined, s)

/-- The method `SignupStep1Page.selectTermsCheckbox`. -/
def selectTermsCheckbox {σ : Type} (b : Browser σ) : Step σ JSValue :=
  (selectCheckBox b termsCheckbox true).andThen fun _ s => (.returned .undefined, s)

/-- The method `SignupStep1Page.clickTryForFree`. -/
def clickTryForFree {σ : Type} (b : Browser σ) : Step σ JSValue :=
  (acceptCookiesIfPresent b).andThen fun _ =>
  (clickElement b tryForFreeButton).andThen fun _ s => (.returned .undefined, s)

/-- The method `SignupStep1Page.fillSignupForm`. -/
def fillSignupForm {σ : Type} (b : Browser σ) (emailText passwordText : JSString) :
    Step σ JSValue :=
  (acceptCookiesIfPresent b).andThen fun _ =>
  (enterEmail b emailText).andThen fun _ =>
  (enterPassword b passwordText).andThen fun _ =>
  (selectTermsCheckbox b).andThen fun _ =>
  (clickTryForFree b).andThen fun _ s => (.returned .undefined, s)

/-- The locator `firstNameField` of `SignupStep2Page`. -/
def firstNameField : Locator :=
  .page (lit "input[name='firstname']")

/-- The locator `lastNameField` of `SignupStep2Page`. -/
def lastNameField : Locator :=
  .page (lit "input[name='lastname']")

/-- The locator `phoneField` of `SignupStep2Page`. -/
def phoneField : Locator :=
  .page (lit "input[name='phoneNumber']")

/-- The locator `nextButton` of `SignupStep2Page`. -/
def nextButton : Locator :=
  .page (lit "button[type='submit']")

/-- The method `SignupStep2Page.enterFirstName`. -/
def enterFirstName {σ : Type} (b : Browser σ) (firstNameText : JSString) : Step σ JSValue :=
  (fillFormField b firstNameField firstNameText).andThen fun _ s => (.returned .undefined, s)

/-- The method `SignupStep2Page.enterLastName`. -/
def enterLastName {σ : Type} (b : Browser σ) (lastNameText : JSString) : Step σ JSValue :=
  (fillFormField b lastNameField lastNameText).andThen fun _ s => (.returned .undefined, s)

/-- The method `SignupStep2Page.enterPhoneNumber`. -/
def enterPhoneNumber {σ : Type} (b : Browser σ) (phoneNumberText : JSString) :
    Step σ JSValue :=
  (fillFormField b phoneField phoneNumberText).andThen fun _ s => (.returned .undefined, s)

/-- The method `SignupStep2Page.clickNextButton`. -/
def clickNextButton {σ : Type} (b : Browser σ) : Step σ JSValue :=
  (clickElement b nextButton).andThen fun _ s => (.returned .undefined, s)

/-- The method `SignupStep2Page.fillPersonalDetails`. -/
def fillPersonalDetails {σ : Type} (b : Browser σ)
    (firstNameText lastNameText phoneNumberText : JSString) : Step σ JSValue :=
  (enterFirstName b firstNameText).andThen fun _ =>
  (enterLastName b lastNameText).andThen fun _ =>
  (enterPhoneNumber b phoneNumberText).andThen fun _ =>
  (clickNextButton b).andThen fun _ s => (.returned .undefined, s)

/-- The locator `companyNameField` of `SignupStep3Page`. -/
def companyNameField : Locator :=
  .page (lit "input[name='organizationName']")

/-- The locator `hearAboutUsDropdown` of `SignupStep3Page`. -/
def hearAboutUsDropdown : Locator :=
  .page (lit "input[value=\"Choose channel\"]")

/-- The locator `hearAboutUsDropdownValues` of `SignupStep3Page`. -/
def hearAboutUsDropdownValues : Locator :=
  .page (lit "div[role=\"menuitemradio\"]")

/-- The method `SignupStep3Page.enterCompanyName`. -/
def enterCompanyName {σ : Type} (b : Browser σ) (companyNameText : JSString) :
    Step σ JSValue :=
  (fillFormField b companyNameField companyNameText).andThen fun _ s =>
    (.returned .undefined, s)

/-- The method `SignupStep3Page.selectHearAboutUs`. -/
def selectHearAboutUs {σ : Type} (b : Browser σ) (hearAboutUsText : JSString) :
    Step σ JSValue :=
  selectDynamicDropDown b hearAboutUsDropdown hearAboutUsDropdownValues hearAboutUsText

/-- The method `SignupStep3Page.fillCompanyDetails`. -/
def fillCompanyDetails {σ : Type} (b : Browser σ)
    (companyNameText countryText hearAboutUsText : JSString) : Step σ JSValue :=
  (enterCompanyName b companyNameText).andThen fun _ =>
  (selectCountry b countryText).andThen fun _ =>
  (selectHearAboutUs b hearAboutUsText).andThen fun _ s => (.returned .undefined, s)

/-- The method `SignupStep3Page.getSelectedCountry`. -/
def getSelectedCountry {σ : Type} (b : Browser σ) : Step σ JSValue :=
  getSelectedDropdownValue b countryDropdown

/-- The assertion `expect(actual).toBe(expected)` for a primitive `expected`
(a string or a boolean in the scenario): it raises unless the two are the
same value. The message is the first line of the one of the library. -/
def expectToBe {σ : Type} (actual expected : JSValue) : Step σ JSValue := fun s =>
  if actual = expected then (.returned .undefined, s)
  else (.raised (lit "expect(received).toBe(expected) // Object.is equality"), s)

/-- The test `E2E Signup Flow - Login to Success` of `e2eTest.spec.ts`, from
the point where `testData` is there; its arguments are the eight fields of
`testData`. -/
def e2eScenario {σ : Type} (b : Browser σ)
    (email password firstName lastName phoneNumber companyName country hearAboutUs : JSString) :
    Step σ JSValue :=
  (navigateTo b (lit "/")).andThen fun _ =>
  (clickStartFreeTrial b).andThen fun _ =>
  (fillSignupForm b email password).andThen fun _ =>
  (fillPersonalDetails b firstName lastName phoneNumber).andThen fun _ =>
  (fillCompanyDetails b companyName country hearAboutUs).andThen fun _ =>
  (getSelectedCountry b).andThen fun selectedCountry =>
  (expectToBe selectedCountry (.string country)).andThen fun _ =>
  (isSubmitButtonEnabled b).andThen fun enabled =>
  expectToBe enabled (.bool true)

/-- Whether a call belongs to the cookie banner handling of
`acceptCookiesIfPresent`. -/
def cookieCall (a : Action) : Bool :=
  decide (a = .waitForVisible acceptAllButton (some 5000)) ||
    decide (a = .click acceptAllButton false) ||
    decide (a = .consoleLog (lit "Accept button not found within timeout."))

/-- The calls among `evs` other than the cookie banner handling, in order. -/
def formCalls (evs : List Event) : List Action :=
  (evs.map Prod.fst).filter fun a => !cookieCall a

/-- What a method that fills a form guarantees, for the calls `expected`: the
calls it adds to the trace are, the cookie banner handling apart, the first
ones of `expected` in that order; when it returns they are all of `expected`
and each one returned; and it raises only the error of its last call, which
is not part of the cookie banner handling. -/
def FormSpec {σ : Type} (expected : List Action) (m : Step σ JSValue) : Prop :=
  ∀ s, ∃ evs, (m s).2.trace = s.trace ++ evs ∧
    formCalls evs <+: expected ∧
    (∀ v, (m s).1 = .returned v →
      v = .undefined ∧ formCalls evs = expected ∧
        ∀ ev ∈ evs, cookieCall ev.1 = false → isReturned ev.2 = true) ∧
    (∀ e, (m s).1 = .raised e →
      ∃ a, cookieCall a = false ∧ evs.getLast? = some (a, .raised e))

/-- No call that `m` adds to the trace is a click on `l`. -/
def NeverClicks {σ α : Type} (l : Locator) (m : Step σ α) : Prop :=
  ∀ s, ∃ evs, (m s).2.trace = s.trace ++ evs ∧ ∀ ev ∈ evs, ∀ force, ev.1 ≠ .click l force

/-- A browser showing the signup form: a forced click on an option of the
country dropdown selects the text of the option, `inputValue` of the country
dropdown answers the selected text, the two queries answer `true`, and every
other call returns. Its state is the selected country. -/
def formBrowser : Browser JSString where
  perform a g :=
    match a with
    | .click (.locator l selector) true =>
      if l = countryDropdownValues then (.returned .undefined, selector.drop 5)
      else (.returned .undefined, g)
    | .inputValue l =>
      if l = countryDropdown then (.returned (.string g), g)
      else (.returned (.string []), g)
    | .isEnabled _ => (.returned (.bool true), g)
    | .isVisible _ => (.returned (.bool true), g)
    | _ => (.returned .undefined, g)

end Playwright

namespace Cypress

/-- The method `SignupStep2Page.enterFirstName`. -/
def enterFirstName (firstNameText : JSString) : List Command :=
  [selectElement (lit "input[name='firstname']") (.string (lit "get")), .clear,
    .type firstNameText]

/-- The method `SignupStep2Page.enterLastName`. -/
def enterLastName (lastNameText : JSString) : List Command :=
  [selectElement (lit "input[name='lastname']") (.string (lit "get")), .clear,
    .type lastNameText]

/-- The method `SignupStep2Page.enterPhoneNumber`. -/
def enterPhoneNumber (phoneNumberText : JSString) : List Command :=
  [selectElement (lit "input[name='phoneNumber']") (.string (lit "get")), .clear,
    .type phoneNumberText]

/-- The method `SignupStep2Page.clickNextButton`. -/
def clickNextButton : List Command :=
  [selectElement (lit "button[type='submit']") (.string (lit "get")), .click false]

/-- The method `SignupStep2Page.fillPersonalDetails`. -/
def fillPersonalDetails (firstNameText lastNameText phoneNumberText : JSString) :
    List Command :=
  enterFirstName firstNameText ++ enterLastName lastNameText ++
    enterPhoneNumber phoneNumberText ++ clickNextButton

end Cypress

/-- A call of a page-object method by a helper of `signupHelper`, with the
arguments passed. -/
inductive PageCall where
  /-- the call `signupStep1Page.fillSignupForm(email, password)` -/
  | fillSignupForm (emailText passwordText : JSValue)
  /-- the call `signupStep2Page.fillPersonalDetails(first, last, phone)` -/
  | fillPersonalDetails (firstNameText lastNameText phoneNumberText : JSValue)
  /-- the call `signupStep3Page.fillCompanyDetails(company, country, channel)` -/
  | fillCompanyDetails (companyNameText countryText hearAboutUsText : JSValue)
  deriving DecidableEq, Repr

/-- The module `signupHelper` once loaded: its constant `testData`. -/
structure SignupHelper where
  testData : Profile
  deriving DecidableEq, Repr

/-- Loading the Cypress module `signupHelper`: the statement
`const testData = getTestData();` runs once. -/
def Cypress.loadSignupHelper {σ : Type} (f : Faker σ) (fuel : Nat) (testData : Fixture)
    (g : σ) : Option (SignupHelper × σ) :=
  match Cypress.getTestData f fuel testData g with
  | none => none
  | some r => some ({ testData := r.1 }, r.2)

/-- Loading the Playwright module `signupHelper`: the statement
`const testData = getTestData();` runs once. -/
def Playwright.loadSignupHelper {σ : Type} (f : Faker σ) (toLowerCase : JSString → JSString)
    (fuel : Nat) (readFileSync : Except JSError JSString)
    (jsonParse : JSString → Except JSError (Option Fixture)) (g : σ) :
    Option (Except JSError (SignupHelper × σ)) :=
  match Playwright.getTestData f toLowerCase fuel readFileSync jsonParse g with
  | none => none
  | some (.error e) => some (.error e)
  | some (.ok r) => some (.ok ({ testData := r.1 }, r.2))

/-- The helper `completeSignupStep1`: the page-object call it makes; `g` is
the state of the random source, which it leaves as it is. -/
def completeSignupStep1 {σ : Type} (helper : SignupHelper) (g : σ) : PageCall × σ :=
  (.fillSignupForm helper.testData.email helper.testData.password, g)

/-- The helper `completeSignupStep2`. -/
def completeSignupStep2 {σ : Type} (helper : SignupHelper) (g : σ) : PageCall × σ :=
  (.fillPersonalDetails helper.testData.firstName helper.testData.lastName
    helper.testData.phoneNumber, g)

/-- The helper `completeSignupStep3`. -/
def completeSignupStep3 {σ : Type} (helper : SignupHelper) (g : σ) : PageCall × σ :=
  (.fillCompanyDetails helper.testData.companyName helper.testData.country
    helper.testData.hearAboutUs, g)

/-! ## The selection fields of the wizard and a page without the button -/

namespace Playwright

/-- A browser on a page where the locator matches no element (the
`Create an account` button while the first step is shown): `isEnabled` waits
for the element and raises a timeout, `isVisible` answers `false` at once, and
every other call returns. -/
def absentBrowser : Browser Unit where
  perform a g :=
    match a with
    | .isEnabled _ => (.raised (lit "locator.isEnabled: Timeout 30000ms exceeded."), g)
    | .isVisible _ => (.returned (.bool false), g)
    | _ => (.returned .undefined, g)

end Playwright

namespace SignupFlow

/-- Modelled from the spec: the two selection fields of the wizard. -/
inductive SelectionField where
  | country
  | hearAboutUs
  deriving DecidableEq, Repr

/-- Modelled from the spec: the selection of a value in a selection field of
the wizard, the application that the suites drive through the browser and
whose code is not in the repository. An entry of the allow-list of the field
becomes its currently chosen value; another value is no option of the field,
which stays as it is. -/
def select (rules : Rules) (field : SelectionField) (value : JSString) (fields : Fields) :
    Fields :=
  match field with
  | .country =>
    if value ∈ rules.countries then { fields with country := some value } else fields
  | .hearAboutUs =>
    if value ∈ rules.channels then { fields with hearAboutUs := some value } else fields

/-- Modelled from the spec: the query `getSelectedValue(fieldName)` of the
wizard: the currently chosen value of a selection field, the empty string
while nothing is chosen. -/
def getSelectedValue (field : SelectionField) (fields : Fields) : JSString :=
  match field with
  | .country => fields.country.getD []
  | .hearAboutUs => fields.hearAboutUs.getD []

/-- Modelled from the spec: the text of the option that a selector
`text=...` of the page objects names. -/
def optionText (selector : JSString) : JSString :=
  selector.drop 5

/-- Modelled from the spec: whether the option named by `selector` under the
option list `l` is an option of the page: an entry of the allow-list of the
country dropdown or of the hear-about-us dropdown. -/
def optionShown (rules : Rules) (l : Playwright.Locator) (selector : JSString) : Bool :=
  (decide (l = Playwright.countryDropdownValues) &&
      decide (optionText selector ∈ rules.countries)) ||
    (decide (l = Playwright.hearAboutUsDropdownValues) &&
      decide (optionText selector ∈ rules.channels))

/-- Modelled from the spec: the page of the third step of the wizard, the
application under test, whose code is not in the repository, as the browser
shows it to the page objects. Its state is the values entered. A fill of the
company field enters the company name. A forced click on an option of the
country or of the hear-about-us dropdown is the selection of that entry; an
option that is not of the allow-list is not on the page, so that waiting for
it or clicking it raises a timeout. `inputValue` of a dropdown is
`getSelectedValue` of its field. The button is enabled and visible. Every
other call returns and leaves the values as they are. -/
def step3Page (rules : Rules) : Playwright.Browser Fields where
  perform a fields :=
    match a with
    | .fill l value =>
      if l = Playwright.companyNameField then
        (.returned .undefined, { fields with companyName := value })
      else (.returned .undefined, fields)
    | .waitForVisible (.locator l selector) _ =>
      if optionShown rules l selector then (.returned .undefined, fields)
      else (.raised (lit "locator.waitFor: Timeout 5000ms exceeded."), fields)
    | .click (.locator l selector) true =>
      if optionShown rules l selector then
        if l = Playwright.countryDropdownValues then
          (.returned .undefined, select rules .country (optionText selector) fields)
        else (.returned .undefined, select rules .hearAboutUs (optionText selector) fields)
      else (.raised (lit "locator.click: Timeout 30000ms exceeded."), fields)
    | .inputValue l =>
      if l = Playwright.countryDropdown then
        (.returned (.string (getSelectedValue .country fields)), fields)
      else if l = Playwright.hearAboutUsDropdown then
        (.returned (.string (getSelectedValue .hearAboutUs fields)), fields)
      else (.returned (.string []), fields)
    | .isEnabled _ => (.returned (.bool true), fields)
    | .isVisible _ => (.returned (.bool true), fields)
    | _ => (.returned .undefined, fields)

end SignupFlow

/-! ## Properties of the matcher -/

theorem starK_isSome {α : Type} (c : CharClass) (k : Nat → JSString → Option α) :
    ∀ (s : JSString) (p : Nat), (starK c p s k).isSome = true ↔
      ∃ j, j ≤ s.length ∧ (∀ x ∈ s.take j, c.mem x = true) ∧
        (k (p + j) (s.drop j)).isSome = true := by
  intro s
  induction s with
  | nil =>
    intro p
    simp [starK]
  | cons x xs ih =>
    intro p
    by_cases hx : c.mem x = true
    · have hstep : (starK c p (x :: xs) k).isSome = true ↔
          (starK c (p + 1) xs k).isSome = true ∨ (k p (x :: xs)).isSome = true := by
        simp only [starK, hx, if_true]
        cases h : starK c (p + 1) xs k <;> simp
      rw [hstep, ih (p + 1)]
      constructor
      · rintro (⟨j, hj, hall, hk⟩ | hk)
        · refine ⟨j + 1, by simpa using hj, ?_, ?_⟩
          · intro y hy
            simp only [List.take_succ_cons, List.mem_cons] at hy
            rcases hy with rfl | hy
            · exact hx
            · exact hall y hy
          · simpa [Nat.add_assoc, Nat.add_comm 1 j] using hk
        · exact ⟨0, by simp, by simp, by simpa using hk⟩
      · rintro ⟨j, hj, hall, hk⟩
        cases j with
        | zero => right; simpa using hk
        | succ j =>
          left
          refine ⟨j, by simpa using hj, ?_, ?_⟩
          · intro y hy
            exact hall y (by simp [hy])
          · simpa [Nat.add_assoc, Nat.add_comm 1 j] using hk
    · have hstep : starK c p (x :: xs) k = k p (x :: xs) := by
        simp [starK, hx]
      rw [hstep]
      constructor
      · intro hk
        exact ⟨0, by simp, by simp, by simpa using hk⟩
      · rintro ⟨j, _, hall, hk⟩
        cases j with
        | zero => simpa using hk
        | succ j => exact absurd (hall x (by simp)) hx

theorem atLeastK_isSome {α : Type} (c : CharClass) (k : Nat → JSString → Option α) :
    ∀ (n : Nat) (s : JSString) (p : Nat), (atLeastK c n p s k).isSome = true ↔
      ∃ j, n ≤ j ∧ j ≤ s.length ∧ (∀ x ∈ s.take j, c.mem x = true) ∧
        (k (p + j) (s.drop j)).isSome = true := by
  intro n
  induction n with
  | zero =>
    intro s p
    simp [atLeastK, starK_isSome]
  | succ n ih =>
    intro s p
    cases s with
    | nil =>
      constructor
      · intro h; simp [atLeastK] at h
      · rintro ⟨j, hn, hj, _, _⟩
        simp at hj
        omega
    | cons x xs =>
      by_cases hx : c.mem x = true
      · have hstep : atLeastK c (n + 1) p (x :: xs) k = atLeastK c n (p + 1) xs k := by
          simp [atLeastK, hx]
        rw [hstep, ih xs (p + 1)]
        constructor
        · rintro ⟨j, hn, hj, hall, hk⟩
          refine ⟨j + 1, by omega, by simpa using hj, ?_, ?_⟩
          · intro y hy
            simp only [List.take_succ_cons, List.mem_cons] at hy
            rcases hy with rfl | hy
            · exact hx
            · exact hall y hy
          · simpa [Nat.add_assoc, Nat.add_comm 1 j] using hk
        · rintro ⟨j, hn, hj, hall, hk⟩
          cases j with
          | zero => omega
          | succ j =>
            refine ⟨j, by omega, by simpa using hj, ?_, ?_⟩
            · intro y hy
              exact hall y (by simp [hy])
            · simpa [Nat.add_assoc, Nat.add_comm 1 j] using hk
      · have hstep : atLeastK c (n + 1) p (x :: xs) k = none := by
          simp [atLeastK, hx]
        rw [hstep]
        constructor
        · intro h; simp at h
        · rintro ⟨j, hn, _, hall, _⟩
          cases j with
          | zero => omega
          | succ j => exact absurd (hall x (by simp)) hx

theorem look_isSome {α : Type} (a : Regex) (p : Nat) (s : JSString)
    (k : Nat → JSString → Option α) :
    (Regex.matchK (.look a) p s k).isSome = true ↔
      (a.matchK p s (fun _ _ => some ())).isSome = true ∧ (k p s).isSome = true := by
  simp only [Regex.matchK]
  cases h : a.matchK p s (fun _ _ => some ()) <;> simp

/-- The lookahead body `.*d` succeeds exactly when some character of class `d`
is reachable from the current index without crossing a line terminator. -/
theorem dotStar_cls_isSome (d : CharClass) (p : Nat) (s : JSString) :
    (Regex.matchK (.seq (.star .dot) (.cls d)) p s (fun _ _ => some ())).isSome = true ↔
      ∃ j, j < s.length ∧ (∀ x ∈ s.take j, isLineTerminator x = false) ∧
        ∃ x, s[j]? = some x ∧ d.mem x = true := by
  simp only [Regex.matchK, starK_isSome]
  constructor
  · rintro ⟨j, _, hall, hk⟩
    cases hd : s.drop j with
    | nil => rw [hd] at hk; simp [Regex.matchK] at hk
    | cons y ys =>
      rw [hd] at hk
      have hy : d.mem y = true := by
        by_contra hne
        simp [Regex.matchK, hne] at hk
      have hlt : j < s.length := by
        by_contra hge
        have : s.drop j = [] := List.drop_eq_nil_of_le (by omega)
        rw [this] at hd
        cases hd
      refine ⟨j, hlt, ?_, y, ?_, hy⟩
      · intro x hx
        simpa [CharClass.mem] using hall x hx
      · have := List.getElem?_drop s j 0
        rw [hd] at this
        simpa using this.symm
  · rintro ⟨j, hlt, hall, x, hx, hd⟩
    refine ⟨j, le_of_lt hlt, ?_, ?_⟩
    · intro y hy
      simpa [CharClass.mem] using hall y hy
    · have hdrop : s.drop j = x :: s.drop (j + 1) := by
        rw [List.getElem?_eq_some] at hx
        obtain ⟨h, rfl⟩ := hx
        exact List.drop_eq_getElem_cons h
      rw [hdrop]
      simp [Regex.matchK, hd]

/-- The tail `.{8,}$` succeeds exactly on an input of at least 8 code units
none of which is a line terminator. -/
theorem atLeast_dot_eol_isSome (n p : Nat) (s : JSString) :
    (Regex.matchK (.seq (.atLeast n .dot) .eol) p s (fun _ rest => some rest)).isSome = true ↔
      n ≤ s.length ∧ ∀ x ∈ s, isLineTerminator x = false := by
  simp only [Regex.matchK, atLeastK_isSome]
  constructor
  · rintro ⟨j, hn, hj, hall, hk⟩
    have hnil : s.drop j = [] := by
      by_contra hne
      simp [hne] at hk
    have hlen : s.length ≤ j := by
      simpa [List.drop_eq_nil_iff] using hnil
    have hj2 : j = s.length := by omega
    subst hj2
    refine ⟨hn, ?_⟩
    intro x hx
    simpa [CharClass.mem] using hall x (by simpa using hx)
  · rintro ⟨hn, hall⟩
    refine ⟨s.length, hn, le_refl _, ?_, by simp⟩
    intro x hx
    simpa [CharClass.mem] using hall x (by simpa using hx)

/-- The pattern is anchored by `^`: it matches at index 0 only. -/
theorem passwordRegex_matchK_pos {α : Type} (i : Nat) (hi : 0 < i) (s : JSString)
    (k : Nat → JSString → Option α) : passwordRegex.matchK i s k = none := by
  have : i ≠ 0 := by omega
  simp [passwordRegex, Regex.matchK, this]

theorem passwordRegex_execFrom_pos (s : JSString) :
    ∀ i, 0 < i → passwordRegex.execFrom i s = none := by
  induction s with
  | nil =>
    intro i hi
    simp [Regex.execFrom, passwordRegex_matchK_pos i hi]
  | cons x xs ih =>
    intro i hi
    simp [Regex.execFrom, passwordRegex_matchK_pos i hi, ih (i + 1) (by omega)]

/-- What the pattern of the retry loop accepts. -/
theorem passwordRegex_test_iff (s : JSString) :
    passwordRegex.test s = true ↔
      (∀ x ∈ s, isLineTerminator x = false) ∧ 8 ≤ s.length ∧
        (∃ x ∈ s, isAsciiLetter x = true) ∧ (∃ x ∈ s, isDigit x = true) := by
  have hexec : (passwordRegex.execFrom 0 s).isSome = true ↔
      (passwordRegex.matchK 0 s (fun _ rest => some rest)).isSome = true := by
    cases s with
    | nil =>
      simp only [Regex.execFrom]
      cases h : passwordRegex.matchK 0 [] (fun _ rest => some rest) <;> simp
    | cons x xs =>
      simp only [Regex.execFrom]
      cases h : passwordRegex.matchK 0 (x :: xs) (fun _ rest => some rest) <;>
        simp [passwordRegex_execFrom_pos xs 1 (by omega)]
  have hmatch : (passwordRegex.matchK 0 s (fun _ rest => some rest)).isSome = true ↔
      (Regex.matchK (.seq (.star .dot) (.cls .asciiLetter)) 0 s
          (fun _ _ => some ())).isSome = true ∧
        (Regex.matchK (.seq (.star .dot) (.cls .digit)) 0 s
          (fun _ _ => some ())).isSome = true ∧
        (Regex.matchK (.seq (.atLeast 8 .dot) .eol) 0 s
          (fun _ rest => some rest)).isSome = true := by
    have h1 : passwordRegex.matchK 0 s (fun _ rest => some rest) =
        Regex.matchK (.look (.seq (.star .dot) (.cls .asciiLetter))) 0 s
          (fun p1 s1 => Regex.matchK (.look (.seq (.star .dot) (.cls .digit))) p1 s1
            (fun p2 s2 => Regex.matchK (.seq (.atLeast 8 .dot) .eol) p2 s2
              (fun _ rest => some rest))) := by
      simp [passwordRegex, Regex.matchK]
    rw [h1, look_isSome, look_isSome]
  unfold Regex.test
  rw [hexec, hmatch, dotStar_cls_isSome, dotStar_cls_isSome, atLeast_dot_eol_isSome]
  constructor
  · rintro ⟨⟨j, _, _, x, hx, hmx⟩, ⟨i, _, _, y, hy, hmy⟩, hlen, hall⟩
    refine ⟨hall, hlen, ⟨x, ?_, by simpa [CharClass.mem] using hmx⟩,
      ⟨y, ?_, by simpa [CharClass.mem] using hmy⟩⟩
    · exact List.getElem?_mem hx
    · exact List.getElem?_mem hy
  · rintro ⟨hall, hlen, ⟨x, hx, hmx⟩, ⟨y, hy, hmy⟩⟩
    refine ⟨?_, ?_, hlen, hall⟩
    · obtain ⟨j, hj, hget⟩ := List.getElem_of_mem hx
      refine ⟨j, hj, ?_, x, ?_, by simpa [CharClass.mem] using hmx⟩
      · intro z hz
        exact hall z (List.mem_of_mem_take hz)
      · rw [List.getElem?_eq_getElem hj, hget]
    · obtain ⟨j, hj, hget⟩ := List.getElem_of_mem hy
      refine ⟨j, hj, ?_, y, ?_, by simpa [CharClass.mem] using hmy⟩
      · intro z hz
        exact hall z (List.mem_of_mem_take hz)
      · rw [List.getElem?_eq_getElem hj, hget]

/-! ## Properties of the retry loop -/

/-- A password returned by the loop passed the test of the loop condition, and
it is the password the loop started with or the candidate of a run of the
body, returned with the state that this run left. -/
theorem generateSecurePasswordLoop_some {σ : Type} (f : Faker σ) :
    ∀ (fuel : Nat) (pw : JSString) (g : σ) (p : JSString) (g1 : σ),
      generateSecurePasswordLoop f fuel pw g = some (p, g1) →
        passwordRegex.test p = true ∧
          ((p, g1) = (pw, g) ∨ ∃ g0, (p, g1) = candidate f g0) := by
  intro fuel
  induction fuel with
  | zero =>
    intro pw g p g1 h
    by_cases ht : passwordRegex.test pw = true
    · simp [generateSecurePasswordLoop, ht] at h
      obtain ⟨rfl, rfl⟩ := h
      exact ⟨ht, Or.inl rfl⟩
    · simp [generateSecurePasswordLoop, ht] at h
  | succ n ih =>
    intro pw g p g1 h
    by_cases ht : passwordRegex.test pw = true
    · simp [generateSecurePasswordLoop, ht] at h
      obtain ⟨rfl, rfl⟩ := h
      exact ⟨ht, Or.inl rfl⟩
    · simp only [generateSecurePasswordLoop, ht] at h
      obtain ⟨hp, hor⟩ := ih _ _ p g1 h
      refine ⟨hp, Or.inr ?_⟩
      rcases hor with hor | hor
      · exact ⟨g, hor⟩
      · exact hor

/-- The loop exits at once, without a draw, on a password that passes the test. -/
theorem generateSecurePasswordLoop_accept {σ : Type} (f : Faker σ) (fuel : Nat)
    (pw : JSString) (g : σ) (h : passwordRegex.test pw = true) :
    generateSecurePasswordLoop f fuel pw g = some (pw, g) := by
  cases fuel <;> simp [generateSecurePasswordLoop, h]

/-- The initial value of `password` fails the test of the loop condition. -/
theorem passwordRegex_test_empty : passwordRegex.test (lit "") = false := by decide

/-- A source whose every candidate fails the test keeps the loop running. -/
theorem generateSecurePasswordLoop_stuck {σ : Type} (f : Faker σ)
    (hrej : ∀ g0, passwordRegex.test (candidate f g0).1 = false) :
    ∀ (fuel : Nat) (pw : JSString) (g : σ), passwordRegex.test pw = false →
      generateSecurePasswordLoop f fuel pw g = none := by
  intro fuel
  induction fuel with
  | zero =>
    intro pw g h
    simp [generateSecurePasswordLoop, h]
  | succ n ih =>
    intro pw g h
    simp only [generateSecurePasswordLoop, h]
    exact ih _ _ (hrej g)

/-- A decimal digit is not a line terminator. -/
theorem isDigit_not_lineTerminator (c : Nat) (h : isDigit c = true) :
    isLineTerminator c = false := by
  have hd2 : 48 ≤ c ∧ c ≤ 57 := by simpa [isDigit] using h
  have h1 : c ≠ 10 := by omega
  have h2 : c ≠ 13 := by omega
  have h3 : c ≠ 8232 := by omega
  have h4 : c ≠ 8233 := by omega
  simp [isLineTerminator, h1, h2, h3, h4]

/-- A candidate whose password draw has at least 5 code units, none a line
terminator, and whose numeric draw is one digit passes the test. -/
theorem candidate_accepted {σ : Type} (f : Faker σ) (g : σ) (d : CodeUnit)
    (hlen : 5 ≤ (f.internetPassword 8 g).1.length)
    (hlt : ∀ c ∈ (f.internetPassword 8 g).1, isLineTerminator c = false)
    (hd : isDigit d = true)
    (hnum : (f.stringNumeric 1 (f.internetPassword 8 g).2).1 = [d]) :
    passwordRegex.test (candidate f g).1 = true := by
  have hcand : (candidate f g).1 = (f.internetPassword 8 g).1 ++ [d] ++ [65, 33] := by
    simp [candidate, hnum, lit]
  rw [passwordRegex_test_iff, hcand]
  have hdlt : isLineTerminator d = false := isDigit_not_lineTerminator d hd
  refine ⟨?_, ?_, ⟨65, by simp, by decide⟩, ⟨d, by simp, hd⟩⟩
  · intro x hx
    simp only [List.mem_append, List.mem_cons, List.mem_singleton, List.not_mem_nil,
      or_false] at hx
    rcases hx with (hx | rfl) | rfl | rfl
    · exact hlt x hx
    · exact hdlt
    · decide
    · decide
  · simp only [List.length_append, List.length_cons, List.length_nil]
    omega

/-- The candidates of `stuckFaker` contain a line feed: all of them fail the test. -/
theorem stuckFaker_rejected (g0 : Nat) :
    passwordRegex.test (candidate stuckFaker g0).1 = false := by
  have h : (candidate stuckFaker g0).1 = lit "abcdefg\n7A!" := by
    simp [candidate, stuckFaker, lit]
  rw [h]
  decide

/-! ## The claims on `generateSecurePassword` -/

/-- C1: for every random source (every `Faker`, over every state), a string
returned by `generateSecurePassword` has length at least 8, contains at least
one letter and contains at least one digit. -/
theorem generateSecurePassword_invariant {σ : Type} (f : Faker σ) (fuel : Nat) (g : σ)
    (p : JSString) (g1 : σ) (h : generateSecurePassword f fuel g = some (p, g1)) :
    8 ≤ p.length ∧ (∃ c ∈ p, isAsciiLetter c = true) ∧ (∃ c ∈ p, isDigit c = true) := by
  have hp := (generateSecurePasswordLoop_some f fuel _ g p g1 h).1
  rw [passwordRegex_test_iff] at hp
  exact hp.2

/-- C1 at `sampleFaker`: the call returns `xxxxxxxx7A!`. -/
theorem generateSecurePassword_invariant_witness :
    generateSecurePassword sampleFaker 1 0 = some (lit "xxxxxxxx7A!", 2) ∧
      (8 ≤ (lit "xxxxxxxx7A!").length ∧ (∃ c ∈ lit "xxxxxxxx7A!", isAsciiLetter c = true) ∧
        (∃ c ∈ lit "xxxxxxxx7A!", isDigit c = true)) :=
  ⟨by decide, generateSecurePassword_invariant sampleFaker 1 0 (lit "xxxxxxxx7A!") 2 (by decide)⟩

/-- C2, as stated, fails: `abcdefg1` followed by a line feed has 9 code units,
a letter and a digit, and the test of the loop condition rejects it. -/
theorem passwordRegex_iff_counterexample :
    ¬ (passwordRegex.test (lit "abcdefg1\n") = true ↔
        (8 ≤ (lit "abcdefg1\n").length ∧ (∃ c ∈ lit "abcdefg1\n", isAsciiLetter c = true) ∧
          (∃ c ∈ lit "abcdefg1\n", isDigit c = true))) := by
  decide

/-- C2 (amended): for every string without a line terminator, the test of the
loop condition accepts it if and only if it has at least 8 code units,
contains at least one letter of `A-Z`, `a-z` and at least one digit of `0-9`. -/
theorem passwordRegex_accepts_iff (s : JSString)
    (hlt : ∀ c ∈ s, isLineTerminator c = false) :
    passwordRegex.test s = true ↔
      (8 ≤ s.length ∧ (∃ c ∈ s, isAsciiLetter c = true) ∧ (∃ c ∈ s, isDigit c = true)) := by
  rw [passwordRegex_test_iff]
  exact ⟨fun h => h.2, fun h => ⟨hlt, h⟩⟩

/-- C2 (amended) at `abcdefg1`. -/
theorem passwordRegex_accepts_iff_witness :
    (∀ c ∈ lit "abcdefg1", isLineTerminator c = false) ∧
      (passwordRegex.test (lit "abcdefg1") = true ↔
        (8 ≤ (lit "abcdefg1").length ∧ (∃ c ∈ lit "abcdefg1", isAsciiLetter c = true) ∧
          (∃ c ∈ lit "abcdefg1", isDigit c = true))) :=
  ⟨by decide, passwordRegex_accepts_iff (lit "abcdefg1") (by decide)⟩

/-- C3: for every random source whose numeric draw is a single decimal digit,
the string returned by `generateSecurePassword` is the password draw and the
digit draw of the last run of the loop body (the run that left the final
state `g1`) followed by `A!`; it ends with `A!`, the character before this
suffix is the digit, and an 8-character password draw gives 11 characters. -/
theorem generateSecurePassword_shape {σ : Type} (f : Faker σ)
    (hnum : ∀ g0, ∃ d, isDigit d = true ∧ (f.stringNumeric 1 g0).1 = [d])
    (fuel : Nat) (g : σ) (p : JSString) (g1 : σ)
    (h : generateSecurePassword f fuel g = some (p, g1)) :
    ∃ g0 d, isDigit d = true ∧
      f.stringNumeric 1 (f.internetPassword 8 g0).2 = ([d], g1) ∧
      p = (f.internetPassword 8 g0).1 ++ [d] ++ lit "A!" ∧
      p.drop (p.length - 2) = lit "A!" ∧
      p[p.length - 3]? = some d ∧
      ((f.internetPassword 8 g0).1.length = 8 → p.length = 11) := by
  obtain ⟨hp, hor⟩ := generateSecurePasswordLoop_some f fuel _ g p g1 h
  rcases hor with hor | ⟨g0, hor⟩
  · have hnil : p = lit "" := congrArg Prod.fst hor
    rw [hnil, passwordRegex_test_empty] at hp
    cases hp
  · obtain ⟨d, hd, hdraw⟩ := hnum (f.internetPassword 8 g0).2
    have hp1 : p = (f.internetPassword 8 g0).1 ++ [d] ++ lit "A!" := by
      have := congrArg Prod.fst hor
      simpa [candidate, hdraw] using this
    have hg1 : g1 = (f.stringNumeric 1 (f.internetPassword 8 g0).2).2 := by
      have := congrArg Prod.snd hor
      simpa [candidate] using this
    refine ⟨g0, d, hd, ?_, hp1, ?_, ?_, ?_⟩
    · rw [hg1, ← hdraw]
    · rw [hp1]
      have hl : ((f.internetPassword 8 g0).1 ++ [d] ++ lit "A!").length - 2 =
          ((f.internetPassword 8 g0).1 ++ [d]).length := by
        simp [lit]
      rw [hl, List.drop_left]
    · rw [hp1]
      have hl : ((f.internetPassword 8 g0).1 ++ [d] ++ lit "A!").length - 3 =
          (f.internetPassword 8 g0).1.length := by
        simp [lit]
      rw [hl, List.append_assoc, List.getElem?_append_right (le_refl _)]
      simp
    · intro h8
      rw [hp1]
      simp [lit, h8]

/-- C3 at `sampleFaker`. -/
theorem generateSecurePassword_shape_witness :
    ∃ g0 d, isDigit d = true ∧
      sampleFaker.stringNumeric 1 (sampleFaker.internetPassword 8 g0).2 = ([d], 2) ∧
      lit "xxxxxxxx7A!" = (sampleFaker.internetPassword 8 g0).1 ++ [d] ++ lit "A!" ∧
      (lit "xxxxxxxx7A!").drop ((lit "xxxxxxxx7A!").length - 2) = lit "A!" ∧
      (lit "xxxxxxxx7A!")[(lit "xxxxxxxx7A!").length - 3]? = some d ∧
      ((sampleFaker.internetPassword 8 g0).1.length = 8 → (lit "xxxxxxxx7A!").length = 11) :=
  generateSecurePassword_shape sampleFaker (fun _ => ⟨55, by decide, rfl⟩) 1 0
    (lit "xxxxxxxx7A!") 2 (by decide)

/-- C4: the initial empty password fails the test of the loop condition, so
the loop does not exit before a run of its body; and for every random source
whose password draw is an 8-character string without line terminators and
whose numeric draw is one decimal digit, the first candidate passes the test,
so the call returns it after exactly one run of the body, whatever the fuel. -/
theorem generateSecurePassword_terminates {σ : Type} (f : Faker σ) (g : σ) (d : CodeUnit)
    (hlen : (f.internetPassword 8 g).1.length = 8)
    (hlt : ∀ c ∈ (f.internetPassword 8 g).1, isLineTerminator c = false)
    (hd : isDigit d = true)
    (hnum : (f.stringNumeric 1 (f.internetPassword 8 g).2).1 = [d]) :
    passwordRegex.test (lit "") = false ∧
      generateSecurePassword f 0 g = none ∧
      passwordRegex.test (candidate f g).1 = true ∧
      ∀ fuel, generateSecurePassword f (fuel + 1) g = some (candidate f g) := by
  have hacc := candidate_accepted f g d (by omega) hlt hd hnum
  refine ⟨passwordRegex_test_empty, ?_, hacc, ?_⟩
  · simp [generateSecurePassword, generateSecurePasswordLoop, passwordRegex_test_empty]
  · intro fuel
    simp only [generateSecurePassword, generateSecurePasswordLoop, passwordRegex_test_empty]
    exact generateSecurePasswordLoop_accept f fuel _ _ hacc

/-- C4 at `sampleFaker`. -/
theorem generateSecurePassword_terminates_witness :
    passwordRegex.test (lit "") = false ∧
      generateSecurePassword sampleFaker 0 0 = none ∧
      passwordRegex.test (candidate sampleFaker 0).1 = true ∧
      ∀ fuel, generateSecurePassword sampleFaker (fuel + 1) 0 = some (candidate sampleFaker 0) :=
  generateSecurePassword_terminates sampleFaker 0 55 (by decide) (by decide) (by decide)
    (by decide)

/-- C5, as stated, fails: with `stuckFaker` the call has not returned after
1000 candidates, and no number of candidates makes it stop. -/
theorem generateSecurePassword_bound_counterexample :
    generateSecurePassword stuckFaker 1000 0 = none ∧
      ¬ ∃ fuel, (generateSecurePassword stuckFaker fuel 0).isSome = true := by
  have hnone : ∀ fuel, generateSecurePassword stuckFaker fuel 0 = none := fun fuel =>
    generateSecurePasswordLoop_stuck stuckFaker stuckFaker_rejected fuel _ 0
      passwordRegex_test_empty
  refine ⟨hnone 1000, ?_⟩
  rintro ⟨fuel, hfuel⟩
  rw [hnone fuel] at hfuel
  cases hfuel

/-- C5 (amended): `generateSecurePassword` sets no bound on the number of
candidates and has no failure path: for a random source none of whose
candidates passes the test, it has not returned after any number of runs of
the loop body. -/
theorem generateSecurePassword_unbounded {σ : Type} (f : Faker σ)
    (hrej : ∀ g0, passwordRegex.test (candidate f g0).1 = false) (fuel : Nat) (g : σ) :
    generateSecurePassword f fuel g = none :=
  generateSecurePasswordLoop_stuck f hrej fuel _ g passwordRegex_test_empty

/-- C5 (amended) at `stuckFaker`, after 1000 candidates. -/
theorem generateSecurePassword_unbounded_witness :
    (∀ g0, passwordRegex.test (candidate stuckFaker g0).1 = false) ∧
      generateSecurePassword stuckFaker 1000 0 = none :=
  ⟨stuckFaker_rejected, generateSecurePassword_unbounded stuckFaker stuckFaker_rejected 1000 0⟩

/-! ## Properties of `getTestData` -/

theorem strictEqString_iff (v : JSValue) (s : JSString) :
    v.strictEqString s = true ↔ v = .string s := by
  cases v <;> simp [JSValue.strictEqString]

/-- The conditional of one field follows the sentinel rule. -/
theorem dynamicOr_sentinelRule {σ : Type} (v : JSValue) (gen : σ → JSString × σ) (g : σ) :
    SentinelRule v (Cypress.dynamicOr v gen g).1 (fun s => ∃ g0, s = (gen g0).1) := by
  constructor
  · intro hv
    refine ⟨(gen g).1, ⟨g, rfl⟩, ?_⟩
    simp [Cypress.dynamicOr, (strictEqString_iff v _).2 hv]
  · intro hv
    have : v.strictEqString (lit "DYNAMIC") = false := by
      rw [Bool.eq_false_iff]
      exact fun h => hv ((strictEqString_iff v _).1 h)
    simp [Cypress.dynamicOr, this]

/-- The conditional of the field `password` follows the sentinel rule. -/
theorem dynamicPassword_sentinelRule {σ : Type} (f : Faker σ) (fuel : Nat) (v : JSValue)
    (g : σ) (r : JSValue × σ) (h : Cypress.dynamicPassword f fuel v g = some r) :
    SentinelRule v r.1
      (fun s => ∃ g0 g2, generateSecurePassword f fuel g0 = some (s, g2)) := by
  by_cases hv : v.strictEqString (lit "DYNAMIC") = true
  · have hv2 := (strictEqString_iff v _).1 hv
    refine ⟨fun _ => ?_, fun hne => absurd hv2 hne⟩
    simp only [Cypress.dynamicPassword, hv, if_true] at h
    cases hgen : generateSecurePassword f fuel g with
    | none => rw [hgen] at h; cases h
    | some q =>
      rw [hgen] at h
      simp only [Option.some.injEq] at h
      subst h
      exact ⟨q.1, ⟨g, q.2, hgen⟩, rfl⟩
  · have hv2 : v ≠ .string (lit "DYNAMIC") := fun h => hv ((strictEqString_iff v _).2 h)
    refine ⟨fun heq => absurd heq hv2, fun _ => ?_⟩
    simp only [Cypress.dynamicPassword, hv] at h
    simp only [Bool.false_eq_true, if_false, Option.some.injEq] at h
    subst h
    rfl

/-- The fields of a profile returned by the Cypress `getTestData`. -/
theorem cypress_getTestData_fields {σ : Type} (f : Faker σ) (fuel : Nat) (testData : Fixture)
    (g : σ) (pr : Profile) (g1 : σ)
    (h : Cypress.getTestData f fuel testData g = some (pr, g1)) :
    ∃ (pw : JSValue × σ) (ga gb gc gd ge : σ),
      Cypress.dynamicPassword f fuel testData.password ga = some pw ∧
      pr.email = (Cypress.dynamicOr testData.email (Cypress.dynamicEmail f) g).1 ∧
      pr.password = pw.1 ∧
      pr.firstName = (Cypress.dynamicOr testData.firstName f.nameFirstName gb).1 ∧
      pr.lastName = (Cypress.dynamicOr testData.lastName f.nameLastName gc).1 ∧
      pr.phoneNumber = (Cypress.dynamicOr testData.phoneNumber (phoneNumberTemplate f) gd).1 ∧
      pr.companyName = (Cypress.dynamicOr testData.companyName f.companyName ge).1 ∧
      pr.country = testData.country.or (.string (lit "Germany")) ∧
      pr.hearAboutUs = testData.hearAboutUs.or (.string (lit "Google")) := by
  unfold Cypress.getTestData at h
  cases hpw : Cypress.dynamicPassword f fuel testData.password
      (Cypress.dynamicOr testData.email (Cypress.dynamicEmail f) g).2 with
  | none => simp [hpw] at h
  | some pw =>
    simp only [hpw, Option.some.injEq, Prod.mk.injEq] at h
    obtain ⟨hpr, -⟩ := h
    subst hpr
    exact ⟨pw, _, _, _, _, _, hpw, rfl, rfl, rfl, rfl, rfl, rfl, rfl, rfl⟩

/-- The fields of a profile returned by the Playwright `getTestData` when the
file is read and parses to the record `t`. -/
theorem playwright_getTestData_fields {σ : Type} (f : Faker σ)
    (toLowerCase : JSString → JSString) (fuel : Nat) (rawData : JSString)
    (jsonParse : JSString → Except Playwright.JSError (Option Fixture)) (g : σ) (t : Fixture)
    (pr : Profile) (g1 : σ) (hparse : jsonParse rawData = .ok (some t))
    (h : Playwright.getTestData f toLowerCase fuel (.ok rawData) jsonParse g
      = some (.ok (pr, g1))) :
    ∃ (pw : JSString × σ) (ga gb gc gd ge : σ),
      generateSecurePassword f fuel ga = some pw ∧
      pr.email = .string (toLowerCase (f.internetUsername g).1 ++ lit "@check.de") ∧
      pr.password = .string pw.1 ∧
      pr.firstName = .string (f.personFirstName gb).1 ∧
      pr.lastName = .string (f.personLastName gc).1 ∧
      pr.phoneNumber = .string (phoneNumberTemplate f gd).1 ∧
      pr.companyName = .string (f.companyName ge).1 ∧
      pr.country = t.country ∧
      pr.hearAboutUs = t.hearAboutUs := by
  unfold Playwright.getTestData at h
  simp only [hparse] at h
  cases hpw : generateSecurePassword f fuel (f.internetUsername g).2 with
  | none => simp [hpw] at h
  | some pw =>
    simp only [hpw, Option.some.injEq, Except.ok.injEq, Prod.mk.injEq] at h
    obtain ⟨hpr, -⟩ := h
    subst hpr
    exact ⟨pw, _, _, _, _, _, hpw, rfl, rfl, rfl, rfl, rfl, rfl, rfl, rfl⟩

/-- A truthy value is populated. -/
theorem populated_of_toBoolean (v : JSValue) (h : v.toBoolean = true) :
    v.populated = true := by
  cases v <;> simp_all [JSValue.toBoolean, JSValue.populated]

/-- The value of `v || "..."` is populated. -/
theorem or_string_populated (v : JSValue) (s : JSString) :
    (v.or (.string s)).populated = true := by
  by_cases h : v.toBoolean = true
  · simp [JSValue.or, h, populated_of_toBoolean v h]
  · simp [JSValue.or, h, JSValue.populated]

/-- A field under the sentinel rule is populated when the fixture value is. -/
theorem SentinelRule.populated {v out : JSValue} {generated : JSString → Prop}
    (h : SentinelRule v out generated) (hv : v.populated = true) : out.populated = true := by
  by_cases hd : v = .string (lit "DYNAMIC")
  · obtain ⟨s, -, hs⟩ := h.1 hd
    rw [hs]
    simp [JSValue.populated]
  · rw [h.2 hd]
    exact hv

/-! ## The claims on `getTestData` -/

/-- C6: in the Cypress `getTestData`, for every fixture record and each of the
fields email, password, firstName, lastName, phoneNumber and companyName, the
returned value is an output of the generator of that field if the fixture value
is exactly the string `DYNAMIC`, and the fixture value unchanged otherwise. -/
theorem cypress_getTestData_sentinel {σ : Type} (f : Faker σ) (fuel : Nat)
    (testData : Fixture) (g : σ) (pr : Profile) (g1 : σ)
    (h : Cypress.getTestData f fuel testData g = some (pr, g1)) :
    SentinelRule testData.email pr.email (fun s => ∃ g0, s = (Cypress.dynamicEmail f g0).1) ∧
    SentinelRule testData.password pr.password
      (fun s => ∃ g0 g2, generateSecurePassword f fuel g0 = some (s, g2)) ∧
    SentinelRule testData.firstName pr.firstName (fun s => ∃ g0, s = (f.nameFirstName g0).1) ∧
    SentinelRule testData.lastName pr.lastName (fun s => ∃ g0, s = (f.nameLastName g0).1) ∧
    SentinelRule testData.phoneNumber pr.phoneNumber
      (fun s => ∃ g0, s = (phoneNumberTemplate f g0).1) ∧
    SentinelRule testData.companyName pr.companyName
      (fun s => ∃ g0, s = (f.companyName g0).1) := by
  obtain ⟨pw, ga, gb, gc, gd, ge, hpw, h1, h2, h3, h4, h5, h6, -, -⟩ :=
    cypress_getTestData_fields f fuel testData g pr g1 h
  rw [h1, h2, h3, h4, h5, h6]
  exact ⟨dynamicOr_sentinelRule _ _ _, dynamicPassword_sentinelRule f fuel _ ga pw hpw,
    dynamicOr_sentinelRule _ _ _, dynamicOr_sentinelRule _ _ _, dynamicOr_sentinelRule _ _ _,
    dynamicOr_sentinelRule _ _ _⟩

/-- C6 at `sampleFaker` and `dynamicFixture`. -/
theorem cypress_getTestData_sentinel_witness :
    Cypress.getTestData sampleFaker 1 dynamicFixture 0 = some (sampleProfile, 9) ∧
    (SentinelRule dynamicFixture.email sampleProfile.email
      (fun s => ∃ g0, s = (Cypress.dynamicEmail sampleFaker g0).1) ∧
    SentinelRule dynamicFixture.password sampleProfile.password
      (fun s => ∃ g0 g2, generateSecurePassword sampleFaker 1 g0 = some (s, g2)) ∧
    SentinelRule dynamicFixture.firstName sampleProfile.firstName
      (fun s => ∃ g0, s = (sampleFaker.nameFirstName g0).1) ∧
    SentinelRule dynamicFixture.lastName sampleProfile.lastName
      (fun s => ∃ g0, s = (sampleFaker.nameLastName g0).1) ∧
    SentinelRule dynamicFixture.phoneNumber sampleProfile.phoneNumber
      (fun s => ∃ g0, s = (phoneNumberTemplate sampleFaker g0).1) ∧
    SentinelRule dynamicFixture.companyName sampleProfile.companyName
      (fun s => ∃ g0, s = (sampleFaker.companyName g0).1)) :=
  ⟨by decide, cypress_getTestData_sentinel sampleFaker 1 dynamicFixture 0 sampleProfile 9
    (by decide)⟩

/-- C7, as stated, fails: from `staticFixture`, whose email is the concrete
value `a@check.de`, the Playwright `getTestData` returns a generated email (and
five other generated fields), not the fixture values. -/
theorem playwright_getTestData_static_counterexample :
    Playwright.getTestData sampleFaker asciiToLowerCase 1 (.ok sampleRawData)
        (fun _ => .ok (some staticFixture)) 0
      = some (.ok (playwrightSampleProfile staticFixture, 9)) ∧
    staticFixture.email ≠ .string (lit "DYNAMIC") ∧
    (playwrightSampleProfile staticFixture).email ≠ staticFixture.email :=
  ⟨rfl, by decide, by decide⟩

/-- C7 (amended): in the Playwright `getTestData` the fields email, password,
firstName, lastName, phoneNumber and companyName of the returned profile are
generated values whatever the fixture holds for them; only country and
hearAboutUs are taken from the fixture, as they are. -/
theorem playwright_getTestData_generated {σ : Type} (f : Faker σ)
    (toLowerCase : JSString → JSString) (fuel : Nat) (rawData : JSString)
    (jsonParse : JSString → Except Playwright.JSError (Option Fixture)) (g : σ) (t : Fixture)
    (pr : Profile) (g1 : σ) (hparse : jsonParse rawData = .ok (some t))
    (h : Playwright.getTestData f toLowerCase fuel (.ok rawData) jsonParse g
      = some (.ok (pr, g1))) :
    (∃ g0, pr.email = .string (toLowerCase (f.internetUsername g0).1 ++ lit "@check.de")) ∧
    (∃ g0 g2 s, generateSecurePassword f fuel g0 = some (s, g2) ∧ pr.password = .string s) ∧
    (∃ g0, pr.firstName = .string (f.personFirstName g0).1) ∧
    (∃ g0, pr.lastName = .string (f.personLastName g0).1) ∧
    (∃ g0, pr.phoneNumber = .string (phoneNumberTemplate f g0).1) ∧
    (∃ g0, pr.companyName = .string (f.companyName g0).1) ∧
    pr.country = t.country ∧ pr.hearAboutUs = t.hearAboutUs := by
  obtain ⟨pw, ga, gb, gc, gd, ge, hpw, h1, h2, h3, h4, h5, h6, h7, h8⟩ :=
    playwright_getTestData_fields f toLowerCase fuel rawData jsonParse g t pr g1 hparse h
  exact ⟨⟨g, h1⟩, ⟨ga, pw.2, pw.1, hpw, h2⟩, ⟨gb, h3⟩, ⟨gc, h4⟩, ⟨gd, h5⟩, ⟨ge, h6⟩, h7, h8⟩

/-- C7 (amended) at `sampleFaker` and `staticFixture`. -/
theorem playwright_getTestData_generated_witness :
    (∃ g0, (playwrightSampleProfile staticFixture).email
      = .string (asciiToLowerCase (sampleFaker.internetUsername g0).1 ++ lit "@check.de")) ∧
    (∃ g0 g2 s, generateSecurePassword sampleFaker 1 g0 = some (s, g2) ∧
      (playwrightSampleProfile staticFixture).password = .string s) ∧
    (∃ g0, (playwrightSampleProfile staticFixture).firstName
      = .string (sampleFaker.personFirstName g0).1) ∧
    (∃ g0, (playwrightSampleProfile staticFixture).lastName
      = .string (sampleFaker.personLastName g0).1) ∧
    (∃ g0, (playwrightSampleProfile staticFixture).phoneNumber
      = .string (phoneNumberTemplate sampleFaker g0).1) ∧
    (∃ g0, (playwrightSampleProfile staticFixture).companyName
      = .string (sampleFaker.companyName g0).1) ∧
    (playwrightSampleProfile staticFixture).country = staticFixture.country ∧
    (playwrightSampleProfile staticFixture).hearAboutUs = staticFixture.hearAboutUs :=
  playwright_getTestData_generated sampleFaker asciiToLowerCase 1 sampleRawData
    (fun _ => .ok (some staticFixture)) 0 staticFixture (playwrightSampleProfile staticFixture) 9
    rfl rfl

/-- C8: in the Cypress `getTestData`, for every fixture record in which country
is absent the returned country is `Germany`, for every fixture record in which
hearAboutUs is absent the returned hearAboutUs is `Google`, and a country or
hearAboutUs that is present with a non-empty string is returned as it is. -/
theorem cypress_getTestData_defaults {σ : Type} (f : Faker σ) (fuel : Nat)
    (testData : Fixture) (g : σ) (pr : Profile) (g1 : σ)
    (h : Cypress.getTestData f fuel testData g = some (pr, g1)) :
    (testData.country = .undefined → pr.country = .string (lit "Germany")) ∧
    (testData.hearAboutUs = .undefined → pr.hearAboutUs = .string (lit "Google")) ∧
    (∀ s, s ≠ [] → testData.country = .string s → pr.country = .string s) ∧
    (∀ s, s ≠ [] → testData.hearAboutUs = .string s → pr.hearAboutUs = .string s) := by
  obtain ⟨-, -, -, -, -, -, -, -, -, -, -, -, -, h7, h8⟩ :=
    cypress_getTestData_fields f fuel testData g pr g1 h
  rw [h7, h8]
  refine ⟨?_, ?_, ?_, ?_⟩
  · intro hc
    simp [hc, JSValue.or, JSValue.toBoolean]
  · intro hc
    simp [hc, JSValue.or, JSValue.toBoolean]
  · intro s hs hc
    simp [hc, JSValue.or, JSValue.toBoolean, hs]
  · intro s hs hc
    simp [hc, JSValue.or, JSValue.toBoolean, hs]

/-- C8 at `sampleFaker` and `dynamicFixture`, which has neither key. -/
theorem cypress_getTestData_defaults_witness :
    Cypress.getTestData sampleFaker 1 dynamicFixture 0 = some (sampleProfile, 9) ∧
    ((dynamicFixture.country = .undefined → sampleProfile.country = .string (lit "Germany")) ∧
    (dynamicFixture.hearAboutUs = .undefined →
      sampleProfile.hearAboutUs = .string (lit "Google")) ∧
    (∀ s, s ≠ [] → dynamicFixture.country = .string s → sampleProfile.country = .string s) ∧
    (∀ s, s ≠ [] → dynamicFixture.hearAboutUs = .string s →
      sampleProfile.hearAboutUs = .string s)) :=
  ⟨by decide, cypress_getTestData_defaults sampleFaker 1 dynamicFixture 0 sampleProfile 9
    (by decide)⟩

/-- C9, as stated, fails: from `emptyFixture`, in which country and hearAboutUs
are absent, the Playwright `getTestData` returns a profile whose country is not
`Germany` and whose hearAboutUs is not `Google` (both are `undefined`). -/
theorem playwright_getTestData_defaults_counterexample :
    Playwright.getTestData sampleFaker asciiToLowerCase 1 (.ok sampleRawData)
        (fun _ => .ok (some emptyFixture)) 0
      = some (.ok (playwrightSampleProfile emptyFixture, 9)) ∧
    emptyFixture.country = .undefined ∧
    (playwrightSampleProfile emptyFixture).country ≠ .string (lit "Germany") ∧
    emptyFixture.hearAboutUs = .undefined ∧
    (playwrightSampleProfile emptyFixture).hearAboutUs ≠ .string (lit "Google") :=
  ⟨rfl, by decide, by decide, by decide, by decide⟩

/-- C9 (amended): in the Playwright `getTestData` the returned country and
hearAboutUs are the values of the fixture, without a fallback: for every
fixture record in which country (hearAboutUs) is absent, the returned country
(hearAboutUs) is absent too. -/
theorem playwright_getTestData_no_defaults {σ : Type} (f : Faker σ)
    (toLowerCase : JSString → JSString) (fuel : Nat) (rawData : JSString)
    (jsonParse : JSString → Except Playwright.JSError (Option Fixture)) (g : σ) (t : Fixture)
    (pr : Profile) (g1 : σ) (hparse : jsonParse rawData = .ok (some t))
    (h : Playwright.getTestData f toLowerCase fuel (.ok rawData) jsonParse g
      = some (.ok (pr, g1))) :
    pr.country = t.country ∧ pr.hearAboutUs = t.hearAboutUs ∧
    (t.country = .undefined → pr.country = .undefined) ∧
    (t.hearAboutUs = .undefined → pr.hearAboutUs = .undefined) := by
  obtain ⟨-, -, -, -, -, -, -, -, -, -, -, -, -, h7, h8⟩ :=
    playwright_getTestData_fields f toLowerCase fuel rawData jsonParse g t pr g1 hparse h
  exact ⟨h7, h8, fun hc => h7.trans hc, fun hc => h8.trans hc⟩

/-- C9 (amended) at `sampleFaker` and `emptyFixture`. -/
theorem playwright_getTestData_no_defaults_witness :
    (playwrightSampleProfile emptyFixture).country = emptyFixture.country ∧
    (playwrightSampleProfile emptyFixture).hearAboutUs = emptyFixture.hearAboutUs ∧
    (emptyFixture.country = .undefined →
      (playwrightSampleProfile emptyFixture).country = .undefined) ∧
    (emptyFixture.hearAboutUs = .undefined →
      (playwrightSampleProfile emptyFixture).hearAboutUs = .undefined) :=
  playwright_getTestData_no_defaults sampleFaker asciiToLowerCase 1 sampleRawData
    (fun _ => .ok (some emptyFixture)) 0 emptyFixture (playwrightSampleProfile emptyFixture) 9
    rfl rfl

/-- C10, as stated, fails: from `emptyFixture` the Cypress `getTestData` returns
a profile whose email is absent, and the Playwright `getTestData` returns a
profile whose country is absent. -/
theorem getTestData_populated_counterexample :
    (Cypress.getTestData sampleFaker 1 emptyFixture 0).map (fun r => r.1.email.populated)
      = some false ∧
    Playwright.getTestData sampleFaker asciiToLowerCase 1 (.ok sampleRawData)
        (fun _ => .ok (some emptyFixture)) 0
      = some (.ok (playwrightSampleProfile emptyFixture, 9)) ∧
    (playwrightSampleProfile emptyFixture).country.populated = false :=
  ⟨by decide, rfl, by decide⟩

/-- C10 (amended): the Cypress `getTestData` returns a profile whose country and
hearAboutUs are populated for every fixture record, and whose email, password,
firstName, lastName, phoneNumber and companyName are each populated whenever
the fixture holds a value for the field (neither absent nor null); the
Playwright `getTestData` returns a profile whose six generated fields are
populated for every fixture record, and whose country and hearAboutUs are each
populated whenever the fixture holds a value for the field. -/
theorem getTestData_populated {σ : Type} (f : Faker σ) (toLowerCase : JSString → JSString)
    (fuel : Nat) (rawData : JSString)
    (jsonParse : JSString → Except Playwright.JSError (Option Fixture))
    (testData : Fixture) (g : σ) (pr : Profile) (g1 : σ) :
    (Cypress.getTestData f fuel testData g = some (pr, g1) →
      pr.country.populated = true ∧ pr.hearAboutUs.populated = true ∧
      (testData.email.populated = true → pr.email.populated = true) ∧
      (testData.password.populated = true → pr.password.populated = true) ∧
      (testData.firstName.populated = true → pr.firstName.populated = true) ∧
      (testData.lastName.populated = true → pr.lastName.populated = true) ∧
      (testData.phoneNumber.populated = true → pr.phoneNumber.populated = true) ∧
      (testData.companyName.populated = true → pr.companyName.populated = true)) ∧
    (jsonParse rawData = .ok (some testData) →
      Playwright.getTestData f toLowerCase fuel (.ok rawData) jsonParse g
        = some (.ok (pr, g1)) →
      pr.email.populated = true ∧ pr.password.populated = true ∧
      pr.firstName.populated = true ∧ pr.lastName.populated = true ∧
      pr.phoneNumber.populated = true ∧ pr.companyName.populated = true ∧
      (testData.country.populated = true → pr.country.populated = true) ∧
      (testData.hearAboutUs.populated = true → pr.hearAboutUs.populated = true)) := by
  constructor
  · intro h
    obtain ⟨pw, ga, gb, gc, gd, ge, hpw, h1, h2, h3, h4, h5, h6, h7, h8⟩ :=
      cypress_getTestData_fields f fuel testData g pr g1 h
    rw [h1, h2, h3, h4, h5, h6, h7, h8]
    exact ⟨or_string_populated _ _, or_string_populated _ _,
      (dynamicOr_sentinelRule _ _ _).populated,
      (dynamicPassword_sentinelRule f fuel _ ga pw hpw).populated,
      (dynamicOr_sentinelRule _ _ _).populated, (dynamicOr_sentinelRule _ _ _).populated,
      (dynamicOr_sentinelRule _ _ _).populated, (dynamicOr_sentinelRule _ _ _).populated⟩
  · intro hparse h
    obtain ⟨pw, ga, gb, gc, gd, ge, -, h1, h2, h3, h4, h5, h6, h7, h8⟩ :=
      playwright_getTestData_fields f toLowerCase fuel rawData jsonParse g testData pr g1
        hparse h
    rw [h1, h2, h3, h4, h5, h6, h7, h8]
    exact ⟨rfl, rfl, rfl, rfl, rfl, rfl, id, id⟩

/-- C10 (amended) at `sampleFaker`: the Cypress profile of `dynamicFixture` and
the Playwright profile of `staticFixture`. -/
theorem getTestData_populated_witness :
    (Cypress.getTestData sampleFaker 1 dynamicFixture 0 = some (sampleProfile, 9) ∧
      sampleProfile.country.populated = true ∧ sampleProfile.hearAboutUs.populated = true ∧
      sampleProfile.email.populated = true) ∧
    (Playwright.getTestData sampleFaker asciiToLowerCase 1 (.ok sampleRawData)
        (fun _ => .ok (some staticFixture)) 0
      = some (.ok (playwrightSampleProfile staticFixture, 9)) ∧
      (playwrightSampleProfile staticFixture).email.populated = true ∧
      (playwrightSampleProfile staticFixture).country.populated = true) :=
  have hc := (getTestData_populated sampleFaker asciiToLowerCase 1 sampleRawData
    (fun _ => .ok (some staticFixture)) dynamicFixture 0 sampleProfile 9).1 (by decide)
  have hp := (getTestData_populated sampleFaker asciiToLowerCase 1 sampleRawData
    (fun _ => .ok (some staticFixture)) staticFixture 0
    (playwrightSampleProfile staticFixture) 9).2 rfl rfl
  ⟨⟨by decide, hc.1, hc.2.1, hc.2.2.1 (by decide)⟩,
    ⟨rfl, hp.1, hp.2.2.2.2.2.2.1 (by decide)⟩⟩

/-! ## Properties of the email pattern -/

/-- The tail `.*$` after a match attempt: it succeeds, with nothing left, exactly
when no line terminator follows. -/
theorem starK_dot_eol (s : JSString) : ∀ p : Nat,
    starK .dot p s (fun p1 s1 => Regex.matchK .eol p1 s1 (fun _ rest => some rest))
      = if s.all (fun c => !isLineTerminator c) then some [] else none := by
  induction s with
  | nil => intro p; simp [starK, Regex.matchK]
  | cons x xs ih =>
    intro p
    by_cases hx : isLineTerminator x = true
    · simp [starK, CharClass.mem, hx, Regex.matchK]
    · have hx2 : isLineTerminator x = false := by simpa using hx
      simp only [starK, CharClass.mem, hx2, Bool.not_false, if_true, ih (p + 1),
        List.all_cons, Bool.true_and]
      by_cases hall : (xs.all fun c => !isLineTerminator c) = true
      · simp [hall]
      · simp [hall, Regex.matchK]

/-- A match attempt of `/@.*$/` at one index. -/
theorem emailDomainRegex_matchK (i : Nat) (s : JSString) :
    emailDomainRegex.matchK i s (fun _ rest => some rest)
      = match s with
        | [] => none
        | x :: xs =>
          if x = 64 ∧ (xs.all fun c => !isLineTerminator c) = true then some [] else none := by
  cases s with
  | nil => simp [emailDomainRegex, Regex.matchK]
  | cons x xs =>
    by_cases hx : x = 64
    · subst hx
      have := starK_dot_eol xs (i + 1)
      simp only [emailDomainRegex, Regex.matchK, CharClass.mem, beq_self_eq_true, if_true,
        true_and]
      simpa [Regex.matchK] using this
    · simp [emailDomainRegex, Regex.matchK, CharClass.mem, hx]

/-- When the input has an `@` that no line terminator follows, the result of
`replace(/@.*$/, repl)` ends with `repl`. -/
theorem emailDomainRegex_replaceFrom_suffix (repl : JSString) :
    ∀ (s : JSString) (i : Nat),
      (∃ pre post, s = pre ++ 64 :: post ∧ ∀ c ∈ post, isLineTerminator c = false) →
        repl <:+ emailDomainRegex.replaceFrom repl i s := by
  intro s
  induction s with
  | nil =>
    rintro i ⟨pre, post, h, -⟩
    simp at h
  | cons x xs ih =>
    rintro i ⟨pre, post, h, hpost⟩
    simp only [Regex.replaceFrom, emailDomainRegex_matchK]
    by_cases hm : x = 64 ∧ (xs.all fun c => !isLineTerminator c) = true
    · simp [hm]
    · simp only [hm, if_false]
      cases pre with
      | nil =>
        simp only [List.nil_append, List.cons.injEq] at h
        obtain ⟨rfl, rfl⟩ := h
        exact absurd ⟨rfl, by simpa using hpost⟩ hm
      | cons y ys =>
        simp only [List.cons_append, List.cons.injEq] at h
        obtain ⟨-, rfl⟩ := h
        exact (ih (i + 1) ⟨ys, post, rfl, hpost⟩).trans (List.suffix_cons _ _)

/-- Without an `@` in the input, `replace(/@.*$/, repl)` returns the input. -/
theorem emailDomainRegex_replaceFrom_no_at (repl : JSString) :
    ∀ (s : JSString) (i : Nat), (∀ c ∈ s, c ≠ 64) →
      emailDomainRegex.replaceFrom repl i s = s := by
  intro s
  induction s with
  | nil => intro i _; simp [Regex.replaceFrom, emailDomainRegex_matchK]
  | cons x xs ih =>
    intro i h
    have hx : x ≠ 64 := h x (by simp)
    simp only [Regex.replaceFrom, emailDomainRegex_matchK, hx, false_and, if_false]
    rw [ih (i + 1) (fun c hc => h c (by simp [hc]))]

/-! ## The claims on the generated fields -/

/-- C11: in the Cypress `getTestData`, for every fixture whose email is
`DYNAMIC` and for every address that the email generator returns (a string
with an `@` which no line terminator follows, as every address of
`faker.internet.email()` is), the returned email ends with `@check.de`; and
when the password is `DYNAMIC` too, the returned password has length at least
8, a letter and a digit. -/
theorem cypress_getTestData_email_domain {σ : Type} (f : Faker σ) (fuel : Nat)
    (testData : Fixture) (g : σ) (pr : Profile) (g1 : σ)
    (h : Cypress.getTestData f fuel testData g = some (pr, g1))
    (hemail : testData.email = .string (lit "DYNAMIC"))
    (hraw : ∃ pre post, (f.internetEmail g).1 = pre ++ 64 :: post ∧
      ∀ c ∈ post, isLineTerminator c = false) :
    (∃ s, pr.email = .string s ∧ lit "@check.de" <:+ s) ∧
    (testData.password = .string (lit "DYNAMIC") →
      ∃ p, pr.password = .string p ∧ 8 ≤ p.length ∧
        (∃ c ∈ p, isAsciiLetter c = true) ∧ (∃ c ∈ p, isDigit c = true)) := by
  obtain ⟨pw, ga, -, -, -, -, hpw, h1, h2, -⟩ :=
    cypress_getTestData_fields f fuel testData g pr g1 h
  constructor
  · refine ⟨(Cypress.dynamicEmail f g).1, ?_, ?_⟩
    · rw [h1]
      simp [Cypress.dynamicOr, (strictEqString_iff testData.email _).2 hemail]
    · exact emailDomainRegex_replaceFrom_suffix _ _ 0 hraw
  · intro hpass
    have hdyn := (strictEqString_iff testData.password _).2 hpass
    simp only [Cypress.dynamicPassword, hdyn, if_true] at hpw
    cases hgen : generateSecurePassword f fuel ga with
    | none => rw [hgen] at hpw; cases hpw
    | some q =>
      rw [hgen] at hpw
      simp only [Option.some.injEq] at hpw
      have hq : generateSecurePassword f fuel ga = some (q.1, q.2) := hgen
      have htest := (generateSecurePasswordLoop_some f fuel _ ga q.1 q.2 hq).1
      rw [passwordRegex_test_iff] at htest
      refine ⟨q.1, ?_, htest.2⟩
      rw [h2, ← hpw]

/-- C11 at `sampleFaker`, whose address is `Jane.Doe@example.org`, and
`dynamicFixture`. -/
theorem cypress_getTestData_email_domain_witness :
    (∃ s, sampleProfile.email = .string s ∧ lit "@check.de" <:+ s) ∧
    (dynamicFixture.password = .string (lit "DYNAMIC") →
      ∃ p, sampleProfile.password = .string p ∧ 8 ≤ p.length ∧
        (∃ c ∈ p, isAsciiLetter c = true) ∧ (∃ c ∈ p, isDigit c = true)) :=
  cypress_getTestData_email_domain sampleFaker 1 dynamicFixture 0 sampleProfile 9
    (by decide) (by decide) ⟨lit "Jane.Doe", lit "example.org", by decide, by decide⟩

/-- A decimal digit is not a space. -/
theorem isDigit_ne_space (c : Nat) (h : isDigit c = true) : c ≠ 32 := by
  have hd2 : 48 ≤ c ∧ c ≤ 57 := by simpa [isDigit] using h
  omega

/-- The phone template has the phone format when `numeric(n)` draws `n` digits. -/
theorem phoneNumberTemplate_format {σ : Type} (f : Faker σ)
    (hnum : ∀ n g, (f.stringNumeric n g).1.length = n ∧
      ∀ c ∈ (f.stringNumeric n g).1, isDigit c = true) (g : σ) :
    PhoneFormat (phoneNumberTemplate f g).1 := by
  obtain ⟨ha, hda⟩ := hnum 3 g
  obtain ⟨hb, hdb⟩ := hnum 3 (f.stringNumeric 3 g).2
  obtain ⟨hc, hdc⟩ := hnum 4 (f.stringNumeric 3 (f.stringNumeric 3 g).2).2
  have hs : (phoneNumberTemplate f g).1 = lit "+49 " ++ (f.stringNumeric 3 g).1 ++ lit " " ++
      (f.stringNumeric 3 (f.stringNumeric 3 g).2).1 ++ lit " " ++
      (f.stringNumeric 4 (f.stringNumeric 3 (f.stringNumeric 3 g).2).2).1 := rfl
  generalize (f.stringNumeric 3 g).1 = a at ha hda hs
  generalize (f.stringNumeric 3 (f.stringNumeric 3 g).2).1 = b at hb hdb hs
  generalize (f.stringNumeric 4 (f.stringNumeric 3 (f.stringNumeric 3 g).2).2).1 = c
    at hc hdc hs
  rw [hs]
  refine ⟨⟨a, b, c, ha, hb, hc, ?_, rfl⟩, ?_, ?_⟩
  · intro d hd
    simp only [List.mem_append] at hd
    rcases hd with (hd | hd) | hd
    · exact hda d hd
    · exact hdb d hd
    · exact hdc d hd
  · simp [lit, ha, hb, hc]
  · obtain ⟨a0, a1, a2, rfl⟩ := List.length_eq_three.1 ha
    obtain ⟨b0, b1, b2, rfl⟩ := List.length_eq_three.1 hb
    rcases c with _ | ⟨c0, _ | ⟨c1, _ | ⟨c2, _ | ⟨c3, _ | ⟨c4, t⟩⟩⟩⟩⟩ <;> simp at hc
    have n0 := isDigit_ne_space a0 (hda a0 (by simp))
    have n1 := isDigit_ne_space a1 (hda a1 (by simp))
    have n2 := isDigit_ne_space a2 (hda a2 (by simp))
    have n3 := isDigit_ne_space b0 (hdb b0 (by simp))
    have n4 := isDigit_ne_space b1 (hdb b1 (by simp))
    have n5 := isDigit_ne_space b2 (hdb b2 (by simp))
    have n6 := isDigit_ne_space c0 (hdc c0 (by simp))
    have n7 := isDigit_ne_space c1 (hdc c1 (by simp))
    have n8 := isDigit_ne_space c2 (hdc c2 (by simp))
    have n9 := isDigit_ne_space c3 (hdc c3 (by simp))
    intro i hi
    have hlist : lit "+49 " ++ [a0, a1, a2] ++ lit " " ++ [b0, b1, b2] ++ lit " " ++
        [c0, c1, c2, c3] = [43, 52, 57, 32, a0, a1, a2, 32, b0, b1, b2, 32, c0, c1, c2, c3] := by
      simp [lit]
    rw [hlist]
    interval_cases i <;> simp [n0, n1, n2, n3, n4, n5, n6, n7, n8, n9]

/-- The numeric draw of `sampleFaker` is `n` times the digit `7`. -/
theorem sampleFaker_numeric (n g : Nat) :
    (sampleFaker.stringNumeric n g).1.length = n ∧
      ∀ c ∈ (sampleFaker.stringNumeric n g).1, isDigit c = true := by
  constructor
  · simp [sampleFaker]
  · intro c hc
    have : c = 55 := by
      simp only [sampleFaker] at hc
      exact List.eq_of_mem_replicate hc
    subst this
    decide

/-- C12: for every random source whose `numeric(n)` draw returns exactly `n`
decimal digits, the synthetic phoneNumber produced by `getTestData` (by the
Cypress variant when the fixture value is `DYNAMIC`, by the Playwright variants
always) is `+49 ` followed by 3 digits, a space, 3 digits, a space and 4
digits: 16 characters, spaces exactly at the positions 3, 7 and 11. -/
theorem getTestData_phoneNumber_format {σ : Type} (f : Faker σ)
    (hnum : ∀ n g, (f.stringNumeric n g).1.length = n ∧
      ∀ c ∈ (f.stringNumeric n g).1, isDigit c = true)
    (toLowerCase : JSString → JSString) (fuel : Nat) (rawData : JSString)
    (jsonParse : JSString → Except Playwright.JSError (Option Fixture))
    (testData : Fixture) (g : σ) (pr : Profile) (g1 : σ) :
    (Cypress.getTestData f fuel testData g = some (pr, g1) →
      testData.phoneNumber = .string (lit "DYNAMIC") →
      ∃ s, pr.phoneNumber = .string s ∧ PhoneFormat s) ∧
    (jsonParse rawData = .ok (some testData) →
      Playwright.getTestData f toLowerCase fuel (.ok rawData) jsonParse g
        = some (.ok (pr, g1)) →
      ∃ s, pr.phoneNumber = .string s ∧ PhoneFormat s) := by
  constructor
  · intro h hdyn
    obtain ⟨-, -, -, -, gd, -, -, -, -, -, -, h5, -⟩ :=
      cypress_getTestData_fields f fuel testData g pr g1 h
    refine ⟨(phoneNumberTemplate f gd).1, ?_, phoneNumberTemplate_format f hnum gd⟩
    rw [h5]
    simp [Cypress.dynamicOr, (strictEqString_iff testData.phoneNumber _).2 hdyn]
  · intro hparse h
    obtain ⟨-, -, -, -, gd, -, -, -, -, -, -, h5, -⟩ :=
      playwright_getTestData_fields f toLowerCase fuel rawData jsonParse g testData pr g1
        hparse h
    exact ⟨(phoneNumberTemplate f gd).1, h5, phoneNumberTemplate_format f hnum gd⟩

/-- C12 at `sampleFaker`: the Cypress profile of `dynamicFixture` and the
Playwright profile of `staticFixture`. -/
theorem getTestData_phoneNumber_format_witness :
    (∃ s, sampleProfile.phoneNumber = .string s ∧ PhoneFormat s) ∧
    (∃ s, (playwrightSampleProfile staticFixture).phoneNumber = .string s ∧ PhoneFormat s) :=
  ⟨(getTestData_phoneNumber_format sampleFaker sampleFaker_numeric asciiToLowerCase 1
      sampleRawData (fun _ => .ok (some staticFixture)) dynamicFixture 0 sampleProfile 9).1
      (by decide) (by decide),
    (getTestData_phoneNumber_format sampleFaker sampleFaker_numeric asciiToLowerCase 1
      sampleRawData (fun _ => .ok (some staticFixture)) staticFixture 0
      (playwrightSampleProfile staticFixture) 9).2 rfl rfl⟩

/-- C13, as stated, fails: the fixture text `null` parses, and the Playwright
`getTestData` raises on it (the `TypeError` of the property access
`testData.country`) instead of returning a profile. -/
theorem playwright_getTestData_null_counterexample :
    Playwright.getTestData sampleFaker asciiToLowerCase 1 (.ok (lit "null"))
        (fun _ => .ok none) 0
      = some (.error .typeError) :=
  rfl

/-- C13 (amended): the Playwright `getTestData` raises the error of
`fs.readFileSync` when the fixture file cannot be read and the error of
`JSON.parse` when its text cannot be parsed, and returns no profile then (the
code has no `ConfigurationError` of its own); when the text parses to a value
other than `null` and the password generator returns, it returns a profile
without raising; when the text parses to `null`, it raises a `TypeError`. The
Cypress `getTestData`, which gets the fixture loaded by `require`, returns a
profile for every fixture record whenever the password is not `DYNAMIC` or the
password generator returns. -/
theorem getTestData_outcome {σ : Type} (f : Faker σ) (toLowerCase : JSString → JSString)
    (fuel : Nat) (readFileSync : Except Playwright.JSError JSString)
    (jsonParse : JSString → Except Playwright.JSError (Option Fixture)) (g : σ) :
    (∀ e, readFileSync = .error e →
      Playwright.getTestData f toLowerCase fuel readFileSync jsonParse g = some (.error e)) ∧
    (∀ rawData e, readFileSync = .ok rawData → jsonParse rawData = .error e →
      Playwright.getTestData f toLowerCase fuel readFileSync jsonParse g = some (.error e)) ∧
    (∀ rawData t pw, readFileSync = .ok rawData → jsonParse rawData = .ok (some t) →
      generateSecurePassword f fuel (f.internetUsername g).2 = some pw →
      ∃ pr g1, Playwright.getTestData f toLowerCase fuel readFileSync jsonParse g
        = some (.ok (pr, g1))) ∧
    (∀ rawData pw, readFileSync = .ok rawData → jsonParse rawData = .ok none →
      generateSecurePassword f fuel (f.internetUsername g).2 = some pw →
      Playwright.getTestData f toLowerCase fuel readFileSync jsonParse g
        = some (.error .typeError)) ∧
    (∀ testData : Fixture,
      (testData.password ≠ .string (lit "DYNAMIC") ∨
        ∃ pw, generateSecurePassword f fuel
          (Cypress.dynamicOr testData.email (Cypress.dynamicEmail f) g).2 = some pw) →
      ∃ pr g1, Cypress.getTestData f fuel testData g = some (pr, g1)) := by
  refine ⟨?_, ?_, ?_, ?_, ?_⟩
  · intro e h
    simp [Playwright.getTestData, h]
  · intro rawData e h1 h2
    simp [Playwright.getTestData, h1, h2]
  · intro rawData t pw h1 h2 h3
    simp [Playwright.getTestData, h1, h2, h3]
  · intro rawData pw h1 h2 h3
    simp [Playwright.getTestData, h1, h2, h3]
  · intro testData hpw
    have hsome : ∃ r, Cypress.dynamicPassword f fuel testData.password
        (Cypress.dynamicOr testData.email (Cypress.dynamicEmail f) g).2 = some r := by
      by_cases hd : testData.password.strictEqString (lit "DYNAMIC") = true
      · rcases hpw with hne | ⟨pw, hgen⟩
        · exact absurd ((strictEqString_iff _ _).1 hd) hne
        · exact ⟨(.string pw.1, pw.2), by simp [Cypress.dynamicPassword, hd, hgen]⟩
      · exact ⟨(testData.password, (Cypress.dynamicOr testData.email
          (Cypress.dynamicEmail f) g).2), by simp [Cypress.dynamicPassword, hd]⟩
    obtain ⟨r, hr⟩ := hsome
    simp [Cypress.getTestData, hr]

/-- C13 (amended) at `sampleFaker`: a missing file, a text that does not parse,
`staticFixture`, the text `null`, and `staticFixture` in the Cypress variant. -/
theorem getTestData_outcome_witness :
    Playwright.getTestData sampleFaker asciiToLowerCase 1 (.error .fileSystem)
        (fun _ => .ok (some staticFixture)) 0 = some (.error .fileSystem) ∧
    Playwright.getTestData sampleFaker asciiToLowerCase 1 (.ok sampleRawData)
        (fun _ => .error .syntaxError) 0 = some (.error .syntaxError) ∧
    (∃ pr g1, Playwright.getTestData sampleFaker asciiToLowerCase 1 (.ok sampleRawData)
        (fun _ => .ok (some staticFixture)) 0 = some (.ok (pr, g1))) ∧
    Playwright.getTestData sampleFaker asciiToLowerCase 1 (.ok sampleRawData)
        (fun _ => .ok none) 0 = some (.error .typeError) ∧
    (∃ pr g1, Cypress.getTestData sampleFaker 1 staticFixture 0 = some (pr, g1)) :=
  ⟨(getTestData_outcome sampleFaker asciiToLowerCase 1 (.error .fileSystem)
      (fun _ => .ok (some staticFixture)) 0).1 .fileSystem rfl,
    (getTestData_outcome sampleFaker asciiToLowerCase 1 (.ok sampleRawData)
      (fun _ => .error .syntaxError) 0).2.1 sampleRawData .syntaxError rfl rfl,
    (getTestData_outcome sampleFaker asciiToLowerCase 1 (.ok sampleRawData)
      (fun _ => .ok (some staticFixture)) 0).2.2.1 sampleRawData staticFixture
      (lit "xxxxxxxx7A!", 3) rfl rfl (by decide),
    (getTestData_outcome sampleFaker asciiToLowerCase 1 (.ok sampleRawData)
      (fun _ => .ok none) 0).2.2.2.1 sampleRawData (lit "xxxxxxxx7A!", 3) rfl rfl (by decide),
    (getTestData_outcome sampleFaker asciiToLowerCase 1 (.ok sampleRawData)
      (fun _ => .ok none) 0).2.2.2.2 staticFixture (Or.inl (by decide))⟩

/-! ## Properties of the Playwright page objects -/

/-- A call ends as the browser decides and adds one event to the trace. -/
theorem call_eq {σ : Type} (b : Playwright.Browser σ) (a : Playwright.Action)
    (s : Playwright.Session σ) :
    Playwright.call b a s = ((b.perform a s.state).1,
      { state := (b.perform a s.state).2,
        trace := s.trace ++ [(a, (b.perform a s.state).1)] }) := by
  simp only [Playwright.call]

theorem forcedClicks_append (l : Playwright.Locator) (xs ys : List Playwright.Event) :
    Playwright.forcedClicks l (xs ++ ys)
      = Playwright.forcedClicks l xs + Playwright.forcedClicks l ys := by
  simp [Playwright.forcedClicks, List.count_append]

theorem getLast?_append_of_some {α : Type} (xs ys : List α) (y : α)
    (h : ys.getLast? = some y) : (xs ++ ys).getLast? = some y := by
  cases ys with
  | nil => simp at h
  | cons z zs =>
    rw [List.getLast?_append_of_ne_nil _ (by simp)]
    exact h

/-- The `try` block makes at most one forced click, and returns only when
its last call, the forced click, returned. -/
theorem attemptClick_spec {σ : Type} (b : Playwright.Browser σ) (opt : Playwright.Locator)
    (s : Playwright.Session σ) :
    ∃ evs, (Playwright.attemptClick b opt s).2.trace = s.trace ++ evs ∧
      Playwright.forcedClicks opt evs ≤ 1 ∧
      ∀ v, (Playwright.attemptClick b opt s).1 = .returned v →
        evs.getLast? = some (.click opt true, .returned v) := by
  simp only [Playwright.attemptClick, Playwright.Step.andThen, call_eq]
  cases h1 : (b.perform (.hover opt) s.state).1 with
  | raised e =>
    exact ⟨[(.hover opt, .raised e)], by simp, by simp [Playwright.forcedClicks], by simp⟩
  | returned v1 =>
    simp only []
    cases h2 : (b.perform (.waitForTimeout 200) (b.perform (.hover opt) s.state).2).1 with
    | raised e =>
      exact ⟨[(.hover opt, .returned v1), (.waitForTimeout 200, .raised e)], by simp,
        by simp [Playwright.forcedClicks], by simp⟩
    | returned v2 =>
      simp only []
      refine ⟨[(.hover opt, .returned v1), (.waitForTimeout 200, .returned v2),
        (.click opt true, (b.perform (.click opt true) (b.perform (.waitForTimeout 200)
          (b.perform (.hover opt) s.state).2).2).1)], by simp, by simp [Playwright.forcedClicks],
          ?_⟩
      intro v hv
      simp [hv]

/-- The `catch` block makes no forced click, and raises only the error of its
last call, which is no hover and no forced click. -/
theorem fallbackClick_spec {σ : Type} (b : Playwright.Browser σ) (opt : Playwright.Locator)
    (text : JSString) (i : Nat) (s : Playwright.Session σ) :
    ∃ evs, (Playwright.fallbackClick b opt text i s).2.trace = s.trace ++ evs ∧
      Playwright.forcedClicks opt evs = 0 ∧
      ∀ e, (Playwright.fallbackClick b opt text i s).1 = .raised e →
        ∃ a, evs.getLast? = some (a, .raised e) ∧ a ≠ .hover opt ∧ a ≠ .click opt true := by
  simp only [Playwright.fallbackClick, Playwright.Step.andThen, Playwright.consoleLog, call_eq]
  cases h1 : (b.perform (.elementHandle opt) s.state).1 with
  | raised e =>
    refine ⟨[(.consoleLog (Playwright.retryMessage text i), .returned .undefined),
      (.elementHandle opt, .raised e)], by simp, by simp [Playwright.forcedClicks], ?_⟩
    intro e1 he1
    simp only [Outcome.raised.injEq] at he1
    subst he1
    exact ⟨.elementHandle opt, by simp, by simp, by simp⟩
  | returned handle =>
    simp only []
    cases h2 : (b.perform (.evaluateClick handle)
        (b.perform (.elementHandle opt) s.state).2).1 with
    | raised e =>
      refine ⟨[(.consoleLog (Playwright.retryMessage text i), .returned .undefined),
        (.elementHandle opt, .returned handle), (.evaluateClick handle, .raised e)],
        by simp, by simp [Playwright.forcedClicks], ?_⟩
      intro e1 he1
      simp only [Outcome.raised.injEq] at he1
      subst he1
      exact ⟨.evaluateClick handle, by simp, by simp, by simp⟩
    | returned v2 =>
      simp only []
      refine ⟨[(.consoleLog (Playwright.retryMessage text i), .returned .undefined),
        (.elementHandle opt, .returned handle), (.evaluateClick handle, .returned v2),
        (.waitForTimeout 200, (b.perform (.waitForTimeout 200) (b.perform (.evaluateClick handle)
          (b.perform (.elementHandle opt) s.state).2).2).1)],
        by simp, by simp [Playwright.forcedClicks], ?_⟩
      intro e1 he1
      exact ⟨.waitForTimeout 200, by simp [he1], by simp, by simp⟩

/-- The retry loop with `n` iterations left makes at most `n` forced clicks; it
returns only right after a forced click that returned; and it raises either
the explicit failure or the error of its last call, a call of a `catch`
block. -/
theorem selectDynamicDropDownLoop_spec {σ : Type} (b : Playwright.Browser σ)
    (opt : Playwright.Locator) (text : JSString) :
    ∀ n : Nat, Playwright.ClickSpec opt text n
      (Playwright.selectDynamicDropDownLoop b opt text n) := by
  unfold Playwright.ClickSpec
  intro n
  induction n with
  | zero =>
    intro s
    refine ⟨[], by simp [Playwright.selectDynamicDropDownLoop],
      by simp [Playwright.forcedClicks], ?_, ?_⟩
    · intro v hv
      simp [Playwright.selectDynamicDropDownLoop] at hv
    · intro e he
      left
      simpa [Playwright.selectDynamicDropDownLoop] using he.symm
  | succ n ih =>
    intro s
    obtain ⟨evs1, ht1, hc1, hr1⟩ := attemptClick_spec b opt s
    simp only [Playwright.selectDynamicDropDownLoop]
    cases ha : Playwright.attemptClick b opt s with
    | mk r1 s1 =>
      rw [ha] at ht1 hr1
      replace ht1 : s1.trace = s.trace ++ evs1 := ht1
      cases r1 with
      | returned v1 =>
        refine ⟨evs1, ht1, by omega, ?_, ?_⟩
        · intro v _
          exact ⟨v1, hr1 v1 rfl⟩
        · intro e he
          simp at he
      | raised e1 =>
        simp only [Playwright.Step.andThen]
        obtain ⟨evs2, ht2, hc2, hr2⟩ := fallbackClick_spec b opt text (3 - (n + 1)) s1
        cases hf : Playwright.fallbackClick b opt text (3 - (n + 1)) s1 with
        | mk r2 s2 =>
          rw [hf] at ht2 hr2
          replace ht2 : s2.trace = s1.trace ++ evs2 := ht2
          cases r2 with
          | raised e2 =>
            refine ⟨evs1 ++ evs2, ?_, ?_, ?_, ?_⟩
            · show s2.trace = _
              rw [ht2, ht1, List.append_assoc]
            · rw [forcedClicks_append]; omega
            · intro v hv
              simp at hv
            · intro e he
              simp only [Outcome.raised.injEq] at he
              subst he
              obtain ⟨a, hlast, h1, h2⟩ := hr2 e2 rfl
              exact Or.inr ⟨a, getLast?_append_of_some _ _ _ hlast, h1, h2⟩
          | returned v2 =>
            simp only []
            obtain ⟨evs3, ht3, hc3, hr3, hx3⟩ := ih s2
            refine ⟨evs1 ++ evs2 ++ evs3, ?_, ?_, ?_, ?_⟩
            · rw [ht3, ht2, ht1]
              simp only [List.append_assoc]
            · rw [forcedClicks_append, forcedClicks_append]; omega
            · intro v hv
              obtain ⟨w, hw⟩ := hr3 v hv
              exact ⟨w, getLast?_append_of_some _ _ _ hw⟩
            · intro e he
              rcases hx3 e he with h | ⟨a, hlast, h1, h2⟩
              · exact Or.inl h
              · exact Or.inr ⟨a, getLast?_append_of_some _ _ _ hlast, h1, h2⟩

/-- A call that is neither a hover nor a forced click on the option, put in
front of a body, keeps the guarantees of the body. -/
theorem call_andThen_clickSpec {σ : Type} (b : Playwright.Browser σ)
    (opt : Playwright.Locator) (text : JSString) (n : Nat) (a : Playwright.Action)
    (h1 : a ≠ .hover opt) (h2 : a ≠ .click opt true) (m : Playwright.Step σ JSValue)
    (hm : Playwright.ClickSpec opt text n m) :
    Playwright.ClickSpec opt text n ((Playwright.call b a).andThen fun _ => m) := by
  intro s
  simp only [Playwright.Step.andThen, call_eq]
  cases hr : (b.perform a s.state).1 with
  | raised e =>
    refine ⟨[(a, .raised e)], by simp, ?_, ?_, ?_⟩
    · have : Playwright.forcedClicks opt [(a, Outcome.raised e)] = 0 := by
        simp [Playwright.forcedClicks, List.count_cons, Ne.symm h2]
      omega
    · intro v hv
      simp at hv
    · intro e1 he1
      simp only [Outcome.raised.injEq] at he1
      subst he1
      exact Or.inr ⟨a, by simp, h1, h2⟩
  | returned v =>
    simp only []
    obtain ⟨evs, ht, hc, hret, hraise⟩ := hm
      { state := (b.perform a s.state).2, trace := s.trace ++ [(a, .returned v)] }
    refine ⟨[((a, .returned v) : Playwright.Event)] ++ evs, ?_, ?_, ?_, ?_⟩
    · rw [ht]
      simp
    · have : Playwright.forcedClicks opt ([((a, .returned v) : Playwright.Event)] ++ evs)
          = Playwright.forcedClicks opt evs := by
        simp [Playwright.forcedClicks, List.count_cons, Ne.symm h2]
      omega
    · intro w hw
      obtain ⟨w1, hw1⟩ := hret w hw
      exact ⟨w1, getLast?_append_of_some _ evs _ hw1⟩
    · intro e he
      rcases hraise e he with h | ⟨a1, hlast, g1, g2⟩
      · exact Or.inl h
      · exact Or.inr ⟨a1, getLast?_append_of_some _ evs _ hlast, g1, g2⟩

/-- The guarantees of `selectDynamicDropDown`, with 3 forced clicks allowed. -/
theorem selectDynamicDropDown_clickSpec {σ : Type} (b : Playwright.Browser σ)
    (dropdownLocator dropdownValuesLocator : Playwright.Locator) (dropDownText : JSString) :
    Playwright.ClickSpec (Playwright.optionLocator dropdownValuesLocator dropDownText)
      dropDownText 3
      (Playwright.selectDynamicDropDown b dropdownLocator dropdownValuesLocator
        dropDownText) := by
  unfold Playwright.selectDynamicDropDown
  refine call_andThen_clickSpec b _ _ 3 _ (by simp) (by simp) _ ?_
  refine call_andThen_clickSpec b _ _ 3 _ (by simp) (by simp) _ ?_
  refine call_andThen_clickSpec b _ _ 3 _ (by simp) (by simp) _ ?_
  refine call_andThen_clickSpec b _ _ 3 _ (by simp) (by simp) _ ?_
  exact selectDynamicDropDownLoop_spec b _ _ 3

/-! ## The claims on the Playwright page objects -/

/-- C14, as stated, fails: with `closingBrowser` the three forced clicks on the
option `Germany` all fail, and `selectDynamicDropDown` (called by
`selectCountry`) raises the error of the third `elementHandle` call, whose
message does not name the option, instead of the explicit failure. -/
theorem selectDynamicDropDown_failure_counterexample :
    (Playwright.selectCountry Playwright.closingBrowser (lit "Germany")
        { state := 0, trace := [] }).1
      = .raised (lit "locator.elementHandle: Target page, context or browser has been closed") ∧
    (((Playwright.selectCountry Playwright.closingBrowser (lit "Germany")
        { state := 0, trace := [] }).2.trace.filter fun ev => decide (ev.1 = .click
          (Playwright.optionLocator Playwright.countryDropdownValues (lit "Germany"))
          true)).map Prod.snd)
      = List.replicate 3 (.raised (lit "locator.click: Timeout 30000ms exceeded.")) ∧
    ¬ (lit "Germany" <:+:
      lit "locator.elementHandle: Target page, context or browser has been closed") := by
  refine ⟨by decide, by decide, ?_⟩
  intro h
  have hmem : (71 : Nat) ∈
      lit "locator.elementHandle: Target page, context or browser has been closed" :=
    h.subset (by decide)
  revert hmem
  decide

/-- C14 (amended): in the Playwright `selectDynamicDropDown`, for every outcome
of the browser primitives, the forced click on the option is attempted at
most 3 times, and the operation returns normally only right after a forced
click that succeeded, so never after three failed attempts. When it raises,
the error is the explicit failure, whose message ends with the option text, or
it is the error of the last call made, an opening step or a step of a `catch`
block, which propagates as it is. When no such step raises (only hovers and
forced clicks do), the operation returns or raises the explicit failure. -/
theorem selectDynamicDropDown_attempts {σ : Type} (b : Playwright.Browser σ)
    (dropdownLocator dropdownValuesLocator : Playwright.Locator) (dropDownText : JSString)
    (s : Playwright.Session σ) :
    ∃ evs,
      (Playwright.selectDynamicDropDown b dropdownLocator dropdownValuesLocator
        dropDownText s).2.trace = s.trace ++ evs ∧
      Playwright.forcedClicks
        (Playwright.optionLocator dropdownValuesLocator dropDownText) evs ≤ 3 ∧
      (∀ v, (Playwright.selectDynamicDropDown b dropdownLocator dropdownValuesLocator
          dropDownText s).1 = .returned v →
        ∃ w, evs.getLast? = some
          (.click (Playwright.optionLocator dropdownValuesLocator dropDownText) true,
            .returned w)) ∧
      (∀ e, (Playwright.selectDynamicDropDown b dropdownLocator dropdownValuesLocator
          dropDownText s).1 = .raised e →
        e = Playwright.failureMessage dropDownText ∨
        ∃ a, evs.getLast? = some (a, .raised e) ∧
          a ≠ .hover (Playwright.optionLocator dropdownValuesLocator dropDownText) ∧
          a ≠ .click (Playwright.optionLocator dropdownValuesLocator dropDownText) true) ∧
      ((∀ ev ∈ evs, ∀ e, ev.2 = .raised e →
          ev.1 = .hover (Playwright.optionLocator dropdownValuesLocator dropDownText) ∨
          ev.1 = .click (Playwright.optionLocator dropdownValuesLocator dropDownText) true) →
        (∃ v, (Playwright.selectDynamicDropDown b dropdownLocator dropdownValuesLocator
          dropDownText s).1 = .returned v) ∨
        (Playwright.selectDynamicDropDown b dropdownLocator dropdownValuesLocator
          dropDownText s).1 = .raised (Playwright.failureMessage dropDownText)) ∧
      dropDownText <:+ Playwright.failureMessage dropDownText := by
  obtain ⟨evs, ht, hc, hret, hraise⟩ :=
    selectDynamicDropDown_clickSpec b dropdownLocator dropdownValuesLocator dropDownText s
  refine ⟨evs, ht, hc, hret, hraise, ?_, ?_⟩
  · intro honly
    cases hr : (Playwright.selectDynamicDropDown b dropdownLocator dropdownValuesLocator
        dropDownText s).1 with
    | returned v => exact Or.inl ⟨v, rfl⟩
    | raised e =>
      right
      rcases hraise e hr with h | ⟨a, hlast, h1, h2⟩
      · rw [h]
      · have hmem : (a, Outcome.raised e) ∈ evs := List.mem_of_getLast?_eq_some hlast
        rcases honly _ hmem e rfl with h | h
        · exact absurd h h1
        · exact absurd h h2
  · exact List.suffix_append _ _

/-- C14 (amended) at `closingBrowser`: at most 3 forced clicks on `Germany`. -/
theorem selectDynamicDropDown_attempts_witness :
    Playwright.forcedClicks
      (Playwright.optionLocator Playwright.countryDropdownValues (lit "Germany"))
      (Playwright.selectDynamicDropDown Playwright.closingBrowser Playwright.countryDropdown
        Playwright.countryDropdownValues (lit "Germany") { state := 0, trace := [] }).2.trace
      ≤ 3 := by
  obtain ⟨evs, ht, hc, -⟩ := selectDynamicDropDown_attempts Playwright.closingBrowser
    Playwright.countryDropdown Playwright.countryDropdownValues (lit "Germany")
    { state := 0, trace := [] }
  rw [ht]
  simpa using hc

/-- C15: the Playwright `acceptCookiesIfPresent` returns normally for every
outcome of the wait and of the click: it makes the wait and logs when the wait
raises; it makes the wait and the click when both return; it makes the wait
and the click and logs when the click raises. So the accept button is clicked
only after the wait for it to be visible has returned. -/
theorem acceptCookiesIfPresent_returns {σ : Type} (b : Playwright.Browser σ)
    (s : Playwright.Session σ) :
    (Playwright.acceptCookiesIfPresent b s).1 = .returned .undefined ∧
    ∃ evs, (Playwright.acceptCookiesIfPresent b s).2.trace = s.trace ++ evs ∧
      ((∃ e, evs = [(.waitForVisible Playwright.acceptAllButton (some 5000), .raised e),
          (.consoleLog (lit "Accept button not found within timeout."),
            .returned .undefined)]) ∨
       (∃ v w, evs = [(.waitForVisible Playwright.acceptAllButton (some 5000), .returned v),
          (.click Playwright.acceptAllButton false, .returned w)]) ∨
       (∃ v e, evs = [(.waitForVisible Playwright.acceptAllButton (some 5000), .returned v),
          (.click Playwright.acceptAllButton false, .raised e),
          (.consoleLog (lit "Accept button not found within timeout."),
            .returned .undefined)])) ∧
      (∀ ev ∈ evs, ev.1 = .click Playwright.acceptAllButton false →
        ∃ v, evs.head? =
          some (.waitForVisible Playwright.acceptAllButton (some 5000), .returned v)) := by
  simp only [Playwright.acceptCookiesIfPresent, Playwright.Step.andThen, call_eq,
    Playwright.consoleLog]
  cases h1 : (b.perform (.waitForVisible Playwright.acceptAllButton (some 5000)) s.state).1 with
  | raised e =>
    refine ⟨rfl, [(.waitForVisible Playwright.acceptAllButton (some 5000), .raised e),
      (.consoleLog (lit "Accept button not found within timeout."), .returned .undefined)],
      by simp, Or.inl ⟨e, rfl⟩, ?_⟩
    intro ev hev hclick
    simp only [List.mem_cons, List.mem_singleton, List.not_mem_nil, or_false] at hev
    rcases hev with rfl | rfl <;> simp at hclick
  | returned v =>
    simp only []
    cases h2 : (b.perform (.click Playwright.acceptAllButton false)
        (b.perform (.waitForVisible Playwright.acceptAllButton (some 5000)) s.state).2).1 with
    | raised e =>
      exact ⟨rfl, [(.waitForVisible Playwright.acceptAllButton (some 5000), .returned v),
        (.click Playwright.acceptAllButton false, .raised e),
        (.consoleLog (lit "Accept button not found within timeout."), .returned .undefined)],
        by simp, Or.inr (Or.inr ⟨v, e, rfl⟩), fun _ _ _ => ⟨v, rfl⟩⟩
    | returned w =>
      exact ⟨rfl, [(.waitForVisible Playwright.acceptAllButton (some 5000), .returned v),
        (.click Playwright.acceptAllButton false, .returned w)],
        by simp, Or.inr (Or.inl ⟨v, w, rfl⟩), fun _ _ _ => ⟨v, rfl⟩⟩

/-- When `isEnabled` answers a boolean, and `isVisible`, asked only when the
first answer is `true`, answers a boolean too, the Playwright
`isElementClickable` returns their conjunction: `true` if and only if the
element is both enabled and visible, `false` otherwise; and
`isSubmitButtonEnabled` is that query on the `Create an account` button. -/
theorem isElementClickable_iff {σ : Type} (b : Playwright.Browser σ)
    (element : Playwright.Locator) (s : Playwright.Session σ) (enabled visible : Bool)
    (he : (b.perform (.isEnabled element) s.state).1 = .returned (.bool enabled))
    (hv : enabled = true →
      (b.perform (.isVisible element) (b.perform (.isEnabled element) s.state).2).1
        = .returned (.bool visible)) :
    (Playwright.isElementClickable b element s).1 = .returned (.bool (enabled && visible)) ∧
    ((Playwright.isElementClickable b element s).1 = .returned (.bool true) ↔
      enabled = true ∧ visible = true) ∧
    Playwright.isSubmitButtonEnabled b
      = Playwright.isElementClickable b Playwright.createAccountButton := by
  have hres : (Playwright.isElementClickable b element s).1
      = .returned (.bool (enabled && visible)) := by
    simp only [Playwright.isElementClickable, Playwright.Step.andThen, call_eq, he]
    cases enabled with
    | false => simp [JSValue.toBoolean]
    | true => simp [JSValue.toBoolean, call_eq, hv rfl]
  refine ⟨hres, ?_, rfl⟩
  rw [hres]
  simp

/-- The conjunction at `steadyBrowser`, where the button is enabled and visible. -/
theorem isElementClickable_iff_witness :
    (Playwright.isElementClickable Playwright.steadyBrowser Playwright.createAccountButton
        { state := (), trace := [] }).1 = .returned (.bool (true && true)) ∧
    ((Playwright.isElementClickable Playwright.steadyBrowser Playwright.createAccountButton
        { state := (), trace := [] }).1 = .returned (.bool true) ↔ true = true ∧ true = true) ∧
    Playwright.isSubmitButtonEnabled Playwright.steadyBrowser
      = Playwright.isElementClickable Playwright.steadyBrowser
        Playwright.createAccountButton :=
  isElementClickable_iff Playwright.steadyBrowser Playwright.createAccountButton
    { state := (), trace := [] } true true rfl (fun _ => rfl)

/-- C17 fails on the code for an element that is not on the page: with
`absentBrowser`, where the locator matches nothing, `isEnabled` raises its
timeout, and since the body `await element.isEnabled() && await
element.isVisible()` has no `try`, `isElementClickable` raises that error
after this one call instead of returning `false`; `isSubmitButtonEnabled`
does the same. -/
theorem isElementClickable_absent_raises :
    Playwright.isElementClickable Playwright.absentBrowser Playwright.createAccountButton
        { state := (), trace := [] }
      = (.raised (lit "locator.isEnabled: Timeout 30000ms exceeded."),
          { state := (),
            trace := [(.isEnabled Playwright.createAccountButton,
              .raised (lit "locator.isEnabled: Timeout 30000ms exceeded."))] }) ∧
    Playwright.isSubmitButtonEnabled Playwright.absentBrowser { state := (), trace := [] }
      = (.raised (lit "locator.isEnabled: Timeout 30000ms exceeded."),
          { state := (),
            trace := [(.isEnabled Playwright.createAccountButton,
              .raised (lit "locator.isEnabled: Timeout 30000ms exceeded."))] }) ∧
    (Playwright.isElementClickable Playwright.absentBrowser Playwright.createAccountButton
        { state := (), trace := [] }).1 ≠ .returned (.bool false) :=
  ⟨rfl, rfl, by decide⟩

/-! ## The claims on the Cypress page objects and on illegal actions -/

/-- C16 fails on the code at a page without the cookie banner: with
`noBannerRunner` the first command of `acceptCookiesIfPresent` raises, which
fails the test, and `fillSignupForm`, which calls it first, fails in the same
way before it enters anything. -/
theorem cypress_acceptCookies_no_banner :
    Cypress.run Cypress.noBannerRunner Cypress.acceptCookiesIfPresent
        { state := (), trace := [] }
      = (.raised (lit "Timed out retrying after 4000ms: Expected to find element: div#usercentrics-root, but never found it."),
          { state := (),
            trace := [(.get (lit "div#usercentrics-root"),
              .raised (lit "Timed out retrying after 4000ms: Expected to find element: div#usercentrics-root, but never found it."))] }) ∧
    Cypress.run Cypress.noBannerRunner
        (Cypress.fillSignupForm (lit "a@check.de") (lit "Passw0rdA!"))
        { state := (), trace := [] }
      = (.raised (lit "Timed out retrying after 4000ms: Expected to find element: div#usercentrics-root, but never found it."),
          { state := (),
            trace := [(.get (lit "div#usercentrics-root"),
              .raised (lit "Timed out retrying after 4000ms: Expected to find element: div#usercentrics-root, but never found it."))] }) :=
  ⟨rfl, rfl⟩

/-- C18, as stated, fails: with `step1Browser`, which shows the first step, the
Playwright `clickCreateAccount` issues the click on the `Create an account`
button, and what it raises is the timeout of the browser. -/
theorem clickCreateAccount_step1_counterexample :
    Playwright.clickCreateAccount Playwright.step1Browser { state := (), trace := [] }
      = (.raised (lit "locator.click: Timeout 30000ms exceeded."),
          { state := (),
            trace := [(.click Playwright.createAccountButton false,
              .raised (lit "locator.click: Timeout 30000ms exceeded."))] }) :=
  rfl

/-- C18 (amended): the page objects keep no flow state and make no legality
check: in every state the Playwright `clickCreateAccount` issues the click on
the `Create an account` button and ends as this click ends (it raises the
error of the browser, if any, and no error of its own), and the Cypress
`clickCreateAccount` issues `cy.contains` on `Create an account`, followed
by the click when the button is found. -/
theorem clickCreateAccount_unconditional {σ τ : Type} (b : Playwright.Browser σ)
    (s : Playwright.Session σ) (r : Cypress.Runner τ) (t : Cypress.Session τ) :
    (Playwright.clickCreateAccount b s).2.trace
      = s.trace ++ [(.click Playwright.createAccountButton false,
          (b.perform (.click Playwright.createAccountButton false) s.state).1)] ∧
    (∀ e, (b.perform (.click Playwright.createAccountButton false) s.state).1 = .raised e →
      (Playwright.clickCreateAccount b s).1 = .raised e) ∧
    (∀ v, (b.perform (.click Playwright.createAccountButton false) s.state).1 = .returned v →
      (Playwright.clickCreateAccount b s).1 = .returned .undefined) ∧
    Cypress.clickCreateAccount = [.contains (lit "Create an account"), .click false] ∧
    (∃ rest, (Cypress.run r Cypress.clickCreateAccount t).2.trace
      = t.trace ++ (.contains (lit "Create an account"),
          (r.perform (.contains (lit "Create an account")) t.state).1) :: rest) ∧
    (∀ v, (r.perform (.contains (lit "Create an account")) t.state).1 = .returned v →
      ∃ w, (Cypress.run r Cypress.clickCreateAccount t).2.trace
        = t.trace ++ [(.contains (lit "Create an account"), .returned v),
            (.click false, w)]) := by
  have hcmds : Cypress.clickCreateAccount
      = [.contains (lit "Create an account"), .click false] := by decide
  refine ⟨?_, ?_, ?_, hcmds, ?_, ?_⟩
  · simp only [Playwright.clickCreateAccount, Playwright.clickElement,
      Playwright.Step.andThen, call_eq]
    cases (b.perform (.click Playwright.createAccountButton false) s.state).1 <;> rfl
  · intro e he
    simp only [Playwright.clickCreateAccount, Playwright.clickElement,
      Playwright.Step.andThen, call_eq, he]
  · intro v hv
    simp only [Playwright.clickCreateAccount, Playwright.clickElement,
      Playwright.Step.andThen, call_eq, hv]
  · rw [hcmds]
    simp only [Cypress.run]
    cases h1 : r.perform (.contains (lit "Create an account")) t.state with
    | mk o st =>
      cases o with
      | raised e => exact ⟨[], by simp⟩
      | returned v =>
        simp only []
        cases h2 : r.perform (.click false) st with
        | mk o2 st2 =>
          cases o2 with
          | raised e => exact ⟨[(.click false, .raised e)], by simp⟩
          | returned w => exact ⟨[(.click false, .returned w)], by simp [Cypress.run]⟩
  · intro v hv
    rw [hcmds]
    simp only [Cypress.run]
    cases h1 : r.perform (.contains (lit "Create an account")) t.state with
    | mk o st =>
      rw [h1] at hv
      simp only at hv
      subst hv
      simp only []
      cases h2 : r.perform (.click false) st with
      | mk o2 st2 =>
        cases o2 with
        | raised e => exact ⟨.raised e, by simp⟩
        | returned w => exact ⟨.returned w, by simp [Cypress.run]⟩

/-- C18 (amended) at `step1Browser` and `steadyRunner`. -/
theorem clickCreateAccount_unconditional_witness :
    (Playwright.clickCreateAccount Playwright.step1Browser
        { state := (), trace := [] }).1
      = .raised (lit "locator.click: Timeout 30000ms exceeded.") ∧
    (∃ w, (Cypress.run Cypress.steadyRunner Cypress.clickCreateAccount
        { state := (), trace := [] }).2.trace
      = [] ++ [(.contains (lit "Create an account"), .returned .undefined),
          (.click false, w)]) :=
  have h := clickCreateAccount_unconditional Playwright.step1Browser
    { state := (), trace := [] } Cypress.steadyRunner { state := (), trace := [] }
  ⟨h.2.1 _ rfl, h.2.2.2.2.2 .undefined rfl⟩

/-! ## The claims on the signup wizard -/

/-- C19: in the wizard as the spec describes it, the advance action on a step
with a required field empty or invalid leaves the state (and the values)
unchanged and makes every triggered validation error visible, all at the same
time: on Step1 the email, password and terms errors, on Step2 the first-name
and last-name errors, on Step3 the company-name and hear-about-us errors. -/
theorem next_invalid_stays (rules : SignupFlow.Rules) (flow : SignupFlow.Flow)
    (hstep : flow.state = .Step1 ∨ flow.state = .Step2 ∨ flow.state = .Step3)
    (hinv : SignupFlow.requiredValid rules flow.state flow.fields = false) :
    ∃ after, SignupFlow.next rules flow = .ok after ∧
      after.state = flow.state ∧ after.fields = flow.fields ∧
      (flow.state = .Step1 →
        (flow.fields.email = [] → .emailRequired ∈ after.errors) ∧
        (SignupFlow.passwordStrong flow.fields.password = false →
          .passwordMinLength ∈ after.errors) ∧
        (flow.fields.termsAccepted = false → .acceptanceRequired ∈ after.errors)) ∧
      (flow.state = .Step2 →
        (flow.fields.firstName = [] → .firstNameRequired ∈ after.errors) ∧
        (flow.fields.lastName = [] → .lastNameRequired ∈ after.errors)) ∧
      (flow.state = .Step3 →
        (flow.fields.companyName = [] → .companyNameRequired ∈ after.errors) ∧
        (flow.fields.hearAboutUs = none → .hearAboutUsRequired ∈ after.errors)) := by
  obtain ⟨st, fields, errors⟩ := flow
  simp only at hstep hinv
  rcases hstep with rfl | rfl | rfl
  · refine ⟨SignupFlow.Flow.mk .Step1 fields (SignupFlow.triggered .Step1 fields),
      ?_, rfl, rfl, ?_, ?_, ?_⟩
    · simp [SignupFlow.next, hinv]
    · intro _
      refine ⟨?_, ?_, ?_⟩
      · intro h; simp only at h; simp [SignupFlow.triggered, h]
      · intro h; simp only at h; simp [SignupFlow.triggered, h]
      · intro h; simp only at h; simp [SignupFlow.triggered, h]
    · intro h; cases h
    · intro h; cases h
  · refine ⟨SignupFlow.Flow.mk .Step2 fields (SignupFlow.triggered .Step2 fields),
      ?_, rfl, rfl, ?_, ?_, ?_⟩
    · simp [SignupFlow.next, hinv]
    · intro h; cases h
    · intro _
      refine ⟨?_, ?_⟩
      · intro h; simp only at h; simp [SignupFlow.triggered, h]
      · intro h; simp only at h; simp [SignupFlow.triggered, h]
    · intro h; cases h
  · refine ⟨SignupFlow.Flow.mk .Step3 fields (SignupFlow.triggered .Step3 fields),
      ?_, rfl, rfl, ?_, ?_, ?_⟩
    · simp [SignupFlow.next, hinv]
    · intro h; cases h
    · intro h; cases h
    · intro _
      refine ⟨?_, ?_⟩
      · intro h; simp only at h; simp [SignupFlow.triggered, h]
      · intro h; simp only at h; simp [SignupFlow.triggered, h]

/-- C19 on Step1 with nothing entered: the state stays Step1 and the three
errors are visible at once. -/
theorem next_invalid_stays_witness :
    SignupFlow.next SignupFlow.sampleRules
        { state := .Step1, fields := SignupFlow.emptyFields, errors := [] }
      = .ok { state := .Step1, fields := SignupFlow.emptyFields,
              errors := [.emailRequired, .passwordMinLength, .acceptanceRequired] } ∧
    ∃ after, SignupFlow.next SignupFlow.sampleRules
        { state := .Step1, fields := SignupFlow.emptyFields, errors := [] } = .ok after ∧
      after.state = .Step1 ∧ after.fields = SignupFlow.emptyFields ∧
      (SignupFlow.SignupFlowState.Step1 = .Step1 →
        (SignupFlow.emptyFields.email = [] → .emailRequired ∈ after.errors) ∧
        (SignupFlow.passwordStrong SignupFlow.emptyFields.password = false →
          .passwordMinLength ∈ after.errors) ∧
        (SignupFlow.emptyFields.termsAccepted = false →
          .acceptanceRequired ∈ after.errors)) ∧
      (SignupFlow.SignupFlowState.Step1 = .Step2 →
        (SignupFlow.emptyFields.firstName = [] → .firstNameRequired ∈ after.errors) ∧
        (SignupFlow.emptyFields.lastName = [] → .lastNameRequired ∈ after.errors)) ∧
      (SignupFlow.SignupFlowState.Step1 = .Step3 →
        (SignupFlow.emptyFields.companyName = [] → .companyNameRequired ∈ after.errors) ∧
        (SignupFlow.emptyFields.hearAboutUs = none →
          .hearAboutUsRequired ∈ after.errors)) :=
  ⟨by decide, next_invalid_stays SignupFlow.sampleRules
    { state := .Step1, fields := SignupFlow.emptyFields, errors := [] } (Or.inl rfl)
    (by decide)⟩

/-- C20: in the wizard as the spec describes it, the back action is legal from
Step2 and from Step3 whatever the values entered, moves to the immediately
preceding step and leaves the values unchanged; after completing Step1 and
going back from Step2, the wizard is on Step1 with the same values, the email
and the password among them. -/
theorem back_preserves (rules : SignupFlow.Rules) (flow : SignupFlow.Flow)
    (hstep : flow.state = .Step2 ∨ flow.state = .Step3) :
    (∃ before, SignupFlow.back flow = .ok before ∧
      SignupFlow.successor before.state = flow.state ∧
      (flow.state = .Step2 → before.state = .Step1) ∧
      (flow.state = .Step3 → before.state = .Step2) ∧
      before.fields = flow.fields) ∧
    (∀ fields errors, SignupFlow.requiredValid rules .Step1 fields = true →
      ∃ step2 step1,
        SignupFlow.next rules { state := .Step1, fields := fields, errors := errors }
          = .ok step2 ∧
        step2.state = .Step2 ∧
        SignupFlow.back step2 = .ok step1 ∧
        step1.state = .Step1 ∧
        step1.fields.email = fields.email ∧ step1.fields.password = fields.password ∧
        step1.fields = fields) := by
  constructor
  · obtain ⟨st, fields, errors⟩ := flow
    simp only at hstep
    rcases hstep with rfl | rfl
    · exact ⟨{ state := .Step1, fields := fields, errors := [] }, rfl, rfl,
        fun _ => rfl, (fun h => by simp at h), rfl⟩
    · exact ⟨{ state := .Step2, fields := fields, errors := [] }, rfl, rfl,
        (fun h => by simp at h), fun _ => rfl, rfl⟩
  · intro fields errors hvalid
    refine ⟨{ state := .Step2, fields := fields, errors := [] },
      { state := .Step1, fields := fields, errors := [] }, ?_, rfl, rfl, rfl, rfl, rfl, rfl⟩
    simp [SignupFlow.next, hvalid, SignupFlow.successor]

/-- C20 on Step2 after the first step of the end-to-end scenario. -/
theorem back_preserves_witness :
    SignupFlow.requiredValid SignupFlow.sampleRules .Step1 SignupFlow.step1Fields = true ∧
    ∃ before, SignupFlow.back
        { state := .Step2, fields := SignupFlow.step1Fields, errors := [] } = .ok before ∧
      SignupFlow.successor before.state = .Step2 ∧
      (SignupFlow.SignupFlowState.Step2 = .Step2 → before.state = .Step1) ∧
      (SignupFlow.SignupFlowState.Step2 = .Step3 → before.state = .Step2) ∧
      before.fields = SignupFlow.step1Fields :=
  ⟨by decide, (back_preserves SignupFlow.sampleRules
    { state := .Step2, fields := SignupFlow.step1Fields, errors := [] } (Or.inl rfl)).1⟩

/-! ## The claims on the patterns and on the static fields -/

/-- C26: for every string, the pattern `^(?=.*[A-Za-z])(?=.*\d).{8,}$` accepts it
if and only if it contains no line terminator, has at least 8 code units,
contains a letter of `A-Z`, `a-z` and contains a digit of `0-9`; so `abcdefg1`
followed by a line feed is rejected, and so is a string of eight `é` and a
digit, whose only letters are not ASCII. -/
theorem passwordRegex_characterisation (s : JSString) :
    (passwordRegex.test s = true ↔
      (∀ c ∈ s, isLineTerminator c = false) ∧ 8 ≤ s.length ∧
        (∃ c ∈ s, isAsciiLetter c = true) ∧ (∃ c ∈ s, isDigit c = true)) ∧
    passwordRegex.test (lit "abcdefg1\n") = false ∧
    passwordRegex.test (List.replicate 8 233 ++ lit "1") = false :=
  ⟨passwordRegex_test_iff s, by decide, by decide⟩

/-- With an `@` and without a line terminator in the input,
`replace(/@.*$/, repl)` keeps what stands before the first `@` and puts `repl`
after it. -/
theorem emailDomainRegex_replaceFrom_local (repl : JSString) :
    ∀ (s : JSString) (i : Nat), 64 ∈ s → (∀ c ∈ s, isLineTerminator c = false) →
      emailDomainRegex.replaceFrom repl i s = s.takeWhile (fun c => c != 64) ++ repl := by
  intro s
  induction s with
  | nil => intro i h; simp at h
  | cons x xs ih =>
    intro i hat hlt
    simp only [Regex.replaceFrom, emailDomainRegex_matchK]
    by_cases hx : x = 64
    · subst hx
      have hall : (xs.all fun c => !isLineTerminator c) = true := by
        simp only [List.all_eq_true, Bool.not_eq_true']
        exact fun c hc => hlt c (by simp [hc])
      simp [hall]
    · have hat2 : 64 ∈ xs := by
        simp only [List.mem_cons] at hat
        rcases hat with h | h
        · exact absurd h.symm hx
        · exact h
      simp only [hx, false_and, if_false]
      rw [ih (i + 1) hat2 (fun c hc => hlt c (by simp [hc]))]
      simp [List.takeWhile_cons, hx]

/-- What stands before the first `@` holds no `@`. -/
theorem count_at_takeWhile (s : JSString) :
    (s.takeWhile (fun c => c != 64)).count 64 = 0 := by
  rw [List.count_eq_zero]
  intro h
  have := List.mem_takeWhile_imp h
  simp at this

/-- C27: in the Cypress `getTestData` with email `DYNAMIC`, for every raw
address of the generator that contains an `@` and no line terminator, the
returned email is the part of the address before its first `@` followed by
`@check.de`, which contains exactly one `@`; for a raw string without `@`
the returned email is that string unchanged. -/
theorem cypress_getTestData_email_local_part {σ : Type} (f : Faker σ) (fuel : Nat)
    (testData : Fixture) (g : σ) (pr : Profile) (g1 : σ)
    (h : Cypress.getTestData f fuel testData g = some (pr, g1))
    (hemail : testData.email = .string (lit "DYNAMIC")) :
    (64 ∈ (f.internetEmail g).1 → (∀ c ∈ (f.internetEmail g).1, isLineTerminator c = false) →
      pr.email = .string
        ((f.internetEmail g).1.takeWhile (fun c => c != 64) ++ lit "@check.de") ∧
      ((f.internetEmail g).1.takeWhile (fun c => c != 64) ++ lit "@check.de").count 64 = 1) ∧
    (64 ∉ (f.internetEmail g).1 → pr.email = .string (f.internetEmail g).1) := by
  obtain ⟨-, -, -, -, -, -, -, h1, -⟩ := cypress_getTestData_fields f fuel testData g pr g1 h
  have hpr : pr.email = .string (emailDomainRegex.replaceFrom (lit "@check.de") 0
      (f.internetEmail g).1) := by
    rw [h1]
    simp [Cypress.dynamicOr, (strictEqString_iff testData.email _).2 hemail,
      Cypress.dynamicEmail, Regex.replace]
  constructor
  · intro hat hlt
    refine ⟨?_, ?_⟩
    · rw [hpr, emailDomainRegex_replaceFrom_local _ _ 0 hat hlt]
    · rw [List.count_append, count_at_takeWhile]
      decide
  · intro hno
    rw [hpr, emailDomainRegex_replaceFrom_no_at _ _ 0 (fun c hc hc64 => hno (hc64 ▸ hc))]

/-- C27 at `dynamicFixture`: the address `Jane.Doe@example.org` of `sampleFaker`
and the string `jane.doe` of `noAtFaker`. -/
theorem cypress_getTestData_email_local_part_witness :
    (sampleProfile.email = .string
        ((sampleFaker.internetEmail 0).1.takeWhile (fun c => c != 64) ++ lit "@check.de") ∧
      ((sampleFaker.internetEmail 0).1.takeWhile (fun c => c != 64)
        ++ lit "@check.de").count 64 = 1) ∧
    noAtProfile.email = .string (noAtFaker.internetEmail 0).1 :=
  ⟨(cypress_getTestData_email_local_part sampleFaker 1 dynamicFixture 0 sampleProfile 9
      (by decide) (by decide)).1 (by decide) (by decide),
    (cypress_getTestData_email_local_part noAtFaker 1 dynamicFixture 0 noAtProfile 9
      (by decide) (by decide)).2 (by decide)⟩

/-- C28: in the Cypress `getTestData` the sentinel is not interpreted for
country and hearAboutUs: the fixture value `DYNAMIC` is returned as it is; a
value that is absent, null or the empty string is replaced by the default;
and the returned country and hearAboutUs are never empty (never the empty
string, absent or null). -/
theorem cypress_getTestData_country_sentinel {σ : Type} (f : Faker σ) (fuel : Nat)
    (testData : Fixture) (g : σ) (pr : Profile) (g1 : σ)
    (h : Cypress.getTestData f fuel testData g = some (pr, g1)) :
    (testData.country = .string (lit "DYNAMIC") → pr.country = .string (lit "DYNAMIC")) ∧
    (testData.hearAboutUs = .string (lit "DYNAMIC") →
      pr.hearAboutUs = .string (lit "DYNAMIC")) ∧
    (testData.country = .undefined ∨ testData.country = .null ∨
        testData.country = .string [] → pr.country = .string (lit "Germany")) ∧
    (testData.hearAboutUs = .undefined ∨ testData.hearAboutUs = .null ∨
        testData.hearAboutUs = .string [] → pr.hearAboutUs = .string (lit "Google")) ∧
    (pr.country ≠ .string [] ∧ pr.country.populated = true) ∧
    (pr.hearAboutUs ≠ .string [] ∧ pr.hearAboutUs.populated = true) := by
  obtain ⟨-, -, -, -, -, -, -, -, -, -, -, -, -, h7, h8⟩ :=
    cypress_getTestData_fields f fuel testData g pr g1 h
  have hne : ∀ (v : JSValue) (d : JSString), d ≠ [] → v.or (.string d) ≠ .string [] := by
    intro v d hd heq
    by_cases hv : v.toBoolean = true
    · simp only [JSValue.or, hv, if_true] at heq
      rw [heq] at hv
      simp [JSValue.toBoolean] at hv
    · simp only [JSValue.or, hv] at heq
      simp at heq
      exact hd heq
  rw [h7, h8]
  refine ⟨?_, ?_, ?_, ?_, ⟨hne _ _ (by decide), or_string_populated _ _⟩,
    ⟨hne _ _ (by decide), or_string_populated _ _⟩⟩
  · intro hc
    rw [hc]
    decide
  · intro hc
    rw [hc]
    decide
  · rintro (hc | hc | hc) <;> rw [hc] <;> decide
  · rintro (hc | hc | hc) <;> rw [hc] <;> decide

/-- C28 at `sampleFaker` and `sentinelCountryFixture`. -/
theorem cypress_getTestData_country_sentinel_witness :
    Cypress.getTestData sampleFaker 1 sentinelCountryFixture 0
      = some (staticProfile sentinelCountryFixture, 0) ∧
    (staticProfile sentinelCountryFixture).country = .string (lit "DYNAMIC") ∧
    (staticProfile sentinelCountryFixture).hearAboutUs = .string (lit "DYNAMIC") :=
  have h := cypress_getTestData_country_sentinel sampleFaker 1 sentinelCountryFixture 0
    (staticProfile sentinelCountryFixture) 0 (by decide)
  ⟨by decide, h.1 (by decide), h.2.1 (by decide)⟩

/-- Without the sentinel in a field, its conditional draws nothing. -/
theorem dynamicOr_static {σ : Type} (v : JSValue) (gen : σ → JSString × σ) (g : σ)
    (hv : v ≠ .string (lit "DYNAMIC")) : Cypress.dynamicOr v gen g = (v, g) := by
  have : v.strictEqString (lit "DYNAMIC") = false := by
    rw [Bool.eq_false_iff]
    exact fun h => hv ((strictEqString_iff v _).1 h)
  simp [Cypress.dynamicOr, this]

/-- Without the sentinel in the six generated fields, the Cypress `getTestData`
returns the static profile and leaves the random source as it was. -/
theorem cypress_getTestData_static {σ : Type} (f : Faker σ) (fuel : Nat)
    (testData : Fixture) (g : σ)
    (h1 : testData.email ≠ .string (lit "DYNAMIC"))
    (h2 : testData.password ≠ .string (lit "DYNAMIC"))
    (h3 : testData.firstName ≠ .string (lit "DYNAMIC"))
    (h4 : testData.lastName ≠ .string (lit "DYNAMIC"))
    (h5 : testData.phoneNumber ≠ .string (lit "DYNAMIC"))
    (h6 : testData.companyName ≠ .string (lit "DYNAMIC")) :
    Cypress.getTestData f fuel testData g = some (staticProfile testData, g) := by
  have hpw : testData.password.strictEqString (lit "DYNAMIC") = false := by
    rw [Bool.eq_false_iff]
    exact fun h => h2 ((strictEqString_iff _ _).1 h)
  simp [Cypress.getTestData, Cypress.dynamicPassword, hpw, dynamicOr_static _ _ _ h1,
    dynamicOr_static _ _ _ h3, dynamicOr_static _ _ _ h4, dynamicOr_static _ _ _ h5,
    dynamicOr_static _ _ _ h6, staticProfile]

/-- C30: the Cypress `getTestData` is deterministic on fully static input: for
every fixture record in which none of email, password, firstName, lastName,
phoneNumber and companyName is `DYNAMIC`, two runs with different random
sources return the same profile and draw nothing; and for every fixture, the
country and hearAboutUs of two runs that return are the same. -/
theorem cypress_getTestData_deterministic {σ τ : Type} (f1 : Faker σ) (f2 : Faker τ)
    (fuel1 fuel2 : Nat) (g1 : σ) (g2 : τ) (testData : Fixture) :
    (testData.email ≠ .string (lit "DYNAMIC") →
      testData.password ≠ .string (lit "DYNAMIC") →
      testData.firstName ≠ .string (lit "DYNAMIC") →
      testData.lastName ≠ .string (lit "DYNAMIC") →
      testData.phoneNumber ≠ .string (lit "DYNAMIC") →
      testData.companyName ≠ .string (lit "DYNAMIC") →
      Cypress.getTestData f1 fuel1 testData g1 = some (staticProfile testData, g1) ∧
      Cypress.getTestData f2 fuel2 testData g2 = some (staticProfile testData, g2)) ∧
    (∀ pr1 s1 pr2 s2, Cypress.getTestData f1 fuel1 testData g1 = some (pr1, s1) →
      Cypress.getTestData f2 fuel2 testData g2 = some (pr2, s2) →
      pr1.country = pr2.country ∧ pr1.hearAboutUs = pr2.hearAboutUs) := by
  constructor
  · intro h1 h2 h3 h4 h5 h6
    exact ⟨cypress_getTestData_static f1 fuel1 testData g1 h1 h2 h3 h4 h5 h6,
      cypress_getTestData_static f2 fuel2 testData g2 h1 h2 h3 h4 h5 h6⟩
  · intro pr1 s1 pr2 s2 ha hb
    obtain ⟨-, -, -, -, -, -, -, -, -, -, -, -, -, a7, a8⟩ :=
      cypress_getTestData_fields f1 fuel1 testData g1 pr1 s1 ha
    obtain ⟨-, -, -, -, -, -, -, -, -, -, -, -, -, b7, b8⟩ :=
      cypress_getTestData_fields f2 fuel2 testData g2 pr2 s2 hb
    exact ⟨a7.trans b7.symm, a8.trans b8.symm⟩

/-- C30 at `staticFixture` with `sampleFaker` and `stuckFaker`, and at
`dynamicFixture` with `sampleFaker` and `noAtFaker`. -/
theorem cypress_getTestData_deterministic_witness :
    (Cypress.getTestData sampleFaker 1 staticFixture 0 = some (staticProfile staticFixture, 0) ∧
      Cypress.getTestData stuckFaker 0 staticFixture 5
        = some (staticProfile staticFixture, 5)) ∧
    (sampleProfile.country = noAtProfile.country ∧
      sampleProfile.hearAboutUs = noAtProfile.hearAboutUs) :=
  ⟨(cypress_getTestData_deterministic sampleFaker stuckFaker 1 0 0 5 staticFixture).1
      (by decide) (by decide) (by decide) (by decide) (by decide) (by decide),
    (cypress_getTestData_deterministic sampleFaker noAtFaker 1 1 0 0 dynamicFixture).2
      sampleProfile 9 noAtProfile 9 (by decide) (by decide)⟩

/-- C25: the Cypress `selectElement` dispatches on its method argument, for
every value of it: `contains` selects by text, `xpath` selects by XPath,
and every other value (the default `get`, an omitted argument, an unknown
string, a value that is no string) selects with `cy.get`; the selector is
passed on unchanged in the three cases. -/
theorem selectElement_dispatch (selector : JSString) (method : JSValue) :
    (method = .string (lit "contains") →
      Cypress.selectElement selector method = .contains selector) ∧
    (method = .string (lit "xpath") →
      Cypress.selectElement selector method = .xpath selector) ∧
    (method ≠ .string (lit "contains") → method ≠ .string (lit "xpath") →
      Cypress.selectElement selector method = .get selector) ∧
    Cypress.selectElement selector (.string (lit "get")) = .get selector ∧
    Cypress.selectElement selector .undefined = .get selector := by
  have hother : ∀ m : JSValue, m ≠ .string (lit "contains") → m ≠ .string (lit "xpath") →
      Cypress.selectElement selector m = .get selector := by
    intro m h1 h2
    by_cases hu : m = .undefined
    · subst hu
      simp only [Cypress.selectElement, if_true]
      rfl
    · have e1 : m.strictEqString (lit "contains") = false := by
        rw [Bool.eq_false_iff]
        exact fun h => h1 ((strictEqString_iff _ _).1 h)
      have e2 : m.strictEqString (lit "xpath") = false := by
        rw [Bool.eq_false_iff]
        exact fun h => h2 ((strictEqString_iff _ _).1 h)
      simp [Cypress.selectElement, hu, e1, e2]
  refine ⟨?_, ?_, hother method, hother _ (by decide) (by decide),
    hother _ (by decide) (by decide)⟩
  · intro h
    subst h
    rfl
  · intro h
    subst h
    rfl

/-- C25 at the selector of the email field. -/
theorem selectElement_dispatch_witness :
    Cypress.selectElement (lit "input[name='email']") (.string (lit "contains"))
      = .contains (lit "input[name='email']") ∧
    Cypress.selectElement (lit "input[name='email']") (.string (lit "xpath"))
      = .xpath (lit "input[name='email']") ∧
    Cypress.selectElement (lit "input[name='email']") (.string (lit "css"))
      = .get (lit "input[name='email']") :=
  ⟨(selectElement_dispatch (lit "input[name='email']") (.string (lit "contains"))).1 rfl,
    (selectElement_dispatch (lit "input[name='email']") (.string (lit "xpath"))).2.1 rfl,
    (selectElement_dispatch (lit "input[name='email']") (.string (lit "css"))).2.2.1
      (by decide) (by decide)⟩

/-! ## Counting the attempts of the retry loop -/

theorem attempts_append (l : Playwright.Locator) (xs ys : List Playwright.Event) :
    Playwright.attempts l (xs ++ ys) = Playwright.attempts l xs + Playwright.attempts l ys := by
  simp [Playwright.attempts, List.count_append]

theorem successes_append (l : Playwright.Locator) (xs ys : List Playwright.Event) :
    Playwright.successes l (xs ++ ys)
      = Playwright.successes l xs + Playwright.successes l ys := by
  simp [Playwright.successes, List.countP_append]

theorem rawClicks_append (xs ys : List Playwright.Event) :
    Playwright.rawClicks (xs ++ ys) = Playwright.rawClicks xs + Playwright.rawClicks ys := by
  simp [Playwright.rawClicks, List.countP_append]

/-- One run of the `try` block: one hover, no raw click, at most one forced
click; it returns exactly when its forced click returned, as its last call. -/
theorem attemptClick_counts {σ : Type} (b : Playwright.Browser σ) (opt : Playwright.Locator)
    (s : Playwright.Session σ) :
    ∃ evs, (Playwright.attemptClick b opt s).2.trace = s.trace ++ evs ∧
      Playwright.attempts opt evs = 1 ∧ Playwright.rawClicks evs = 0 ∧
      Playwright.forcedClicks opt evs ≤ 1 ∧
      (∀ v, (Playwright.attemptClick b opt s).1 = .returned v →
        Playwright.successes opt evs = 1 ∧
        evs.getLast? = some (.click opt true, .returned v)) ∧
      (∀ e, (Playwright.attemptClick b opt s).1 = .raised e →
        Playwright.successes opt evs = 0) := by
  simp only [Playwright.attemptClick, Playwright.Step.andThen, call_eq]
  cases h1 : (b.perform (.hover opt) s.state).1 with
  | raised e =>
    exact ⟨[(.hover opt, .raised e)], by simp,
      by simp [Playwright.attempts], by simp [Playwright.rawClicks],
      by simp [Playwright.forcedClicks], by simp,
      by simp [Playwright.successes]⟩
  | returned v1 =>
    simp only []
    cases h2 : (b.perform (.waitForTimeout 200) (b.perform (.hover opt) s.state).2).1 with
    | raised e =>
      exact ⟨[(.hover opt, .returned v1), (.waitForTimeout 200, .raised e)], by simp,
        by simp [Playwright.attempts], by simp [Playwright.rawClicks],
        by simp [Playwright.forcedClicks], by simp,
        by simp [Playwright.successes]⟩
    | returned v2 =>
      simp only []
      refine ⟨[(.hover opt, .returned v1), (.waitForTimeout 200, .returned v2),
        (.click opt true, (b.perform (.click opt true) (b.perform (.waitForTimeout 200)
          (b.perform (.hover opt) s.state).2).2).1)], by simp,
        by simp [Playwright.attempts], by simp [Playwright.rawClicks],
        by simp [Playwright.forcedClicks], ?_, ?_⟩
      · intro v hv
        simp [hv, Playwright.successes, Playwright.isReturned]
      · intro e he
        simp [he, Playwright.successes, Playwright.isReturned]

/-- One run of the `catch` block that returned: no hover, no forced click, one
raw click that returned. -/
theorem fallbackClick_counts {σ : Type} (b : Playwright.Browser σ) (opt : Playwright.Locator)
    (text : JSString) (i : Nat) (s : Playwright.Session σ) (w : JSValue)
    (h : (Playwright.fallbackClick b opt text i s).1 = .returned w) :
    ∃ evs, (Playwright.fallbackClick b opt text i s).2.trace = s.trace ++ evs ∧
      Playwright.attempts opt evs = 0 ∧ Playwright.rawClicks evs = 1 ∧
      Playwright.forcedClicks opt evs = 0 ∧ Playwright.successes opt evs = 0 := by
  simp only [Playwright.fallbackClick, Playwright.Step.andThen, Playwright.consoleLog,
    call_eq] at h ⊢
  cases h1 : (b.perform (.elementHandle opt) s.state).1 with
  | raised e => simp [h1] at h
  | returned handle =>
    simp only [h1] at h ⊢
    cases h2 : (b.perform (.evaluateClick handle)
        (b.perform (.elementHandle opt) s.state).2).1 with
    | raised e => simp [h2] at h
    | returned v2 =>
      simp only [h2] at h ⊢
      exact ⟨[(.consoleLog (Playwright.retryMessage text i), .returned .undefined),
        (.elementHandle opt, .returned handle), (.evaluateClick handle, .returned v2),
        (.waitForTimeout 200, .returned w)], by simp [h],
        by simp [Playwright.attempts],
        by simp [Playwright.rawClicks, Playwright.isReturned],
        by simp [Playwright.forcedClicks], by simp [Playwright.successes]⟩


/-- The retry loop in a browser whose `catch` block never raises, with `n`
iterations left: it returns after `k` runs of the `try` block, `k - 1` raw
clicks and its first forced click that returned; or it raises the explicit
failure after `n` runs of the `try` block and `n` raw clicks, no forced click
having returned. -/
theorem selectDynamicDropDownLoop_counts {σ : Type} (b : Playwright.Browser σ)
    (opt : Playwright.Locator) (text : JSString)
    (hfb : ∀ i s, ∃ w, (Playwright.fallbackClick b opt text i s).1 = .returned w) :
    ∀ (n : Nat) (s : Playwright.Session σ),
      ∃ evs, (Playwright.selectDynamicDropDownLoop b opt text n s).2.trace = s.trace ++ evs ∧
        Playwright.forcedClicks opt evs ≤ Playwright.attempts opt evs ∧
        Playwright.attempts opt evs ≤ n ∧
        (∀ v, (Playwright.selectDynamicDropDownLoop b opt text n s).1 = .returned v →
          ∃ k, 1 ≤ k ∧ k ≤ n ∧ Playwright.attempts opt evs = k ∧
            Playwright.rawClicks evs = k - 1 ∧ Playwright.successes opt evs = 1 ∧
            ∃ w, evs.getLast? = some (.click opt true, .returned w)) ∧
        (∀ e, (Playwright.selectDynamicDropDownLoop b opt text n s).1 = .raised e →
          e = Playwright.failureMessage text ∧ Playwright.attempts opt evs = n ∧
            Playwright.rawClicks evs = n ∧ Playwright.successes opt evs = 0) := by
  intro n
  induction n with
  | zero =>
    intro s
    refine ⟨[], by simp [Playwright.selectDynamicDropDownLoop],
      by simp [Playwright.forcedClicks, Playwright.attempts],
      by simp [Playwright.attempts], ?_, ?_⟩
    · intro v hv
      simp [Playwright.selectDynamicDropDownLoop] at hv
    · intro e he
      refine ⟨?_, by simp [Playwright.attempts], by simp [Playwright.rawClicks],
        by simp [Playwright.successes]⟩
      simpa [Playwright.selectDynamicDropDownLoop] using he.symm
  | succ n ih =>
    intro s
    obtain ⟨evs1, ht1, ha1, hw1, hf1, hret1, hrai1⟩ := attemptClick_counts b opt s
    simp only [Playwright.selectDynamicDropDownLoop]
    cases ha : Playwright.attemptClick b opt s with
    | mk r1 s1 =>
      rw [ha] at ht1 hret1 hrai1
      replace ht1 : s1.trace = s.trace ++ evs1 := ht1
      cases r1 with
      | returned v1 =>
        obtain ⟨hs1, hl1⟩ := hret1 v1 rfl
        refine ⟨evs1, ht1, by omega, by omega, ?_, ?_⟩
        · intro v _
          exact ⟨1, le_refl _, by omega, ha1, by omega, hs1, v1, hl1⟩
        · intro e he
          simp at he
      | raised e1 =>
        have hs1 := hrai1 e1 rfl
        simp only [Playwright.Step.andThen]
        obtain ⟨w, hw⟩ := hfb (3 - (n + 1)) s1
        obtain ⟨evs2, ht2, ha2, hw2, hf2, hs2⟩ :=
          fallbackClick_counts b opt text (3 - (n + 1)) s1 w hw
        cases hf : Playwright.fallbackClick b opt text (3 - (n + 1)) s1 with
        | mk r2 s2 =>
          rw [hf] at ht2 hw
          replace ht2 : s2.trace = s1.trace ++ evs2 := ht2
          replace hw : r2 = .returned w := hw
          subst hw
          simp only []
          obtain ⟨evs3, ht3, hfa3, ha3, hret3, hrai3⟩ := ih s2
          refine ⟨evs1 ++ evs2 ++ evs3, ?_, ?_, ?_, ?_, ?_⟩
          · rw [ht3, ht2, ht1]
            simp only [List.append_assoc]
          · rw [forcedClicks_append, forcedClicks_append, attempts_append, attempts_append]
            omega
          · rw [attempts_append, attempts_append]
            omega
          · intro v hv
            obtain ⟨k, hk1, hk2, hk3, hk4, hk5, w3, hk6⟩ := hret3 v hv
            refine ⟨k + 1, by omega, by omega, ?_, ?_, ?_, w3,
              getLast?_append_of_some _ _ _ hk6⟩
            · rw [attempts_append, attempts_append]; omega
            · rw [rawClicks_append, rawClicks_append]; omega
            · rw [successes_append, successes_append]; omega
          · intro e he
            obtain ⟨h1, h2, h3, h4⟩ := hrai3 e he
            refine ⟨h1, ?_, ?_, ?_⟩
            · rw [attempts_append, attempts_append]; omega
            · rw [rawClicks_append, rawClicks_append]; omega
            · rw [successes_append, successes_append]; omega

/-- The method `selectDynamicDropDown` is its four opening calls followed by
the retry loop. -/
theorem selectDynamicDropDown_eq {σ : Type} (b : Playwright.Browser σ)
    (dl dvl : Playwright.Locator) (text : JSString) (s : Playwright.Session σ) :
    Playwright.selectDynamicDropDown b dl dvl text s
      = ((Playwright.openDropDown b dl dvl text).andThen fun _ =>
          Playwright.selectDynamicDropDownLoop b (Playwright.optionLocator dvl text) text 3)
        s := by
  simp only [Playwright.selectDynamicDropDown, Playwright.openDropDown,
    Playwright.Step.andThen, call_eq]
  cases (b.perform (.click dl false) s.state).1 <;> simp only []
  cases (b.perform (.waitForVisible (.first dvl) (some 5000))
    (b.perform (.click dl false) s.state).2).1 <;> simp only []
  cases (b.perform (.waitForVisible (Playwright.optionLocator dvl text) (some 5000))
    (b.perform (.waitForVisible (.first dvl) (some 5000))
      (b.perform (.click dl false) s.state).2).2).1 <;> simp only []

/-- C29: in the Playwright `selectDynamicDropDown`, once the four opening calls
have returned (the dropdown is open and the option visible), and in a browser
where the `catch` block (log, raw-DOM click, pause) never raises: the method
returns if and only if one of its forced option clicks returned, of which it
issues at most three; when it returns, the `try` block has run `k` times for
some `1 ≤ k ≤ 3`, the raw-DOM click has gone through `k - 1` times, exactly
one forced click has returned and it is the last call; when it raises, it
raises the explicit failure after three runs of the `try` block and three
raw-DOM clicks that went through, no forced click having returned. A run of
the `try` block is counted by its first call, the hover. -/
theorem selectDynamicDropDown_first_success {σ : Type} (b : Playwright.Browser σ)
    (dl dvl : Playwright.Locator) (text : JSString) (s s1 : Playwright.Session σ) (v0 : JSValue)
    (hopen : Playwright.openDropDown b dl dvl text s = (.returned v0, s1))
    (hfb : ∀ i t, ∃ w,
      (Playwright.fallbackClick b (Playwright.optionLocator dvl text) text i t).1
        = .returned w) :
    ∃ evs, (Playwright.selectDynamicDropDown b dl dvl text s).2.trace = s1.trace ++ evs ∧
      Playwright.forcedClicks (Playwright.optionLocator dvl text) evs
        ≤ Playwright.attempts (Playwright.optionLocator dvl text) evs ∧
      Playwright.attempts (Playwright.optionLocator dvl text) evs ≤ 3 ∧
      ((∃ v, (Playwright.selectDynamicDropDown b dl dvl text s).1 = .returned v) ↔
        1 ≤ Playwright.successes (Playwright.optionLocator dvl text) evs) ∧
      (∀ v, (Playwright.selectDynamicDropDown b dl dvl text s).1 = .returned v →
        ∃ k, 1 ≤ k ∧ k ≤ 3 ∧
          Playwright.attempts (Playwright.optionLocator dvl text) evs = k ∧
          Playwright.rawClicks evs = k - 1 ∧
          Playwright.successes (Playwright.optionLocator dvl text) evs = 1 ∧
          ∃ w, evs.getLast?
            = some (.click (Playwright.optionLocator dvl text) true, .returned w)) ∧
      (∀ e, (Playwright.selectDynamicDropDown b dl dvl text s).1 = .raised e →
        e = Playwright.failureMessage text ∧
          Playwright.attempts (Playwright.optionLocator dvl text) evs = 3 ∧
          Playwright.rawClicks evs = 3 ∧
          Playwright.successes (Playwright.optionLocator dvl text) evs = 0) := by
  obtain ⟨evs, ht, hfa, ha, hret, hrai⟩ :=
    selectDynamicDropDownLoop_counts b (Playwright.optionLocator dvl text) text hfb 3 s1
  have heq : Playwright.selectDynamicDropDown b dl dvl text s
      = Playwright.selectDynamicDropDownLoop b (Playwright.optionLocator dvl text) text 3
          s1 := by
    rw [selectDynamicDropDown_eq]
    simp only [Playwright.Step.andThen, hopen]
  rw [heq]
  refine ⟨evs, ht, hfa, ha, ?_, hret, hrai⟩
  constructor
  · rintro ⟨v, hv⟩
    obtain ⟨k, _, _, _, _, hs, _⟩ := hret v hv
    omega
  · intro hs
    cases hr : (Playwright.selectDynamicDropDownLoop b (Playwright.optionLocator dvl text)
        text 3 s1).1 with
    | returned v => exact ⟨v, rfl⟩
    | raised e =>
      have := (hrai e hr).2.2.2
      omega

/-- C29 at `flakyBrowser`, where the first two forced clicks time out and the
third one returns. -/
theorem selectDynamicDropDown_first_success_witness :
    ∃ evs, (Playwright.selectDynamicDropDown Playwright.flakyBrowser Playwright.countryDropdown
        Playwright.countryDropdownValues (lit "Germany") { state := 0, trace := [] }).2.trace
        = [(.click Playwright.countryDropdown false, .returned .undefined),
            (.waitForVisible (.first Playwright.countryDropdownValues) (some 5000),
              .returned .undefined),
            (.waitForVisible
              (Playwright.optionLocator Playwright.countryDropdownValues (lit "Germany"))
              (some 5000), .returned .undefined),
            (.scrollIntoViewIfNeeded
              (Playwright.optionLocator Playwright.countryDropdownValues (lit "Germany")),
              .returned .undefined)] ++ evs ∧
      Playwright.forcedClicks
          (Playwright.optionLocator Playwright.countryDropdownValues (lit "Germany")) evs
        ≤ Playwright.attempts
          (Playwright.optionLocator Playwright.countryDropdownValues (lit "Germany")) evs ∧
      Playwright.attempts
        (Playwright.optionLocator Playwright.countryDropdownValues (lit "Germany")) evs ≤ 3 ∧
      Playwright.attempts
        (Playwright.optionLocator Playwright.countryDropdownValues (lit "Germany")) evs = 3 ∧
      Playwright.rawClicks evs = 2 ∧
      Playwright.successes
        (Playwright.optionLocator Playwright.countryDropdownValues (lit "Germany")) evs = 1 :=
  have h := selectDynamicDropDown_first_success Playwright.flakyBrowser
    Playwright.countryDropdown Playwright.countryDropdownValues (lit "Germany")
    { state := 0, trace := [] }
    { state := 0,
      trace := [(.click Playwright.countryDropdown false, .returned .undefined),
        (.waitForVisible (.first Playwright.countryDropdownValues) (some 5000),
          .returned .undefined),
        (.waitForVisible
          (Playwright.optionLocator Playwright.countryDropdownValues (lit "Germany"))
          (some 5000), .returned .undefined),
        (.scrollIntoViewIfNeeded
          (Playwright.optionLocator Playwright.countryDropdownValues (lit "Germany")),
          .returned .undefined)] }
    .undefined rfl (fun _ _ => ⟨.undefined, rfl⟩)
  match h with
  | ⟨evs, ht, hfa, ha, _, hret, _⟩ =>
    ⟨evs, ht, hfa, ha, by
      have hr : (Playwright.selectDynamicDropDown Playwright.flakyBrowser
          Playwright.countryDropdown Playwright.countryDropdownValues (lit "Germany")
          { state := 0, trace := [] }).1 = .returned .undefined := rfl
      obtain ⟨k, _, _, hk3, hk4, hk5, _⟩ := hret _ hr
      have htr : (Playwright.selectDynamicDropDown Playwright.flakyBrowser
          Playwright.countryDropdown Playwright.countryDropdownValues (lit "Germany")
          { state := 0, trace := [] }).2.trace
          = [(.click Playwright.countryDropdown false, .returned .undefined),
              (.waitForVisible (.first Playwright.countryDropdownValues) (some 5000),
                .returned .undefined),
              (.waitForVisible
                (Playwright.optionLocator Playwright.countryDropdownValues (lit "Germany"))
                (some 5000), .returned .undefined),
              (.scrollIntoViewIfNeeded
                (Playwright.optionLocator Playwright.countryDropdownValues (lit "Germany")),
                .returned .undefined)]
            ++ [(.hover (Playwright.optionLocator Playwright.countryDropdownValues
                  (lit "Germany")), .returned .undefined),
              (.waitForTimeout 200, .returned .undefined),
              (.click (Playwright.optionLocator Playwright.countryDropdownValues
                  (lit "Germany")) true,
                .raised (lit "locator.click: Timeout 30000ms exceeded.")),
              (.consoleLog (Playwright.retryMessage (lit "Germany") 0), .returned .undefined),
              (.elementHandle (Playwright.optionLocator Playwright.countryDropdownValues
                  (lit "Germany")), .returned .object),
              (.evaluateClick .object, .returned .undefined),
              (.waitForTimeout 200, .returned .undefined),
              (.hover (Playwright.optionLocator Playwright.countryDropdownValues
                  (lit "Germany")), .returned .undefined),
              (.waitForTimeout 200, .returned .undefined),
              (.click (Playwright.optionLocator Playwright.countryDropdownValues
                  (lit "Germany")) true,
                .raised (lit "locator.click: Timeout 30000ms exceeded.")),
              (.consoleLog (Playwright.retryMessage (lit "Germany") 1), .returned .undefined),
              (.elementHandle (Playwright.optionLocator Playwright.countryDropdownValues
                  (lit "Germany")), .returned .object),
              (.evaluateClick .object, .returned .undefined),
              (.waitForTimeout 200, .returned .undefined),
              (.hover (Playwright.optionLocator Playwright.countryDropdownValues
                  (lit "Germany")), .returned .undefined),
              (.waitForTimeout 200, .returned .undefined),
              (.click (Playwright.optionLocator Playwright.countryDropdownValues
                  (lit "Germany")) true, .returned .undefined)] := rfl
      have hevs := List.append_cancel_left (ht.symm.trans htr)
      have hraw : Playwright.rawClicks evs = 2 := by rw [hevs]; rfl
      omega⟩

/-! ## The claim on the selected country -/

/-- On the page of the third step, a click that is not forced returns and
leaves the values as they are; so do, in the lemmas that follow, the wait
for the first option, the scroll, the hover and the pause. -/
theorem step3Page_click (rules : SignupFlow.Rules) (l : Playwright.Locator)
    (fields : SignupFlow.Fields) :
    (SignupFlow.step3Page rules).perform (.click l false) fields
      = (.returned .undefined, fields) := by
  cases l <;> rfl

theorem step3Page_waitFirst (rules : SignupFlow.Rules) (l : Playwright.Locator)
    (t : Option Nat) (fields : SignupFlow.Fields) :
    (SignupFlow.step3Page rules).perform (.waitForVisible (.first l) t) fields
      = (.returned .undefined, fields) := rfl

theorem step3Page_scroll (rules : SignupFlow.Rules) (l : Playwright.Locator)
    (fields : SignupFlow.Fields) :
    (SignupFlow.step3Page rules).perform (.scrollIntoViewIfNeeded l) fields
      = (.returned .undefined, fields) := rfl

theorem step3Page_hover (rules : SignupFlow.Rules) (l : Playwright.Locator)
    (fields : SignupFlow.Fields) :
    (SignupFlow.step3Page rules).perform (.hover l) fields
      = (.returned .undefined, fields) := rfl

theorem step3Page_waitForTimeout (rules : SignupFlow.Rules) (ms : Nat)
    (fields : SignupFlow.Fields) :
    (SignupFlow.step3Page rules).perform (.waitForTimeout ms) fields
      = (.returned .undefined, fields) := rfl

/-- On the page of the third step, the fill of the company field enters the
company name. -/
theorem step3Page_fill (rules : SignupFlow.Rules) (value : JSString)
    (fields : SignupFlow.Fields) :
    (SignupFlow.step3Page rules).perform (.fill Playwright.companyNameField value) fields
      = (.returned .undefined, { fields with companyName := value }) := rfl

/-- A country of the allow-list is an option of the country dropdown. -/
theorem optionShown_country (rules : SignupFlow.Rules) (c : JSString)
    (hc : c ∈ rules.countries) :
    SignupFlow.optionShown rules Playwright.countryDropdownValues (lit "text=" ++ c)
      = true := by
  have h1 : SignupFlow.optionText (lit "text=" ++ c) = c := rfl
  simp [SignupFlow.optionShown, h1, hc]

/-- A channel of the allow-list is an option of the hear-about-us dropdown. -/
theorem optionShown_channel (rules : SignupFlow.Rules) (h : JSString)
    (hh : h ∈ rules.channels) :
    SignupFlow.optionShown rules Playwright.hearAboutUsDropdownValues (lit "text=" ++ h)
      = true := by
  have h1 : SignupFlow.optionText (lit "text=" ++ h) = h := rfl
  simp [SignupFlow.optionShown, h1, hh]

/-- On the page of the third step, the wait for an option of the page returns. -/
theorem step3Page_waitOption (rules : SignupFlow.Rules) (l : Playwright.Locator)
    (selector : JSString) (t : Option Nat) (fields : SignupFlow.Fields)
    (h : SignupFlow.optionShown rules l selector = true) :
    (SignupFlow.step3Page rules).perform (.waitForVisible (.locator l selector) t) fields
      = (.returned .undefined, fields) := by
  show (if SignupFlow.optionShown rules l selector = true then _ else _) = _
  rw [if_pos h]

/-- On the page of the third step, the forced click on a country of the
allow-list selects it. -/
theorem step3Page_clickCountry (rules : SignupFlow.Rules) (c : JSString)
    (hc : c ∈ rules.countries) (fields : SignupFlow.Fields) :
    (SignupFlow.step3Page rules).perform
        (.click (.locator Playwright.countryDropdownValues (lit "text=" ++ c)) true) fields
      = (.returned .undefined, { fields with country := some c }) := by
  show (if SignupFlow.optionShown rules _ _ = true then _ else _) = _
  rw [if_pos (optionShown_country rules c hc)]
  have h1 : SignupFlow.optionText (lit "text=" ++ c) = c := rfl
  simp [SignupFlow.select, h1, hc]

/-- On the page of the third step, the forced click on a channel of the
allow-list selects it and leaves the country as it is. -/
theorem step3Page_clickChannel (rules : SignupFlow.Rules) (h : JSString)
    (hh : h ∈ rules.channels) (fields : SignupFlow.Fields) :
    (SignupFlow.step3Page rules).perform
        (.click (.locator Playwright.hearAboutUsDropdownValues (lit "text=" ++ h)) true) fields
      = (.returned .undefined, { fields with hearAboutUs := some h }) := by
  show (if SignupFlow.optionShown rules _ _ = true then _ else _) = _
  rw [if_pos (optionShown_channel rules h hh)]
  have h1 : SignupFlow.optionText (lit "text=" ++ h) = h := rfl
  have h2 : Playwright.hearAboutUsDropdownValues ≠ Playwright.countryDropdownValues := by
    decide
  simp [SignupFlow.select, h1, hh, h2]

/-- On the page of the third step, `inputValue` of the country dropdown is
`getSelectedValue` of the country. -/
theorem step3Page_inputValue (rules : SignupFlow.Rules) (fields : SignupFlow.Fields) :
    (SignupFlow.step3Page rules).perform (.inputValue Playwright.countryDropdown) fields
      = (.returned (.string (SignupFlow.getSelectedValue .country fields)), fields) := rfl

/-- On the page of the third step, `selectDynamicDropDown` for an option that
is on the page returns after its first forced click, in the state that this
click leaves. -/
theorem selectDynamicDropDown_step3Page (rules : SignupFlow.Rules)
    (dl dvl : Playwright.Locator) (text : JSString) (after : SignupFlow.Fields → SignupFlow.Fields)
    (hshown : SignupFlow.optionShown rules dvl (lit "text=" ++ text) = true)
    (hclick : ∀ fields, (SignupFlow.step3Page rules).perform
        (.click (.locator dvl (lit "text=" ++ text)) true) fields
      = (.returned .undefined, after fields))
    (s : Playwright.Session SignupFlow.Fields) :
    (Playwright.selectDynamicDropDown (SignupFlow.step3Page rules) dl dvl text s).1
        = .returned .undefined ∧
      (Playwright.selectDynamicDropDown (SignupFlow.step3Page rules) dl dvl text s).2.state
        = after s.state := by
  simp only [Playwright.selectDynamicDropDown, Playwright.selectDynamicDropDownLoop,
    Playwright.attemptClick, Playwright.optionLocator, Playwright.Step.andThen, call_eq,
    step3Page_click, step3Page_waitFirst, step3Page_scroll, step3Page_hover,
    step3Page_waitForTimeout, step3Page_waitOption rules dvl _ _ _ hshown, hclick]
  exact ⟨trivial, trivial⟩

/-- On the page of the third step, `enterCompanyName` returns and enters the
company name. -/
theorem enterCompanyName_step3Page (rules : SignupFlow.Rules) (companyNameText : JSString)
    (s : Playwright.Session SignupFlow.Fields) :
    (Playwright.enterCompanyName (SignupFlow.step3Page rules) companyNameText s).1
        = .returned .undefined ∧
      (Playwright.enterCompanyName (SignupFlow.step3Page rules) companyNameText s).2.state
        = { s.state with companyName := companyNameText } := by
  simp only [Playwright.enterCompanyName, Playwright.fillFormField, Playwright.Step.andThen,
    call_eq, step3Page_fill]
  exact ⟨trivial, trivial⟩

/-- C21: on the page of the third step as the spec describes it, for every
country `c` of the allow-list: the selection of `c` makes `c` the value that
`getSelectedValue` returns; the Playwright `selectCountry(c)` followed at
once by `getSelectedCountry` returns, with the value `c`; and so does the
sequence that the end-to-end tests run, `fillCompanyDetails(company, c,
channel)` followed by `getSelectedCountry`, for every company name and
every channel of the allow-list: the selection of the channel, which
`fillCompanyDetails` makes after the selection of the country, leaves the
country as it is. -/
theorem getSelectedCountry_after_selectCountry (rules : SignupFlow.Rules) (c : JSString)
    (hc : c ∈ rules.countries) (s : Playwright.Session SignupFlow.Fields) :
    SignupFlow.getSelectedValue .country (SignupFlow.select rules .country c s.state) = c ∧
    (((Playwright.selectCountry (SignupFlow.step3Page rules) c).andThen fun _ =>
        Playwright.getSelectedCountry (SignupFlow.step3Page rules)) s).1
      = .returned (.string c) ∧
    (∀ companyNameText hearAboutUsText, hearAboutUsText ∈ rules.channels →
      (((Playwright.fillCompanyDetails (SignupFlow.step3Page rules) companyNameText c
            hearAboutUsText).andThen fun _ =>
          Playwright.getSelectedCountry (SignupFlow.step3Page rules)) s).1
        = .returned (.string c)) := by
  have hcountry : ∀ t : Playwright.Session SignupFlow.Fields,
      (Playwright.selectCountry (SignupFlow.step3Page rules) c t).1 = .returned .undefined ∧
      (Playwright.selectCountry (SignupFlow.step3Page rules) c t).2.state
        = { t.state with country := some c } := fun t =>
    selectDynamicDropDown_step3Page rules _ _ c (fun f => { f with country := some c })
      (optionShown_country rules c hc) (step3Page_clickCountry rules c hc) t
  refine ⟨by simp [SignupFlow.getSelectedValue, SignupFlow.select, hc], ?_, ?_⟩
  · simp only [Playwright.Step.andThen]
    obtain ⟨h1, h2⟩ := hcountry s
    cases hs : Playwright.selectCountry (SignupFlow.step3Page rules) c s with
    | mk r s1 =>
      rw [hs] at h1 h2
      replace h1 : r = .returned .undefined := h1
      replace h2 : s1.state = { s.state with country := some c } := h2
      subst h1
      simp only [Playwright.getSelectedCountry, Playwright.getSelectedDropdownValue, call_eq,
        step3Page_inputValue, h2]
      simp [SignupFlow.getSelectedValue]
  · intro companyNameText hearAboutUsText hh
    have hchannel : ∀ t : Playwright.Session SignupFlow.Fields,
        (Playwright.selectHearAboutUs (SignupFlow.step3Page rules) hearAboutUsText t).1
          = .returned .undefined ∧
        (Playwright.selectHearAboutUs (SignupFlow.step3Page rules) hearAboutUsText t).2.state
          = { t.state with hearAboutUs := some hearAboutUsText } := fun t =>
      selectDynamicDropDown_step3Page rules _ _ hearAboutUsText
        (fun f => { f with hearAboutUs := some hearAboutUsText })
        (optionShown_channel rules hearAboutUsText hh)
        (step3Page_clickChannel rules hearAboutUsText hh) t
    simp only [Playwright.Step.andThen, Playwright.fillCompanyDetails]
    obtain ⟨h5, h6⟩ := enterCompanyName_step3Page rules companyNameText s
    cases he : Playwright.enterCompanyName (SignupFlow.step3Page rules) companyNameText s with
    | mk r0 s0 =>
      rw [he] at h5 h6
      replace h5 : r0 = .returned .undefined := h5
      replace h6 : s0.state = { s.state with companyName := companyNameText } := h6
      subst h5
      simp only []
      obtain ⟨h1, h2⟩ := hcountry s0
      cases hs : Playwright.selectCountry (SignupFlow.step3Page rules) c s0 with
      | mk r s1 =>
        rw [hs] at h1 h2
        replace h1 : r = .returned .undefined := h1
        replace h2 : s1.state = { s0.state with country := some c } := h2
        subst h1
        simp only []
        obtain ⟨h3, h4⟩ := hchannel s1
        cases ht : Playwright.selectHearAboutUs (SignupFlow.step3Page rules) hearAboutUsText
            s1 with
        | mk r2 s2 =>
          rw [ht] at h3 h4
          replace h3 : r2 = .returned .undefined := h3
          replace h4 : s2.state = { s1.state with hearAboutUs := some hearAboutUsText } := h4
          subst h3
          simp only [Playwright.getSelectedCountry, Playwright.getSelectedDropdownValue,
            call_eq, step3Page_inputValue, h4, h2]
          simp [SignupFlow.getSelectedValue]

/-- C21 at the sample rules, with Germany and Google, on a page where nothing
is entered yet. -/
theorem getSelectedCountry_after_selectCountry_witness :
    SignupFlow.getSelectedValue .country
        (SignupFlow.select SignupFlow.sampleRules .country (lit "Germany")
          SignupFlow.emptyFields) = lit "Germany" ∧
    (((Playwright.selectCountry (SignupFlow.step3Page SignupFlow.sampleRules)
          (lit "Germany")).andThen fun _ =>
        Playwright.getSelectedCountry (SignupFlow.step3Page SignupFlow.sampleRules))
      { state := SignupFlow.emptyFields, trace := [] }).1
      = .returned (.string (lit "Germany")) ∧
    (((Playwright.fillCompanyDetails (SignupFlow.step3Page SignupFlow.sampleRules)
          (lit "Acme") (lit "Germany") (lit "Google")).andThen fun _ =>
        Playwright.getSelectedCountry (SignupFlow.step3Page SignupFlow.sampleRules))
      { state := SignupFlow.emptyFields, trace := [] }).1
      = .returned (.string (lit "Germany")) :=
  have h := getSelectedCountry_after_selectCountry SignupFlow.sampleRules (lit "Germany")
    (by decide) { state := SignupFlow.emptyFields, trace := [] }
  ⟨h.1, h.2.1, h.2.2 (lit "Acme") (lit "Google") (by decide)⟩

/-! ## The claim on the calls of the form-filling methods -/

theorem formCalls_append (xs ys : List Playwright.Event) :
    Playwright.formCalls (xs ++ ys) = Playwright.formCalls xs ++ Playwright.formCalls ys := by
  simp [Playwright.formCalls]

/-- Sequencing adds up the calls of the two parts. -/
theorem formSpec_andThen {σ : Type} (xs ys : List Playwright.Action)
    (m : Playwright.Step σ JSValue) (k : JSValue → Playwright.Step σ JSValue)
    (hm : Playwright.FormSpec xs m) (hk : ∀ v, Playwright.FormSpec ys (k v)) :
    Playwright.FormSpec (xs ++ ys) (m.andThen k) := by
  intro s
  obtain ⟨evs1, ht1, hp1, hret1, hrai1⟩ := hm s
  simp only [Playwright.Step.andThen]
  cases hms : m s with
  | mk r1 s1 =>
    rw [hms] at ht1 hret1 hrai1
    replace ht1 : s1.trace = s.trace ++ evs1 := ht1
    cases r1 with
    | raised e =>
      refine ⟨evs1, ht1, hp1.trans (List.prefix_append _ _), ?_, ?_⟩
      · intro v hv
        simp at hv
      · intro e1 he1
        exact hrai1 e1 he1
    | returned v1 =>
      obtain ⟨_, hx, hall1⟩ := hret1 v1 rfl
      obtain ⟨evs2, ht2, hp2, hret2, hrai2⟩ := hk v1 s1
      refine ⟨evs1 ++ evs2, ?_, ?_, ?_, ?_⟩
      · rw [ht2, ht1, List.append_assoc]
      · rw [formCalls_append, hx]
        exact (List.prefix_append_right_inj xs).2 hp2
      · intro v hv
        obtain ⟨hu, hy, hall2⟩ := hret2 v hv
        refine ⟨hu, by rw [formCalls_append, hx, hy], ?_⟩
        intro ev hev
        rcases List.mem_append.1 hev with h | h
        · exact hall1 ev h
        · exact hall2 ev h
      · intro e he
        obtain ⟨a, ha, hl⟩ := hrai2 e he
        exact ⟨a, ha, getLast?_append_of_some _ _ _ hl⟩

/-- An `async` method that awaits `m` and returns nothing makes the calls of `m`. -/
theorem formSpec_void {σ : Type} (xs : List Playwright.Action)
    (m : Playwright.Step σ JSValue) (hm : Playwright.FormSpec xs m) :
    Playwright.FormSpec xs (m.andThen fun _ s => (.returned .undefined, s)) := by
  have h := formSpec_andThen xs [] m (fun _ s => (.returned .undefined, s)) hm (by
    intro _ s
    exact ⟨[], by simp, by simp [Playwright.formCalls], by simp [Playwright.formCalls],
      by simp⟩)
  simpa using h

/-- One awaited call outside the cookie banner handling. -/
theorem formSpec_call {σ : Type} (b : Playwright.Browser σ) (a : Playwright.Action)
    (ha : Playwright.cookieCall a = false) :
    Playwright.FormSpec [a] ((Playwright.call b a).andThen fun _ s =>
      (.returned .undefined, s)) := by
  intro s
  simp only [Playwright.Step.andThen, call_eq]
  refine ⟨[(a, (b.perform a s.state).1)], ?_, ?_, ?_, ?_⟩
  · cases (b.perform a s.state).1 <;> simp
  · simp [Playwright.formCalls, ha]
  · intro v hv
    cases hr : (b.perform a s.state).1 with
    | raised e => simp [hr] at hv
    | returned w =>
      simp only [hr] at hv
      refine ⟨by simpa using hv.symm, by simp [Playwright.formCalls, ha], ?_⟩
      intro ev hev _
      simp only [List.mem_singleton] at hev
      subst hev
      simp [Playwright.isReturned]
  · intro e he
    cases hr : (b.perform a s.state).1 with
    | raised e1 =>
      simp only [hr] at he
      exact ⟨a, ha, by simpa using he⟩
    | returned w => simp [hr] at he

/-- The method `acceptCookiesIfPresent` never raises and makes no call
outside the cookie banner handling. -/
theorem formSpec_acceptCookies {σ : Type} (b : Playwright.Browser σ) :
    Playwright.FormSpec [] (Playwright.acceptCookiesIfPresent b) := by
  intro s
  simp only [Playwright.acceptCookiesIfPresent, Playwright.Step.andThen, call_eq,
    Playwright.consoleLog]
  cases h1 : (b.perform (.waitForVisible Playwright.acceptAllButton (some 5000)) s.state).1 with
  | raised e =>
    refine ⟨[(.waitForVisible Playwright.acceptAllButton (some 5000), .raised e),
      (.consoleLog (lit "Accept button not found within timeout."), .returned .undefined)],
      by simp, by simp [Playwright.formCalls, Playwright.cookieCall],
      ?_, by simp⟩
    intro v hv
    refine ⟨by simpa using hv.symm, by simp [Playwright.formCalls, Playwright.cookieCall], ?_⟩
    intro ev hev hc
    simp only [List.mem_cons, List.mem_singleton, List.not_mem_nil, or_false] at hev
    rcases hev with h | h <;> subst h <;> simp [Playwright.cookieCall] at hc
  | returned v1 =>
    simp only []
    cases h2 : (b.perform (.click Playwright.acceptAllButton false)
        (b.perform (.waitForVisible Playwright.acceptAllButton (some 5000)) s.state).2).1 with
    | raised e =>
      refine ⟨[(.waitForVisible Playwright.acceptAllButton (some 5000), .returned v1),
        (.click Playwright.acceptAllButton false, .raised e),
        (.consoleLog (lit "Accept button not found within timeout."), .returned .undefined)],
        by simp, by simp [Playwright.formCalls, Playwright.cookieCall],
        ?_, by simp⟩
      intro v hv
      refine ⟨by simpa using hv.symm, by simp [Playwright.formCalls, Playwright.cookieCall],
        ?_⟩
      intro ev hev hc
      simp only [List.mem_cons, List.mem_singleton, List.not_mem_nil, or_false] at hev
      rcases hev with h | h | h <;> subst h <;> simp [Playwright.cookieCall] at hc
    | returned v2 =>
      refine ⟨[(.waitForVisible Playwright.acceptAllButton (some 5000), .returned v1),
        (.click Playwright.acceptAllButton false, .returned v2)],
        by simp, by simp [Playwright.formCalls, Playwright.cookieCall],
        ?_, by simp⟩
      intro v hv
      refine ⟨by simpa using hv.symm, by simp [Playwright.formCalls, Playwright.cookieCall],
        ?_⟩
      intro ev hev hc
      simp only [List.mem_cons, List.mem_singleton, List.not_mem_nil, or_false] at hev
      rcases hev with h | h <;> subst h <;> simp [Playwright.cookieCall] at hc

/-- A method returns right after the call `a` when its last part does. -/
theorem andThen_endsWith {σ : Type} (a : Playwright.Action) (m : Playwright.Step σ JSValue)
    (k : JSValue → Playwright.Step σ JSValue)
    (hk : ∀ v s w, (k v s).1 = .returned w →
      ∃ u, (k v s).2.trace.getLast? = some (a, .returned u)) :
    ∀ s w, ((m.andThen k) s).1 = .returned w →
      ∃ u, ((m.andThen k) s).2.trace.getLast? = some (a, .returned u) := by
  intro s w h
  simp only [Playwright.Step.andThen] at h ⊢
  cases hms : m s with
  | mk r1 s1 =>
    rw [hms] at h
    cases r1 with
    | raised e => simp at h
    | returned v1 => exact hk v1 s1 w h

/-- An `async` method that awaits `m` and returns nothing ends as `m` does. -/
theorem void_endsWith {σ : Type} (a : Playwright.Action) (m : Playwright.Step σ JSValue)
    (hm : ∀ s w, (m s).1 = .returned w → ∃ u, (m s).2.trace.getLast? = some (a, .returned u)) :
    ∀ s w,
      ((m.andThen fun _ s => ((.returned .undefined : Outcome JSValue), s)) s).1
        = .returned w →
      ∃ u, ((m.andThen fun _ s => ((.returned .undefined : Outcome JSValue), s))
        s).2.trace.getLast? = some (a, .returned u) := by
  intro s w h
  simp only [Playwright.Step.andThen] at h ⊢
  cases hms : m s with
  | mk r1 s1 =>
    rw [hms] at h
    cases r1 with
    | raised e => simp at h
    | returned v1 =>
      have := hm s v1 (by rw [hms])
      rw [hms] at this
      exact this

/-- The method `clickElement` returns right after its click. -/
theorem clickElement_endsWith {σ : Type} (b : Playwright.Browser σ) (l : Playwright.Locator) :
    ∀ s w, (Playwright.clickElement b l s).1 = .returned w →
      ∃ u, (Playwright.clickElement b l s).2.trace.getLast?
        = some (.click l false, .returned u) := by
  intro s w h
  simp only [Playwright.clickElement, Playwright.Step.andThen, call_eq] at h ⊢
  cases hr : (b.perform (.click l false) s.state).1 with
  | raised e => simp [hr] at h
  | returned u => exact ⟨u, by simp⟩

/-- The calls of the Playwright `fillSignupForm`. -/
theorem playwright_fillSignupForm_formSpec {σ : Type} (b : Playwright.Browser σ)
    (emailText passwordText : JSString) :
    Playwright.FormSpec
      [.fill Playwright.emailField emailText, .fill Playwright.passwordField passwordText,
        .check Playwright.termsCheckbox true, .click Playwright.tryForFreeButton false]
      (Playwright.fillSignupForm b emailText passwordText) := by
  have h := formSpec_andThen _ _ _ _ (formSpec_acceptCookies b) fun _ =>
    formSpec_andThen _ _ _ _
      (formSpec_void _ _ (formSpec_call b (.fill Playwright.emailField emailText) rfl)) fun _ =>
    formSpec_andThen _ _ _ _
      (formSpec_void _ _
        (formSpec_call b (.fill Playwright.passwordField passwordText) rfl)) fun _ =>
    formSpec_andThen _ _ _ _
      (formSpec_void _ _ (formSpec_call b (.check Playwright.termsCheckbox true) rfl)) fun _ =>
    formSpec_void _ _ (formSpec_andThen _ _ _ _ (formSpec_acceptCookies b) fun _ =>
      formSpec_void _ _ (formSpec_call b (.click Playwright.tryForFreeButton false) rfl))
  exact h

/-- The calls of the Playwright `fillPersonalDetails`. -/
theorem playwright_fillPersonalDetails_formSpec {σ : Type} (b : Playwright.Browser σ)
    (firstNameText lastNameText phoneNumberText : JSString) :
    Playwright.FormSpec
      [.fill Playwright.firstNameField firstNameText,
        .fill Playwright.lastNameField lastNameText,
        .fill Playwright.phoneField phoneNumberText, .click Playwright.nextButton false]
      (Playwright.fillPersonalDetails b firstNameText lastNameText phoneNumberText) := by
  have h := formSpec_andThen _ _ _ _
      (formSpec_void _ _
        (formSpec_call b (.fill Playwright.firstNameField firstNameText) rfl)) fun _ =>
    formSpec_andThen _ _ _ _
      (formSpec_void _ _
        (formSpec_call b (.fill Playwright.lastNameField lastNameText) rfl)) fun _ =>
    formSpec_andThen _ _ _ _
      (formSpec_void _ _
        (formSpec_call b (.fill Playwright.phoneField phoneNumberText) rfl)) fun _ =>
    formSpec_void _ _
      (formSpec_void _ _ (formSpec_call b (.click Playwright.nextButton false) rfl))
  exact h

/-- The Playwright `fillSignupForm` returns right after its click on
`Try for free`. -/
theorem playwright_fillSignupForm_endsWith {σ : Type} (b : Playwright.Browser σ)
    (emailText passwordText : JSString) :
    ∀ s w, (Playwright.fillSignupForm b emailText passwordText s).1 = .returned w →
      ∃ u, (Playwright.fillSignupForm b emailText passwordText s).2.trace.getLast?
        = some (.click Playwright.tryForFreeButton false, .returned u) := by
  unfold Playwright.fillSignupForm
  refine andThen_endsWith _ _ _ fun _ => ?_
  refine andThen_endsWith _ _ _ fun _ => ?_
  refine andThen_endsWith _ _ _ fun _ => ?_
  refine andThen_endsWith _ _ _ fun _ => ?_
  refine void_endsWith _ _ ?_
  unfold Playwright.clickTryForFree
  refine andThen_endsWith _ _ _ fun _ => ?_
  exact void_endsWith _ _ (clickElement_endsWith b _)

/-- The Playwright `fillPersonalDetails` returns right after its click on
`Next`. -/
theorem playwright_fillPersonalDetails_endsWith {σ : Type} (b : Playwright.Browser σ)
    (firstNameText lastNameText phoneNumberText : JSString) :
    ∀ s w, (Playwright.fillPersonalDetails b firstNameText lastNameText phoneNumberText s).1
        = .returned w →
      ∃ u, (Playwright.fillPersonalDetails b firstNameText lastNameText phoneNumberText
          s).2.trace.getLast? = some (.click Playwright.nextButton false, .returned u) := by
  unfold Playwright.fillPersonalDetails
  refine andThen_endsWith _ _ _ fun _ => ?_
  refine andThen_endsWith _ _ _ fun _ => ?_
  refine andThen_endsWith _ _ _ fun _ => ?_
  refine void_endsWith _ _ ?_
  unfold Playwright.clickNextButton
  exact void_endsWith _ _ (clickElement_endsWith b _)

/-- The run of enqueued commands: the commands run are the first ones of the
queue, in order, and when the run returns they are all of them and each one
returned. -/
theorem cypress_run_trace {σ : Type} (r : Cypress.Runner σ) :
    ∀ (cmds : List Cypress.Command) (s : Cypress.Session σ),
      ∃ evs, (Cypress.run r cmds s).2.trace = s.trace ++ evs ∧
        evs.map Prod.fst <+: cmds ∧
        ((Cypress.run r cmds s).1 = .returned () →
          evs.map Prod.fst = cmds ∧ ∀ ev ∈ evs, Playwright.isReturned ev.2 = true) := by
  intro cmds
  induction cmds with
  | nil =>
    intro s
    exact ⟨[], by simp [Cypress.run], by simp, by simp⟩
  | cons c cs ih =>
    intro s
    simp only [Cypress.run]
    cases hp : r.perform c s.state with
    | mk o st =>
      cases o with
      | raised e =>
        exact ⟨[(c, .raised e)], by simp, by simp, by simp⟩
      | returned v =>
        simp only []
        obtain ⟨evs, ht, hpre, hret⟩ := ih { state := st, trace := s.trace ++ [(c, .returned v)] }
        refine ⟨(c, .returned v) :: evs, ?_, ?_, ?_⟩
        · rw [ht]
          simp
        · simpa using hpre
        · intro h
          obtain ⟨h1, h2⟩ := hret h
          refine ⟨by simp [h1], ?_⟩
          intro ev hev
          rcases List.mem_cons.1 hev with h3 | h3
          · subst h3
            simp [Playwright.isReturned]
          · exact h2 ev h3

/-- C22: for all arguments, in both suites. The Playwright
`fillSignupForm(email, password)` makes, the cookie banner handling apart,
exactly the calls fill email field with `email`, fill password field with
`password`, check the terms checkbox, click `Try for free`, in that order,
each once and with the arguments unchanged; it never makes them in another
order or with other values, it raises only when one of its calls raised, and
it returns right after the click on `Try for free`, which returned. The same
holds for `fillPersonalDetails(first, last, phone)` with the first-name,
last-name and phone fields and the `Next` button. The Cypress methods enqueue
the corresponding commands: after the cookie banner chain, get, clear and type
for each field with the argument unchanged, the forced click on the terms
checkbox, and as the last two commands the lookup and the click of
`Try for free` (of the submit button for `fillPersonalDetails`); a run of the
queue that returns has run each of them once, in that order. -/
theorem fillSignupForm_fillPersonalDetails_calls {σ τ : Type} (b : Playwright.Browser σ)
    (r : Cypress.Runner τ)
    (emailText passwordText firstNameText lastNameText phoneNumberText : JSString) :
    Playwright.FormSpec
      [.fill Playwright.emailField emailText, .fill Playwright.passwordField passwordText,
        .check Playwright.termsCheckbox true, .click Playwright.tryForFreeButton false]
      (Playwright.fillSignupForm b emailText passwordText) ∧
    (∀ s w, (Playwright.fillSignupForm b emailText passwordText s).1 = .returned w →
      ∃ u, (Playwright.fillSignupForm b emailText passwordText s).2.trace.getLast?
        = some (.click Playwright.tryForFreeButton false, .returned u)) ∧
    Playwright.FormSpec
      [.fill Playwright.firstNameField firstNameText,
        .fill Playwright.lastNameField lastNameText,
        .fill Playwright.phoneField phoneNumberText, .click Playwright.nextButton false]
      (Playwright.fillPersonalDetails b firstNameText lastNameText phoneNumberText) ∧
    (∀ s w, (Playwright.fillPersonalDetails b firstNameText lastNameText phoneNumberText s).1
        = .returned w →
      ∃ u, (Playwright.fillPersonalDetails b firstNameText lastNameText phoneNumberText
          s).2.trace.getLast? = some (.click Playwright.nextButton false, .returned u)) ∧
    Cypress.fillSignupForm emailText passwordText
      = Cypress.acceptCookiesIfPresent ++
        [.get (lit "input[name='email']"), .clear, .type emailText,
          .get (lit "input[name='password']"), .clear, .type passwordText,
          .wait 2000, .xpath (lit "//input[@type=\"checkbox\" and @name=\"acceptTos\"]"),
          .click true,
          .contains (lit "Try for free"), .click false] ∧
    Cypress.fillPersonalDetails firstNameText lastNameText phoneNumberText
      = [.get (lit "input[name='firstname']"), .clear, .type firstNameText,
          .get (lit "input[name='lastname']"), .clear, .type lastNameText,
          .get (lit "input[name='phoneNumber']"), .clear, .type phoneNumberText,
          .get (lit "button[type='submit']"), .click false] ∧
    (∀ t, ∃ evs,
      (Cypress.run r (Cypress.fillSignupForm emailText passwordText) t).2.trace
        = t.trace ++ evs ∧
      evs.map Prod.fst <+: Cypress.fillSignupForm emailText passwordText ∧
      ((Cypress.run r (Cypress.fillSignupForm emailText passwordText) t).1 = .returned () →
        evs.map Prod.fst = Cypress.fillSignupForm emailText passwordText ∧
          ∀ ev ∈ evs, Playwright.isReturned ev.2 = true)) ∧
    (∀ t, ∃ evs,
      (Cypress.run r (Cypress.fillPersonalDetails firstNameText lastNameText phoneNumberText)
        t).2.trace = t.trace ++ evs ∧
      evs.map Prod.fst
        <+: Cypress.fillPersonalDetails firstNameText lastNameText phoneNumberText ∧
      ((Cypress.run r (Cypress.fillPersonalDetails firstNameText lastNameText phoneNumberText)
          t).1 = .returned () →
        evs.map Prod.fst
            = Cypress.fillPersonalDetails firstNameText lastNameText phoneNumberText ∧
          ∀ ev ∈ evs, Playwright.isReturned ev.2 = true)) :=
  ⟨playwright_fillSignupForm_formSpec b emailText passwordText,
    playwright_fillSignupForm_endsWith b emailText passwordText,
    playwright_fillPersonalDetails_formSpec b firstNameText lastNameText phoneNumberText,
    playwright_fillPersonalDetails_endsWith b firstNameText lastNameText phoneNumberText,
    rfl, rfl,
    cypress_run_trace r _, cypress_run_trace r _⟩

/-- C22 at `steadyBrowser` and `steadyRunner` with the values of the sample
profile: the Playwright method returns, with its four calls in order and the
click last; the run of the Cypress queue returns, with every command run. -/
theorem fillSignupForm_fillPersonalDetails_calls_witness :
    (∃ evs, (Playwright.fillSignupForm Playwright.steadyBrowser (lit "a@check.de")
          (lit "Passw0rdA!") { state := (), trace := [] }).2.trace = [] ++ evs ∧
        Playwright.formCalls evs
          = [.fill Playwright.emailField (lit "a@check.de"),
              .fill Playwright.passwordField (lit "Passw0rdA!"),
              .check Playwright.termsCheckbox true,
              .click Playwright.tryForFreeButton false]) ∧
    (∃ u, (Playwright.fillSignupForm Playwright.steadyBrowser (lit "a@check.de")
          (lit "Passw0rdA!") { state := (), trace := [] }).2.trace.getLast?
        = some (.click Playwright.tryForFreeButton false, .returned u)) ∧
    (∃ evs, (Cypress.run Cypress.steadyRunner
          (Cypress.fillPersonalDetails (lit "Jane") (lit "Doe") (lit "+49 123 456 7890"))
          { state := (), trace := [] }).2.trace = [] ++ evs ∧
        evs.map Prod.fst
          = Cypress.fillPersonalDetails (lit "Jane") (lit "Doe") (lit "+49 123 456 7890")) :=
  have h := fillSignupForm_fillPersonalDetails_calls Playwright.steadyBrowser
    Cypress.steadyRunner (lit "a@check.de") (lit "Passw0rdA!") (lit "Jane") (lit "Doe")
    (lit "+49 123 456 7890")
  ⟨match h.1 { state := (), trace := [] } with
    | ⟨evs, ht, _, hret, _⟩ => ⟨evs, ht, (hret .undefined rfl).2.1⟩,
   h.2.1 { state := (), trace := [] } .undefined rfl,
   match h.2.2.2.2.2.2.2 { state := (), trace := [] } with
    | ⟨evs, ht, _, hret⟩ => ⟨evs, ht, (hret rfl).1⟩⟩

/-! ## The claim on the end-to-end scenario -/

theorem neverClicks_call {σ : Type} (b : Playwright.Browser σ) (l : Playwright.Locator)
    (a : Playwright.Action) (ha : ∀ force, a ≠ .click l force) :
    Playwright.NeverClicks l (Playwright.call b a) := by
  intro s
  refine ⟨[(a, (b.perform a s.state).1)], by simp [call_eq], ?_⟩
  intro ev hev force
  simp only [List.mem_singleton] at hev
  subst hev
  exact ha force

theorem neverClicks_pure {σ α : Type} (l : Playwright.Locator) (r : Outcome α) :
    Playwright.NeverClicks l (fun s : Playwright.Session σ => (r, s)) := by
  intro s
  exact ⟨[], by simp, by simp⟩

theorem neverClicks_andThen {σ α β : Type} (l : Playwright.Locator)
    (m : Playwright.Step σ α) (k : α → Playwright.Step σ β)
    (hm : Playwright.NeverClicks l m) (hk : ∀ v, Playwright.NeverClicks l (k v)) :
    Playwright.NeverClicks l (m.andThen k) := by
  intro s
  obtain ⟨evs1, ht1, h1⟩ := hm s
  simp only [Playwright.Step.andThen]
  cases hms : m s with
  | mk r1 s1 =>
    rw [hms] at ht1
    replace ht1 : s1.trace = s.trace ++ evs1 := ht1
    cases r1 with
    | raised e => exact ⟨evs1, ht1, h1⟩
    | returned v1 =>
      obtain ⟨evs2, ht2, h2⟩ := hk v1 s1
      refine ⟨evs1 ++ evs2, by rw [ht2, ht1, List.append_assoc], ?_⟩
      intro ev hev
      rcases List.mem_append.1 hev with h | h
      · exact h1 ev h
      · exact h2 ev h

theorem neverClicks_consoleLog {σ : Type} (l : Playwright.Locator) (message : JSString) :
    Playwright.NeverClicks l (Playwright.consoleLog message : Playwright.Step σ JSValue) := by
  intro s
  refine ⟨[(.consoleLog message, .returned .undefined)], by simp [Playwright.consoleLog], ?_⟩
  intro ev hev force
  simp only [List.mem_singleton] at hev
  subst hev
  simp

theorem neverClicks_expectToBe {σ : Type} (l : Playwright.Locator) (actual expected : JSValue) :
    Playwright.NeverClicks l (Playwright.expectToBe actual expected : Playwright.Step σ JSValue) := by
  intro s
  refine ⟨[], ?_, by simp⟩
  simp only [Playwright.expectToBe]
  split <;> simp

theorem neverClicks_acceptCookies {σ : Type} (b : Playwright.Browser σ)
    (l : Playwright.Locator) (hl : Playwright.acceptAllButton ≠ l) :
    Playwright.NeverClicks l (Playwright.acceptCookiesIfPresent b) := by
  have hbody : Playwright.NeverClicks l
      ((Playwright.call b (.waitForVisible Playwright.acceptAllButton (some 5000))).andThen
        fun _ => Playwright.call b (.click Playwright.acceptAllButton false)) :=
    neverClicks_andThen l _ _ (neverClicks_call b l _ (by simp)) fun _ =>
      neverClicks_call b l _ (by simp [hl])
  intro s
  obtain ⟨evs1, ht1, h1⟩ := hbody s
  simp only [Playwright.acceptCookiesIfPresent]
  cases hms : ((Playwright.call b (.waitForVisible Playwright.acceptAllButton
      (some 5000))).andThen
        fun _ => Playwright.call b (.click Playwright.acceptAllButton false)) s with
  | mk r1 s1 =>
    rw [hms] at ht1
    replace ht1 : s1.trace = s.trace ++ evs1 := ht1
    cases r1 with
    | returned v => exact ⟨evs1, ht1, h1⟩
    | raised e =>
      obtain ⟨evs2, ht2, h2⟩ :=
        neverClicks_consoleLog (σ := σ) l (lit "Accept button not found within timeout.") s1
      refine ⟨evs1 ++ evs2, by rw [ht2, ht1, List.append_assoc], ?_⟩
      intro ev hev
      rcases List.mem_append.1 hev with h | h
      · exact h1 ev h
      · exact h2 ev h

theorem neverClicks_loop {σ : Type} (b : Playwright.Browser σ) (l opt : Playwright.Locator)
    (text : JSString) (hl : opt ≠ l) :
    ∀ n, Playwright.NeverClicks l (Playwright.selectDynamicDropDownLoop b opt text n) := by
  have hattempt : Playwright.NeverClicks l (Playwright.attemptClick b opt) :=
    neverClicks_andThen l _ _ (neverClicks_call b l _ (by simp)) fun _ =>
      neverClicks_andThen l _ _ (neverClicks_call b l _ (by simp)) fun _ =>
        neverClicks_call b l _ (by simp [hl])
  have hfallback : ∀ i, Playwright.NeverClicks l (Playwright.fallbackClick b opt text i) :=
    fun i => neverClicks_andThen l _ _ (neverClicks_consoleLog l _) fun _ =>
      neverClicks_andThen l _ _ (neverClicks_call b l _ (by simp)) fun _ =>
        neverClicks_andThen l _ _ (neverClicks_call b l _ (by simp)) fun _ =>
          neverClicks_call b l _ (by simp)
  intro n
  induction n with
  | zero =>
    intro s
    exact ⟨[], by simp [Playwright.selectDynamicDropDownLoop], by simp⟩
  | succ n ih =>
    intro s
    obtain ⟨evs1, ht1, h1⟩ := hattempt s
    simp only [Playwright.selectDynamicDropDownLoop]
    cases ha : Playwright.attemptClick b opt s with
    | mk r1 s1 =>
      rw [ha] at ht1
      replace ht1 : s1.trace = s.trace ++ evs1 := ht1
      cases r1 with
      | returned v => exact ⟨evs1, ht1, h1⟩
      | raised e =>
        obtain ⟨evs2, ht2, h2⟩ :=
          neverClicks_andThen l _ _ (hfallback (3 - (n + 1))) (fun _ => ih) s1
        refine ⟨evs1 ++ evs2, by rw [ht2, ht1, List.append_assoc], ?_⟩
        intro ev hev
        rcases List.mem_append.1 hev with h | h
        · exact h1 ev h
        · exact h2 ev h

theorem neverClicks_selectDynamicDropDown {σ : Type} (b : Playwright.Browser σ)
    (l dl dvl : Playwright.Locator) (text : JSString) (hdl : dl ≠ l)
    (hopt : Playwright.optionLocator dvl text ≠ l) :
    Playwright.NeverClicks l (Playwright.selectDynamicDropDown b dl dvl text) :=
  neverClicks_andThen l _ _ (neverClicks_call b l _ (by simp [hdl])) fun _ =>
    neverClicks_andThen l _ _ (neverClicks_call b l _ (by simp)) fun _ =>
      neverClicks_andThen l _ _ (neverClicks_call b l _ (by simp)) fun _ =>
        neverClicks_andThen l _ _ (neverClicks_call b l _ (by simp)) fun _ =>
          neverClicks_loop b l _ text hopt 3

theorem neverClicks_clickElement {σ : Type} (b : Playwright.Browser σ)
    (l element : Playwright.Locator) (h : element ≠ l) :
    Playwright.NeverClicks l (Playwright.clickElement b element) :=
  neverClicks_andThen l _ _ (neverClicks_call b l _ (by simp [h])) fun _ =>
    neverClicks_pure l _

theorem neverClicks_fillFormField {σ : Type} (b : Playwright.Browser σ)
    (l element : Playwright.Locator) (value : JSString) :
    Playwright.NeverClicks l (Playwright.fillFormField b element value) :=
  neverClicks_andThen l _ _ (neverClicks_call b l _ (by simp)) fun _ =>
    neverClicks_pure l _

theorem neverClicks_isElementClickable {σ : Type} (b : Playwright.Browser σ)
    (l element : Playwright.Locator) :
    Playwright.NeverClicks l (Playwright.isElementClickable b element) := by
  refine neverClicks_andThen l _ _ (neverClicks_call b l _ (by simp)) fun enabled => ?_
  split
  · exact neverClicks_call b l _ (by simp)
  · exact neverClicks_pure l _

/-- The end-to-end scenario never clicks the `Create an account` button. -/
theorem neverClicks_e2eScenario {σ : Type} (b : Playwright.Browser σ)
    (email password firstName lastName phoneNumber companyName country hearAboutUs : JSString) :
    Playwright.NeverClicks Playwright.createAccountButton
      (Playwright.e2eScenario b email password firstName lastName phoneNumber companyName
        country hearAboutUs) := by
  have hcookie : Playwright.NeverClicks Playwright.createAccountButton
      (Playwright.acceptCookiesIfPresent b) :=
    neverClicks_acceptCookies b _ (by decide)
  have hvoid : ∀ m : Playwright.Step σ JSValue,
      Playwright.NeverClicks Playwright.createAccountButton m →
      Playwright.NeverClicks Playwright.createAccountButton
        (m.andThen fun _ s => ((.returned .undefined : Outcome JSValue), s)) :=
    fun m hm => neverClicks_andThen _ _ _ hm fun _ => neverClicks_pure _ _
  unfold Playwright.e2eScenario
  refine neverClicks_andThen _ _ _ ?_ fun _ => neverClicks_andThen _ _ _ ?_ fun _ =>
    neverClicks_andThen _ _ _ ?_ fun _ => neverClicks_andThen _ _ _ ?_ fun _ =>
    neverClicks_andThen _ _ _ ?_ fun _ => neverClicks_andThen _ _ _ ?_ fun _ =>
    neverClicks_andThen _ _ _ (neverClicks_expectToBe _ _ _) fun _ =>
    neverClicks_andThen _ _ _ (neverClicks_isElementClickable b _ _) fun _ =>
    neverClicks_expectToBe _ _ _
  · exact neverClicks_andThen _ _ _ (neverClicks_call b _ _ (by simp)) fun _ =>
      neverClicks_pure _ _
  · exact neverClicks_andThen _ _ _ hcookie fun _ =>
      neverClicks_clickElement b _ _ (by decide)
  · exact neverClicks_andThen _ _ _ hcookie fun _ =>
      neverClicks_andThen _ _ _ (hvoid _ (neverClicks_fillFormField b _ _ _)) fun _ =>
      neverClicks_andThen _ _ _ (hvoid _ (neverClicks_fillFormField b _ _ _)) fun _ =>
      neverClicks_andThen _ _ _
        (hvoid _ (neverClicks_andThen _ _ _ (neverClicks_call b _ _ (by simp)) fun _ =>
          neverClicks_pure _ _)) fun _ =>
      hvoid _ (neverClicks_andThen _ _ _ hcookie fun _ =>
        hvoid _ (neverClicks_clickElement b _ _ (by decide)))
  · exact neverClicks_andThen _ _ _ (hvoid _ (neverClicks_fillFormField b _ _ _)) fun _ =>
      neverClicks_andThen _ _ _ (hvoid _ (neverClicks_fillFormField b _ _ _)) fun _ =>
      neverClicks_andThen _ _ _ (hvoid _ (neverClicks_fillFormField b _ _ _)) fun _ =>
      hvoid _ (hvoid _ (neverClicks_clickElement b _ _ (by decide)))
  · exact neverClicks_andThen _ _ _ (hvoid _ (neverClicks_fillFormField b _ _ _)) fun _ =>
      neverClicks_andThen _ _ _
        (neverClicks_selectDynamicDropDown b _ _ _ _ (by decide)
          (by simp [Playwright.optionLocator, Playwright.createAccountButton])) fun _ =>
      hvoid _ (neverClicks_selectDynamicDropDown b _ _ _ _ (by decide)
          (by simp [Playwright.optionLocator, Playwright.createAccountButton]))
  · exact neverClicks_call b _ _ (by simp)

/-- When `selectDynamicDropDown` returns, its first call was the click that
opens the dropdown and its last call the forced click on the option, and
both returned. -/
theorem selectDynamicDropDown_shape {σ : Type} (b : Playwright.Browser σ)
    (dl dvl : Playwright.Locator) (text : JSString) (s : Playwright.Session σ) (v : JSValue)
    (h : (Playwright.selectDynamicDropDown b dl dvl text s).1 = .returned v) :
    ∃ evs w u, (Playwright.selectDynamicDropDown b dl dvl text s).2.trace = s.trace ++ evs ∧
      evs.head? = some (.click dl false, .returned w) ∧
      evs.getLast? = some (.click (Playwright.optionLocator dvl text) true, .returned u) := by
  have hrest : Playwright.ClickSpec (Playwright.optionLocator dvl text) text 3
      ((Playwright.call b (.waitForVisible (.first dvl) (some 5000))).andThen fun _ =>
        (Playwright.call b (.waitForVisible (Playwright.optionLocator dvl text)
          (some 5000))).andThen fun _ =>
        (Playwright.call b (.scrollIntoViewIfNeeded
          (Playwright.optionLocator dvl text))).andThen fun _ =>
        Playwright.selectDynamicDropDownLoop b (Playwright.optionLocator dvl text) text 3) := by
    refine call_andThen_clickSpec b _ _ 3 _ (by simp) (by simp) _ ?_
    refine call_andThen_clickSpec b _ _ 3 _ (by simp) (by simp) _ ?_
    refine call_andThen_clickSpec b _ _ 3 _ (by simp) (by simp) _ ?_
    exact selectDynamicDropDownLoop_spec b _ _ 3
  unfold Playwright.selectDynamicDropDown at h ⊢
  generalize ((Playwright.call b (.waitForVisible (.first dvl) (some 5000))).andThen fun _ =>
        (Playwright.call b (.waitForVisible (Playwright.optionLocator dvl text)
          (some 5000))).andThen fun _ =>
        (Playwright.call b (.scrollIntoViewIfNeeded
          (Playwright.optionLocator dvl text))).andThen fun _ =>
        Playwright.selectDynamicDropDownLoop b (Playwright.optionLocator dvl text) text 3)
    = rest at hrest h ⊢
  simp only [Playwright.Step.andThen, call_eq] at h ⊢
  cases hr : (b.perform (.click dl false) s.state).1 with
  | raised e => simp [hr] at h
  | returned w =>
    simp only [hr] at h ⊢
    obtain ⟨evs, ht, _, hret, _⟩ := hrest
      { state := (b.perform (.click dl false) s.state).2,
        trace := s.trace ++ [(.click dl false, .returned w)] }
    obtain ⟨u, hu⟩ := hret v h
    refine ⟨(.click dl false, .returned w) :: evs, w, u, ?_, by simp, ?_⟩
    · rw [ht]
      simp
    · exact getLast?_append_of_some [_] evs _ hu

/-- When `enterCompanyName` returns, its one call was the fill of the company
field with its argument, and it returned. -/
theorem enterCompanyName_trace {σ : Type} (b : Playwright.Browser σ)
    (companyNameText : JSString) (s s1 : Playwright.Session σ) (v : JSValue)
    (h : Playwright.enterCompanyName b companyNameText s = (.returned v, s1)) :
    ∃ w, s1.trace
      = s.trace ++ [(.fill Playwright.companyNameField companyNameText, .returned w)] := by
  simp only [Playwright.enterCompanyName, Playwright.fillFormField, Playwright.Step.andThen,
    call_eq] at h
  cases hr : (b.perform (.fill Playwright.companyNameField companyNameText) s.state).1 with
  | raised e => simp [hr] at h
  | returned w =>
    simp only [hr, Prod.mk.injEq] at h
    exact ⟨w, by rw [← h.2]⟩

/-- When the Playwright `fillCompanyDetails` returns, it has entered the
company name, then selected the country, then the channel: its calls are the
fill of the company field, then the calls of `selectCountry`, from the click
that opens the country dropdown to the forced click on the country option,
then the calls of `selectHearAboutUs`, likewise. -/
theorem fillCompanyDetails_order {σ : Type} (b : Playwright.Browser σ)
    (companyNameText countryText hearAboutUsText : JSString) (s : Playwright.Session σ)
    (v : JSValue)
    (h : (Playwright.fillCompanyDetails b companyNameText countryText hearAboutUsText s).1
      = .returned v) :
    ∃ w evsC evsH w1 u1 w2 u2,
      (Playwright.fillCompanyDetails b companyNameText countryText hearAboutUsText s).2.trace
        = s.trace ++ [(.fill Playwright.companyNameField companyNameText, .returned w)]
          ++ evsC ++ evsH ∧
      evsC.head? = some (.click Playwright.countryDropdown false, .returned w1) ∧
      evsC.getLast? = some (.click
        (Playwright.optionLocator Playwright.countryDropdownValues countryText) true,
        .returned u1) ∧
      evsH.head? = some (.click Playwright.hearAboutUsDropdown false, .returned w2) ∧
      evsH.getLast? = some (.click
        (Playwright.optionLocator Playwright.hearAboutUsDropdownValues hearAboutUsText) true,
        .returned u2) := by
  simp only [Playwright.fillCompanyDetails, Playwright.Step.andThen] at h ⊢
  cases he : Playwright.enterCompanyName b companyNameText s with
  | mk r1 s1 =>
    rw [he] at h
    cases r1 with
    | raised e => simp at h
    | returned v1 =>
      simp only [] at h ⊢
      obtain ⟨w, ht1⟩ := enterCompanyName_trace b companyNameText s s1 v1 he
      cases hc : Playwright.selectCountry b countryText s1 with
      | mk r2 s2 =>
        rw [hc] at h
        cases r2 with
        | raised e => simp at h
        | returned v2 =>
          simp only [] at h ⊢
          obtain ⟨evsC, w1, u1, htC, hhC, hlC⟩ :=
            selectDynamicDropDown_shape b _ _ countryText s1 v2 (congrArg Prod.fst hc)
          have htC2 : s2.trace = s1.trace ++ evsC := by
            rw [← htC]
            exact (congrArg (fun p => p.2.trace) hc).symm
          cases hh : Playwright.selectHearAboutUs b hearAboutUsText s2 with
          | mk r3 s3 =>
            rw [hh] at h
            cases r3 with
            | raised e => simp at h
            | returned v3 =>
              simp only [] at h ⊢
              obtain ⟨evsH, w2, u2, htH, hhH, hlH⟩ :=
                selectDynamicDropDown_shape b _ _ hearAboutUsText s2 v3
                  (congrArg Prod.fst hh)
              have htH2 : s3.trace = s2.trace ++ evsH := by
                rw [← htH]
                exact (congrArg (fun p => p.2.trace) hh).symm
              exact ⟨w, evsC, evsH, w1, u1, w2, u2, by rw [htH2, htC2, ht1], hhC, hlC, hhH,
                hlH⟩

/-- When the end-to-end scenario passes, its last call is the query whether
the `Create an account` button is visible, which returned. -/
theorem e2eScenario_endsWith {σ : Type} (b : Playwright.Browser σ)
    (email password firstName lastName phoneNumber companyName country hearAboutUs : JSString)
    (s : Playwright.Session σ) (v : JSValue)
    (h : (Playwright.e2eScenario b email password firstName lastName phoneNumber companyName
      country hearAboutUs s).1 = .returned v) :
    ∃ u, (Playwright.e2eScenario b email password firstName lastName phoneNumber companyName
      country hearAboutUs s).2.trace.getLast?
        = some (.isVisible Playwright.createAccountButton, .returned u) := by
  revert s v
  unfold Playwright.e2eScenario
  refine andThen_endsWith _ _ _ fun _ => ?_
  refine andThen_endsWith _ _ _ fun _ => ?_
  refine andThen_endsWith _ _ _ fun _ => ?_
  refine andThen_endsWith _ _ _ fun _ => ?_
  refine andThen_endsWith _ _ _ fun _ => ?_
  refine andThen_endsWith _ _ _ fun _ => ?_
  refine andThen_endsWith _ _ _ fun _ => ?_
  intro s v h
  simp only [Playwright.isSubmitButtonEnabled, Playwright.isElementClickable,
    Playwright.Step.andThen, call_eq] at h ⊢
  cases he : (b.perform (.isEnabled Playwright.createAccountButton) s.state).1 with
  | raised e => simp [he] at h
  | returned enabled =>
    simp only [he] at h ⊢
    by_cases hb : enabled.toBoolean = true
    · simp only [hb, if_true, call_eq] at h ⊢
      cases hv : (b.perform (.isVisible Playwright.createAccountButton)
          (b.perform (.isEnabled Playwright.createAccountButton) s.state).2).1 with
      | raised e => simp [hv] at h
      | returned u =>
        simp only [hv] at h ⊢
        refine ⟨u, ?_⟩
        simp only [Playwright.expectToBe]
        split <;> simp
    · exfalso
      have hb2 : enabled.toBoolean = false := by simpa using hb
      simp only [hb2, Bool.false_eq_true, if_false, Playwright.expectToBe] at h
      split at h
      · rename_i heq
        rw [heq] at hb2
        simp [JSValue.toBoolean] at hb2
      · simp at h

/-- C23, as stated, fails: on `formBrowser`, where every call returns, the
country read back is the one selected and the button is enabled and visible,
the end-to-end scenario passes with the profile of the spec, and none of its
calls is a click on the `Create an account` button: the scenario does not
call `clickCreateAccount`, so it does not trigger the submission. -/
theorem e2eScenario_no_submit_counterexample :
    (Playwright.e2eScenario Playwright.formBrowser (lit "a@check.de") (lit "Passw0rdA!")
        (lit "Jane") (lit "Doe") (lit "+49 123 456 7890") (lit "Acme") (lit "Germany")
        (lit "Google") { state := [], trace := [] }).1 = .returned .undefined ∧
    ((Playwright.e2eScenario Playwright.formBrowser (lit "a@check.de") (lit "Passw0rdA!")
        (lit "Jane") (lit "Doe") (lit "+49 123 456 7890") (lit "Acme") (lit "Germany")
        (lit "Google") { state := [], trace := [] }).2.trace.map Prod.fst).filter
      (fun a => decide (a = .click Playwright.createAccountButton false) ||
        decide (a = .click Playwright.createAccountButton true)) = [] :=
  ⟨by decide!, by decide!⟩

/-- C23 (amended): the end-to-end scenario fills the three steps and stops on
the third one without submitting. For every browser, none of the calls of the
scenario is a click on the `Create an account` button (`clickCreateAccount`
is not called); when the scenario passes, its last call is the query whether
that button is visible, the second half of `isSubmitButtonEnabled`; and when
`fillCompanyDetails` returns, it has entered the company name, then selected
the country, then the hear-about-us channel, in that order: the fill of the
company field, then the calls of `selectCountry` from the click that opens
the country dropdown to the forced click on the country option, then the
calls of `selectHearAboutUs` likewise. -/
theorem e2eScenario_stops_before_submit {σ : Type} (b : Playwright.Browser σ)
    (email password firstName lastName phoneNumber companyName country hearAboutUs : JSString)
    (s : Playwright.Session σ) :
    (∃ evs, (Playwright.e2eScenario b email password firstName lastName phoneNumber
          companyName country hearAboutUs s).2.trace = s.trace ++ evs ∧
        ∀ ev ∈ evs, ∀ force, ev.1 ≠ .click Playwright.createAccountButton force) ∧
    (∀ v, (Playwright.e2eScenario b email password firstName lastName phoneNumber
          companyName country hearAboutUs s).1 = .returned v →
      ∃ u, (Playwright.e2eScenario b email password firstName lastName phoneNumber
          companyName country hearAboutUs s).2.trace.getLast?
        = some (.isVisible Playwright.createAccountButton, .returned u)) ∧
    (∀ v, (Playwright.fillCompanyDetails b companyName country hearAboutUs s).1
        = .returned v →
      ∃ w evsC evsH w1 u1 w2 u2,
        (Playwright.fillCompanyDetails b companyName country hearAboutUs s).2.trace
          = s.trace ++ [(.fill Playwright.companyNameField companyName, .returned w)]
            ++ evsC ++ evsH ∧
        evsC.head? = some (.click Playwright.countryDropdown false, .returned w1) ∧
        evsC.getLast? = some (.click
          (Playwright.optionLocator Playwright.countryDropdownValues country) true,
          .returned u1) ∧
        evsH.head? = some (.click Playwright.hearAboutUsDropdown false, .returned w2) ∧
        evsH.getLast? = some (.click
          (Playwright.optionLocator Playwright.hearAboutUsDropdownValues hearAboutUs) true,
          .returned u2)) :=
  ⟨neverClicks_e2eScenario b email password firstName lastName phoneNumber companyName
      country hearAboutUs s,
    fun v h => e2eScenario_endsWith b email password firstName lastName phoneNumber
      companyName country hearAboutUs s v h,
    fun v h => fillCompanyDetails_order b companyName country hearAboutUs s v h⟩

/-- C23 (amended) at `formBrowser` with the profile of the spec: the scenario
passes and its last call is the query on the button. -/
theorem e2eScenario_stops_before_submit_witness :
    (∃ u, (Playwright.e2eScenario Playwright.formBrowser (lit "a@check.de")
        (lit "Passw0rdA!") (lit "Jane") (lit "Doe") (lit "+49 123 456 7890") (lit "Acme")
        (lit "Germany") (lit "Google") { state := [], trace := [] }).2.trace.getLast?
      = some (.isVisible Playwright.createAccountButton, .returned u)) ∧
    (∃ w evsC evsH w1 u1 w2 u2,
      (Playwright.fillCompanyDetails Playwright.formBrowser (lit "Acme") (lit "Germany")
          (lit "Google") { state := [], trace := [] }).2.trace
        = [] ++ [(.fill Playwright.companyNameField (lit "Acme"), .returned w)]
          ++ evsC ++ evsH ∧
      evsC.head? = some (.click Playwright.countryDropdown false, .returned w1) ∧
      evsC.getLast? = some (.click
        (Playwright.optionLocator Playwright.countryDropdownValues (lit "Germany")) true,
        .returned u1) ∧
      evsH.head? = some (.click Playwright.hearAboutUsDropdown false, .returned w2) ∧
      evsH.getLast? = some (.click
        (Playwright.optionLocator Playwright.hearAboutUsDropdownValues (lit "Google")) true,
        .returned u2)) :=
  have h := e2eScenario_stops_before_submit Playwright.formBrowser (lit "a@check.de")
    (lit "Passw0rdA!") (lit "Jane") (lit "Doe") (lit "+49 123 456 7890") (lit "Acme")
    (lit "Germany") (lit "Google") { state := [], trace := [] }
  ⟨h.2.1 .undefined (by decide!), h.2.2 .undefined (by decide!)⟩

/-! ## The claim on the helpers of `signupHelper` -/

/-- C24: the helpers `completeSignupStep1`, `completeSignupStep2` and
`completeSignupStep3` take every value from the one profile that the single
`getTestData()` call of their module returned when the module was loaded
(in the Cypress suite and in the Playwright suites): the email and password,
the names and phone number, the company, country and channel they pass on are
the fields of that profile; and a call of a helper leaves the random source as
it is, so that a helper called again, in whatever state of the random source,
passes the same values. -/
theorem completeSignupStep_single_profile {σ : Type} (f : Faker σ) (fuel : Nat)
    (testData : Fixture) (toLowerCase : JSString → JSString)
    (readFileSync : Except Playwright.JSError JSString)
    (jsonParse : JSString → Except Playwright.JSError (Option Fixture)) (g : σ) :
    (∀ p g1, Cypress.getTestData f fuel testData g = some (p, g1) →
      Cypress.loadSignupHelper f fuel testData g = some ({ testData := p }, g1)) ∧
    (∀ p g1, Playwright.getTestData f toLowerCase fuel readFileSync jsonParse g
        = some (.ok (p, g1)) →
      Playwright.loadSignupHelper f toLowerCase fuel readFileSync jsonParse g
        = some (.ok ({ testData := p }, g1))) ∧
    (∀ (p : Profile) (h h2 : σ),
      completeSignupStep1 { testData := p } h = (.fillSignupForm p.email p.password, h) ∧
      completeSignupStep2 { testData := p } h
        = (.fillPersonalDetails p.firstName p.lastName p.phoneNumber, h) ∧
      completeSignupStep3 { testData := p } h
        = (.fillCompanyDetails p.companyName p.country p.hearAboutUs, h) ∧
      (completeSignupStep1 { testData := p } (completeSignupStep1 { testData := p } h).2).1
        = (completeSignupStep1 { testData := p } h).1 ∧
      (completeSignupStep1 { testData := p } h2).1
        = (completeSignupStep1 { testData := p } h).1 ∧
      (completeSignupStep2 { testData := p } h2).1
        = (completeSignupStep2 { testData := p } h).1 ∧
      (completeSignupStep3 { testData := p } h2).1
        = (completeSignupStep3 { testData := p } h).1) := by
  refine ⟨?_, ?_, ?_⟩
  · intro p g1 h
    simp [Cypress.loadSignupHelper, h]
  · intro p g1 h
    simp [Playwright.loadSignupHelper, h]
  · intro p h h2
    exact ⟨rfl, rfl, rfl, rfl, rfl, rfl, rfl⟩

/-- C24 at the sample source and the fixture with the sentinel: the module
is loaded with the generated profile, and the first helper passes its email
and password. -/
theorem completeSignupStep_single_profile_witness :
    Cypress.loadSignupHelper sampleFaker 3 dynamicFixture 0
      = some ({ testData := sampleProfile }, 9) ∧
    completeSignupStep1 { testData := sampleProfile } (9 : Nat)
      = (.fillSignupForm (.string (lit "Jane.Doe@check.de")) (.string (lit "xxxxxxxx7A!")),
          9) :=
  have h := completeSignupStep_single_profile sampleFaker 3 dynamicFixture id
    (.ok sampleRawData) (fun _ => .ok none) 0
  ⟨h.1 sampleProfile 9 (by decide), (h.2.2 sampleProfile 9 9).1⟩

end Circula
